import Mathlib

/-!
Verification of the vipex fluent chart-configuration builder (src/main.ts).

The builder mutates a single nested JavaScript object (the ApexCharts options
tree).  We shallow-embed that tree as `JVal`: mappings are ordered association
lists (JS objects preserve insertion order; property update keeps the position,
property creation appends), sequences are lists, and scalars are null,
booleans, integers, strings, and opaque function references.  An absent
property is modelled as an absent key (JS `undefined`).

Mutation is embedded by state passing: every builder method becomes a function
from the options tree to an updated tree.  The compiled module is ES-module
code, hence strict mode: assigning a property on a primitive or on
`null`/`undefined` throws a `TypeError`.  Operations therefore return
`Except Unit`, `.error ()` standing for a thrown exception.  One deliberate
model restriction: sequences are pure sequences, so a named property written
on an array object (which plain JavaScript would accept) is not representable
and is mapped to `.error ()`; no theorem below exercises that corner, and no
library code path writes a named property on an array of a well-shaped tree.
-/

/-- A JavaScript value of the configuration tree: `vNull` is `null`, `vObj`
is an object given as its ordered own-property list, `vArr` a pure array,
`vFun i` an opaque function reference (identified by `i`).  An absent
property is represented by key absence, i.e. JS `undefined`. -/
inductive JVal where
  | vNull : JVal
  | vBool : Bool → JVal
  | vNum : Int → JVal
  | vStr : String → JVal
  | vObj : List (String × JVal) → JVal
  | vArr : List JVal → JVal
  | vFun : Nat → JVal
deriving Repr

/-- An object's ordered own-property list. -/
abbrev Obj := List (String × JVal)

/-- Property read on an object: first binding of the key (our builders never
create duplicate keys, see `objSet`). -/
def objGet : Obj → String → Option JVal
  | [], _ => none
  | (k, v) :: rest, key => if k = key then some v else objGet rest key

/-- JS property write on an object: an existing key keeps its position and
gets the new value; a new key is appended (JS insertion order). -/
def objSet : Obj → String → JVal → Obj
  | [], key, v => [(key, v)]
  | (k, w) :: rest, key, v =>
      if k = key then (k, v) :: rest else (k, w) :: objSet rest key v

/-- JS truthiness: `null`, `false`, `0` and `""` are falsy; objects, arrays
and functions are truthy (also the empty object and the empty array). -/
def truthy : JVal → Bool
  | JVal.vNull => false
  | JVal.vBool b => b
  | JVal.vNum n => n ≠ 0
  | JVal.vStr s => s ≠ ""
  | JVal.vObj _ => true
  | JVal.vArr _ => true
  | JVal.vFun _ => true

/-- Truthiness of a property read, where `none` is JS `undefined` (falsy). -/
def truthyO : Option JVal → Bool
  | none => false
  | some v => truthy v

/-- JS property read `v[k]`: reading from `null` (or `undefined`, i.e. an
absent value, which callers handle separately) throws; reading a missing
property of an object, a boxed primitive or an array yields `undefined`. -/
def jsGet : JVal → String → Except Unit (Option JVal)
  | JVal.vObj fs, k => Except.ok (objGet fs k)
  | JVal.vNull, _ => Except.error ()
  | _, _ => Except.ok none

/-- JS property write `v[k] = x` in strict mode: on an object it updates or
appends; on `null` or a primitive it throws a `TypeError`.  (Model
restriction: a named property on an array object is unrepresentable and also
maps to an error; no verified code path reaches that case.) -/
def jsSet : JVal → String → JVal → Except Unit JVal
  | JVal.vObj fs, k, x => Except.ok (JVal.vObj (objSet fs k x))
  | _, _, _ => Except.error ()

/-- Optional-chained read `v?.k` followed by plain reads: yields `none` on a
nullish or property-less base instead of throwing. -/
def optGet (v : JVal) (k : String) : Option JVal :=
  match v with
  | JVal.vObj fs => objGet fs k
  | _ => none

/-- Object-spread accumulation: `spreadInto acc v` is the object literal
that starts from the bindings `acc` and then spreads `v` into it.  Spreading
an object copies its own properties in order (later keys overwrite); spreading
`null`, `undefined`, a boolean, a number or a function contributes nothing,
exactly as in JS. -/
def spreadInto (acc : Obj) (v : JVal) : Obj :=
  match v with
  | JVal.vObj fs => fs.foldl (fun a kv => objSet a kv.1 kv.2) acc
  | _ => acc

/-- The JS merge pattern of the builder, an object literal of two spreads:
`\x7b ...a, ...b \x7d`. -/
def mergeObj (a b : JVal) : Obj := spreadInto (spreadInto [] a) b

/-- Read along a path of keys, descending through mappings only
(`getPath v [] = some v`). -/
def getPath : JVal → List String → Option JVal
  | v, [] => some v
  | JVal.vObj fs, k :: p =>
      match objGet fs k with
      | some w => getPath w p
      | none => none
  | _, _ :: _ => none

/-- The recurring scaffolding statement `t.k = t.k || \x7b\x7d`: read the
property, and write back either the existing truthy value (a same-value
rewrite) or a fresh empty object. -/
def ensureField (t : JVal) (k : String) : Except Unit JVal := do
  let cur ← jsGet t k
  jsSet t k (if truthyO cur then cur.getD JVal.vNull else JVal.vObj [])

/-- The statement `if (!o.key) o.key = dflt` on the root options object. -/
def ensureRoot (o : Obj) (key : String) (dflt : JVal) : Obj :=
  if truthyO (objGet o key) then o else objSet o key dflt

/-! ### The path-set primitive (`ChartComponent.setOption`, main.ts 65-83) -/

/-- The loop body of `setOption`, acting on the current node and the remaining
path segments.  For every segment but the last: if the child is `undefined` or
`null`, an empty object is written there (a write that throws on a non-object
holder); then the walk descends and the recursive result is written back (the
source mutates the child in place; the embedding passes state).  At the last
segment the value is assigned unconditionally. -/
def setPathGo : JVal → List String → JVal → Except Unit JVal
  | cur, [], v =>
      -- unreachable from `setOption` (`split` never yields `[]`); JS would
      -- read `parts[-1]`, i.e. `undefined`, and assign key `"undefined"`
      jsSet cur "undefined" v
  | cur, [p], v => jsSet cur p v
  | cur, p :: q :: rest, v => do
      let c0 ← jsGet cur p
      match c0 with
      | none => do
          let cur' ← jsSet cur p (JVal.vObj [])
          let child' ← setPathGo (JVal.vObj []) (q :: rest) v
          jsSet cur' p child'
      | some JVal.vNull => do
          let cur' ← jsSet cur p (JVal.vObj [])
          let child' ← setPathGo (JVal.vObj []) (q :: rest) v
          jsSet cur' p child'
      | some c => do
          let child' ← setPathGo c (q :: rest) v
          jsSet cur p child'

/-- Splitting loop of `path.split('.')`: JS splits at every dot and keeps
empty segments, and an empty path yields the one-element list of the empty
string. -/
def splitDotAux : List Char → List Char → List String
  | [], acc => [String.mk acc.reverse]
  | c :: cs, acc =>
      if c = '.' then String.mk acc.reverse :: splitDotAux cs []
      else splitDotAux cs (c :: acc)

/-- JS `path.split('.')`. -/
def splitDot (s : String) : List String := splitDotAux s.data []

/-- `setOption(path, value)`: split the dot-separated path and walk/create. -/
def setOption (o : Obj) (path : String) (v : JVal) : Except Unit JVal :=
  setPathGo (JVal.vObj o) (splitDot path) v

/-- The walk of `setOption` stays inside mappings: along the path every
existing child is a mapping or nullish (a nullish child is replaced by a fresh
empty mapping, under which the rest of the walk is trivially clear). -/
def pathClear : JVal → List String → Bool
  | JVal.vObj _, [_] => true
  | JVal.vObj fs, p :: q :: rest =>
      match objGet fs p with
      | none => true
      | some JVal.vNull => true
      | some c => pathClear c (q :: rest)
  | _, _ => false


/-! ### Shared statement shapes of the builder methods -/

/-- The statement `options.top!.key = v`: the non-null assertion is erased at
runtime, so an absent or non-object holder makes the write throw. -/
def setLeaf (o : Obj) (top key : String) (v : JVal) : Except Unit Obj :=
  match objGet o top with
  | none => Except.error ()
  | some t => do
      let t' ← jsSet t key v
      pure (objSet o top t')

/-- The statement `options.top!.mid!.key = v` (the tooltip x/y formatters). -/
def setLeaf2 (o : Obj) (top mid key : String) (v : JVal) : Except Unit Obj :=
  match objGet o top with
  | none => Except.error ()
  | some t => do
      let mv ← jsGet t mid
      match mv with
      | none => Except.error ()
      | some m => do
          let m' ← jsSet m key v
          let t' ← jsSet t mid m'
          pure (objSet o top t')

/-- The merge-setter statement `options.top!.sub = \x7b ...options.top.sub,
...config \x7d` shared by Tooltip.style, Legend.labels/markers/itemMargin,
Grid.padding, DataLabels.style/background, Markers.hover, Theme.monochrome. -/
def mergeSub (o : Obj) (top sub : String) (config : JVal) : Except Unit Obj :=
  match objGet o top with
  | none => Except.error ()
  | some t => do
      let old ← jsGet t sub
      let t' ← jsSet t sub (JVal.vObj (mergeObj (old.getD JVal.vNull) config))
      pure (objSet o top t')

/-- The nested scaffolding statement pair `t.k = t.k || \x7b\x7d;
t.k.sub = t.k.sub || \x7b\x7d` (the source reads `t.k` and mutates it in
place; the embedding reads it back and rewrites it). -/
def ensureFieldIn (t : JVal) (k sub : String) : Except Unit JVal := do
  let t ← ensureField t k
  let cv ← jsGet t k
  let c' ← ensureField (cv.getD JVal.vNull) sub
  jsSet t k c'

/-- One scaffolding statement of a constructor body: ensure a child key, or
ensure a child key together with one nested key inside it. -/
inductive ScafStep where
  | flat : String → ScafStep
  | nested : String → String → ScafStep

def scafStep (t : JVal) : ScafStep → Except Unit JVal
  | ScafStep.flat k => ensureField t k
  | ScafStep.nested k sub => ensureFieldIn t k sub

/-- A constructor body: the listed scaffolding statements in order. -/
def scafSteps (t : JVal) : List ScafStep → Except Unit JVal
  | [] => pure t
  | st :: rest => do
      let t ← scafStep t st
      scafSteps t rest

/-- The shared constructor shape of the leaf components (Tooltip, Legend,
Grid, DataLabels, Markers, Theme): ensure the top-level slot, then run the
scaffolding statements on it, writing the slot back (the source mutates it
in place). -/
def leafInit (o : Obj) (top : String) (steps : List ScafStep) :
    Except Unit Obj := do
  let o := ensureRoot o top (JVal.vObj [])
  match objGet o top with
  | none => Except.error ()   -- unreachable: the slot was just ensured
  | some t => do
      let t' ← scafSteps t steps
      pure (objSet o top t')

/-! ### Tooltip (main.ts 299-424) -/

def tooltipInit (o : Obj) : Except Unit Obj :=
  leafInit o "tooltip"
    [ScafStep.flat "style", ScafStep.flat "x", ScafStep.flat "y"]

def tooltipEnabled (o : Obj) (b : Bool) : Except Unit Obj :=
  setLeaf o "tooltip" "enabled" (JVal.vBool b)

def tooltipShared (o : Obj) (b : Bool) : Except Unit Obj :=
  setLeaf o "tooltip" "shared" (JVal.vBool b)

def tooltipFollowCursor (o : Obj) (b : Bool) : Except Unit Obj :=
  setLeaf o "tooltip" "followCursor" (JVal.vBool b)

def tooltipTheme (o : Obj) (s : String) : Except Unit Obj :=
  setLeaf o "tooltip" "theme" (JVal.vStr s)

def tooltipStyle (o : Obj) (config : JVal) : Except Unit Obj :=
  mergeSub o "tooltip" "style" config

def tooltipCustom (o : Obj) (f : Nat) : Except Unit Obj :=
  setLeaf o "tooltip" "custom" (JVal.vFun f)

def tooltipXFormatter (o : Obj) (f : Nat) : Except Unit Obj :=
  setLeaf2 o "tooltip" "x" "formatter" (JVal.vFun f)

def tooltipYFormatter (o : Obj) (f : Nat) : Except Unit Obj :=
  setLeaf2 o "tooltip" "y" "formatter" (JVal.vFun f)

/-! ### Legend (main.ts 430-550) -/

def legendInit (o : Obj) : Except Unit Obj :=
  leafInit o "legend" [ScafStep.flat "labels", ScafStep.flat "markers",
    ScafStep.flat "itemMargin"]

def legendShow (o : Obj) (b : Bool) : Except Unit Obj :=
  setLeaf o "legend" "show" (JVal.vBool b)

def legendPosition (o : Obj) (s : String) : Except Unit Obj :=
  setLeaf o "legend" "position" (JVal.vStr s)

def legendHorizontalAlign (o : Obj) (s : String) : Except Unit Obj :=
  setLeaf o "legend" "horizontalAlign" (JVal.vStr s)

def legendFontSize (o : Obj) (s : String) : Except Unit Obj :=
  setLeaf o "legend" "fontSize" (JVal.vStr s)

def legendFontFamily (o : Obj) (s : String) : Except Unit Obj :=
  setLeaf o "legend" "fontFamily" (JVal.vStr s)

def legendLabels (o : Obj) (config : JVal) : Except Unit Obj :=
  mergeSub o "legend" "labels" config

def legendMarkers (o : Obj) (config : JVal) : Except Unit Obj :=
  mergeSub o "legend" "markers" config

def legendItemMargin (o : Obj) (config : JVal) : Except Unit Obj :=
  mergeSub o "legend" "itemMargin" config

/-! ### Grid (main.ts 556-663) -/

def gridInit (o : Obj) : Except Unit Obj :=
  leafInit o "grid" [ScafStep.nested "xaxis" "lines",
    ScafStep.nested "yaxis" "lines", ScafStep.flat "padding"]

def gridShow (o : Obj) (b : Bool) : Except Unit Obj :=
  setLeaf o "grid" "show" (JVal.vBool b)

def gridBorderColor (o : Obj) (s : String) : Except Unit Obj :=
  setLeaf o "grid" "borderColor" (JVal.vStr s)

def gridStrokeDashArray (o : Obj) (n : Int) : Except Unit Obj :=
  setLeaf o "grid" "strokeDashArray" (JVal.vNum n)

def gridPosition (o : Obj) (s : String) : Except Unit Obj :=
  setLeaf o "grid" "position" (JVal.vStr s)

/-- Grid.xaxis / Grid.yaxis: `grid.which = grid.which || \x7b\x7d;
grid.which.lines = \x7b ...(grid.which.lines || \x7b\x7d), ...config.lines \x7d`. -/
def gridLines (o : Obj) (which : String) (config : JVal) : Except Unit Obj :=
  match objGet o "grid" with
  | none => Except.error ()
  | some g => do
      let g ← ensureField g which
      let axv ← jsGet g which
      let lv ← jsGet (axv.getD JVal.vNull) "lines"
      let cl ← jsGet config "lines"
      let ax' ← jsSet (axv.getD JVal.vNull) "lines"
        (JVal.vObj (mergeObj (lv.getD JVal.vNull) (cl.getD JVal.vNull)))
      let g' ← jsSet g which ax'
      pure (objSet o "grid" g')

def gridXaxis (o : Obj) (config : JVal) : Except Unit Obj :=
  gridLines o "xaxis" config

def gridYaxis (o : Obj) (config : JVal) : Except Unit Obj :=
  gridLines o "yaxis" config

def gridPadding (o : Obj) (config : JVal) : Except Unit Obj :=
  mergeSub o "grid" "padding" config

/-! ### DataLabels (main.ts 669-768) -/

def dataLabelsInit (o : Obj) : Except Unit Obj :=
  leafInit o "dataLabels" [ScafStep.flat "style", ScafStep.flat "background"]

def dataLabelsEnabled (o : Obj) (b : Bool) : Except Unit Obj :=
  setLeaf o "dataLabels" "enabled" (JVal.vBool b)

def dataLabelsFormatter (o : Obj) (f : Nat) : Except Unit Obj :=
  setLeaf o "dataLabels" "formatter" (JVal.vFun f)

def dataLabelsStyle (o : Obj) (config : JVal) : Except Unit Obj :=
  mergeSub o "dataLabels" "style" config

def dataLabelsBackground (o : Obj) (config : JVal) : Except Unit Obj :=
  mergeSub o "dataLabels" "background" config

def dataLabelsOffsetX (o : Obj) (n : Int) : Except Unit Obj :=
  setLeaf o "dataLabels" "offsetX" (JVal.vNum n)

def dataLabelsOffsetY (o : Obj) (n : Int) : Except Unit Obj :=
  setLeaf o "dataLabels" "offsetY" (JVal.vNum n)

/-! ### Markers (main.ts 774-866) -/

def markersInit (o : Obj) : Except Unit Obj :=
  leafInit o "markers" [ScafStep.flat "hover"]

def markersSize (o : Obj) (v : JVal) : Except Unit Obj :=
  setLeaf o "markers" "size" v

def markersColors (o : Obj) (v : JVal) : Except Unit Obj :=
  setLeaf o "markers" "colors" v

def markersStrokeColors (o : Obj) (v : JVal) : Except Unit Obj :=
  setLeaf o "markers" "strokeColors" v

def markersStrokeWidth (o : Obj) (v : JVal) : Except Unit Obj :=
  setLeaf o "markers" "strokeWidth" v

def markersShape (o : Obj) (v : JVal) : Except Unit Obj :=
  setLeaf o "markers" "shape" v

def markersRadius (o : Obj) (n : Int) : Except Unit Obj :=
  setLeaf o "markers" "radius" (JVal.vNum n)

def markersHover (o : Obj) (config : JVal) : Except Unit Obj :=
  mergeSub o "markers" "hover" config

/-! ### Theme (main.ts 872-927) -/

def themeInit (o : Obj) : Except Unit Obj :=
  leafInit o "theme" [ScafStep.flat "monochrome"]

def themeMode (o : Obj) (s : String) : Except Unit Obj :=
  setLeaf o "theme" "mode" (JVal.vStr s)

def themePalette (o : Obj) (s : String) : Except Unit Obj :=
  setLeaf o "theme" "palette" (JVal.vStr s)

def themeMonochrome (o : Obj) (config : JVal) : Except Unit Obj :=
  mergeSub o "theme" "monochrome" config

/-! ### Axis (main.ts 94-293) -/

/-- The slot-ensuring prologue of the Axis constructor (main.ts 115-129):
`xaxis` is ensured to be an object; a falsy `yaxis` slot becomes an object,
an empty `yaxis` array gets one empty mapping pushed, and any other value is
left alone. -/
def axisEnsureSlot (isX : Bool) (o : Obj) : Obj :=
  if isX then ensureRoot o "xaxis" (JVal.vObj [])
  else
    if truthyO (objGet o "yaxis") = false then objSet o "yaxis" (JVal.vObj [])
    else
      match objGet o "yaxis" with
      | some (JVal.vArr []) => objSet o "yaxis" (JVal.vArr [JVal.vObj []])
      | _ => o

/-- `Axis.getAxisConfig` (main.ts 148-160): for `xaxis` the slot itself; for
`yaxis`, element 0 when the slot is an array (`undefined` when it is empty),
else the slot value. -/
def getAxisCfg (isX : Bool) (o : Obj) : Option JVal :=
  if isX then objGet o "xaxis"
  else
    match objGet o "yaxis" with
    | some (JVal.vArr l) => l.head?
    | v => v

/-- Writing back the resolved axis mapping, the state-passing image of the
source's in-place mutation: element 0 when the slot is an array, the slot
itself otherwise. -/
def putAxisCfg (isX : Bool) (o : Obj) (c : JVal) : Obj :=
  if isX then objSet o "xaxis" c
  else
    match objGet o "yaxis" with
    | some (JVal.vArr l) => objSet o "yaxis" (JVal.vArr (l.set 0 c))
    | _ => objSet o "yaxis" c

/-- The nested-object scaffolding of the Axis constructor (main.ts 131-140). -/
def axisScaffold (cfg : JVal) : Except Unit JVal :=
  scafSteps cfg [ScafStep.flat "title", ScafStep.nested "labels" "style",
    ScafStep.flat "axisBorder", ScafStep.flat "axisTicks",
    ScafStep.flat "crosshairs"]

/-- The Axis constructor (main.ts 106-141). -/
def axisInit (isX : Bool) (o : Obj) : Except Unit Obj := do
  let o := axisEnsureSlot isX o
  match getAxisCfg isX o with
  | some cfg =>
      if truthy cfg then do
        let cfg' ← axisScaffold cfg
        pure (putAxisCfg isX o cfg')
      else pure o
  | none => pure o

/-- The common frame of every Axis setter: resolve the axis mapping, apply the
body when it resolved, write the result back (resolving to `undefined` skips
the body — `return this` only). -/
def onAxis (isX : Bool) (F : JVal → Except Unit JVal) (o : Obj) :
    Except Unit Obj :=
  match getAxisCfg isX o with
  | some cfg => do
      let cfg' ← F cfg
      pure (putAxisCfg isX o cfg')
  | none => pure o

def axisTitle (isX : Bool) (o : Obj) (text : String) : Except Unit Obj :=
  onAxis isX (fun cfg =>
    match optGet cfg "title" with
    | some t =>
        if truthy t then do
          let t' ← jsSet t "text" (JVal.vStr text)
          jsSet cfg "title" t'
        else pure cfg
    | none => pure cfg) o

def axisCategories (isX : Bool) (o : Obj) (cats : JVal) : Except Unit Obj :=
  onAxis isX (fun cfg =>
    if truthy cfg then jsSet cfg "categories" cats else pure cfg) o

def axisType (isX : Bool) (o : Obj) (ty : String) : Except Unit Obj :=
  onAxis isX (fun cfg =>
    if truthy cfg then jsSet cfg "type" (JVal.vStr ty) else pure cfg) o

def axisLabels (isX : Bool) (o : Obj) (config : JVal) : Except Unit Obj :=
  onAxis isX (fun cfg =>
    if truthy cfg then do
      let cfg ← ensureField cfg "labels"
      let lv ← jsGet cfg "labels"
      let merged := JVal.vObj (mergeObj (lv.getD JVal.vNull) config)
      let cfg ← jsSet cfg "labels" merged
      let cs ← jsGet config "style"
      if truthyO cs then do
        -- the reads below see the labels object assigned just above
        let m1 ← ensureField merged "style"
        let sv ← jsGet m1 "style"
        let m2 ← jsSet m1 "style"
          (JVal.vObj (mergeObj (sv.getD JVal.vNull) (cs.getD JVal.vNull)))
        jsSet cfg "labels" m2
      else pure cfg
    else pure cfg) o

def axisRange (isX : Bool) (o : Obj) (mn mx : Int) : Except Unit Obj :=
  onAxis isX (fun cfg =>
    if truthy cfg then do
      let cfg ← jsSet cfg "min" (JVal.vNum mn)
      jsSet cfg "max" (JVal.vNum mx)
    else pure cfg) o

def axisTickAmount (isX : Bool) (o : Obj) (n : Int) : Except Unit Obj :=
  onAxis isX (fun cfg =>
    if truthy cfg then jsSet cfg "tickAmount" (JVal.vNum n) else pure cfg) o

def axisBorder (isX : Bool) (o : Obj) (config : JVal) : Except Unit Obj :=
  onAxis isX (fun cfg =>
    if truthy cfg then do
      let old ← jsGet cfg "axisBorder"
      jsSet cfg "axisBorder" (JVal.vObj (mergeObj (old.getD JVal.vNull) config))
    else pure cfg) o

def axisTicks (isX : Bool) (o : Obj) (config : JVal) : Except Unit Obj :=
  onAxis isX (fun cfg =>
    if truthy cfg then do
      let old ← jsGet cfg "axisTicks"
      jsSet cfg "axisTicks" (JVal.vObj (mergeObj (old.getD JVal.vNull) config))
    else pure cfg) o

def axisCrosshairs (isX : Bool) (o : Obj) (config : JVal) : Except Unit Obj :=
  onAxis isX (fun cfg =>
    if truthy cfg then do
      let old ← jsGet cfg "crosshairs"
      jsSet cfg "crosshairs" (JVal.vObj (mergeObj (old.getD JVal.vNull) config))
    else pure cfg) o

/-! ### PlotOptions (main.ts 933-1184) -/

/-- `ensurePlotOptions` (main.ts 934-940). -/
def ensurePlotOptions (o : Obj) : Obj :=
  ensureRoot o "plotOptions" (JVal.vObj [])

/-- `ensurePlotOptionType` (main.ts 943-956). -/
def ensurePlotOptionType (o : Obj) (ty : String) : Except Unit Obj := do
  let o := ensurePlotOptions o
  match objGet o "plotOptions" with
  | none => Except.error ()   -- unreachable: just ensured
  | some po => do
      let c ← jsGet po ty
      if truthyO c then pure o
      else do
        let po' ← jsSet po ty (JVal.vObj [])
        pure (objSet o "plotOptions" po')

/-- A scalar setter of a plot-type component:
`this.ensureXOptions().key = v`. -/
def plotSetLeaf (o : Obj) (ty key : String) (v : JVal) : Except Unit Obj := do
  let o ← ensurePlotOptionType o ty
  match objGet o "plotOptions" with
  | none => Except.error ()   -- unreachable
  | some po => do
      let tv ← jsGet po ty
      let t' ← jsSet (tv.getD JVal.vNull) key v
      let po' ← jsSet po ty t'
      pure (objSet o "plotOptions" po')

/-- A one-level merge setter of a plot-type component:
`opts.key = \x7b ...(opts.key || \x7b\x7d), ...config \x7d`. -/
def plotMerge (o : Obj) (ty key : String) (config : JVal) : Except Unit Obj := do
  let o ← ensurePlotOptionType o ty
  match objGet o "plotOptions" with
  | none => Except.error ()   -- unreachable
  | some po => do
      let tv ← jsGet po ty
      let old ← jsGet (tv.getD JVal.vNull) key
      let t' ← jsSet (tv.getD JVal.vNull) key
        (JVal.vObj (mergeObj (old.getD JVal.vNull) config))
      let po' ← jsSet po ty t'
      pure (objSet o "plotOptions" po')

def barHorizontal (o : Obj) (b : Bool) : Except Unit Obj :=
  plotSetLeaf o "bar" "horizontal" (JVal.vBool b)

def barColumnWidth (o : Obj) (s : String) : Except Unit Obj :=
  plotSetLeaf o "bar" "columnWidth" (JVal.vStr s)

def barBarHeight (o : Obj) (s : String) : Except Unit Obj :=
  plotSetLeaf o "bar" "barHeight" (JVal.vStr s)

def barDistributed (o : Obj) (b : Bool) : Except Unit Obj :=
  plotSetLeaf o "bar" "distributed" (JVal.vBool b)

def barBorderRadius (o : Obj) (n : Int) : Except Unit Obj :=
  plotSetLeaf o "bar" "borderRadius" (JVal.vNum n)

def barColors (o : Obj) (config : JVal) : Except Unit Obj :=
  plotMerge o "bar" "colors" config

def pieStartAngle (o : Obj) (n : Int) : Except Unit Obj :=
  plotSetLeaf o "pie" "startAngle" (JVal.vNum n)

def pieEndAngle (o : Obj) (n : Int) : Except Unit Obj :=
  plotSetLeaf o "pie" "endAngle" (JVal.vNum n)

def pieExpandOnClick (o : Obj) (b : Bool) : Except Unit Obj :=
  plotSetLeaf o "pie" "expandOnClick" (JVal.vBool b)

/-- `PieOptions.donut` (main.ts 1025-1048).  Note the source order: `donut` is
reassigned by the shallow merge first, so the subsequent reads
`pieOptions.donut.labels` and `pieOptions.donut.labels?.name/value/total`
inside the deep-merge literal observe the freshly assigned object (whose
`labels` is `config.labels` whenever `config` carries one), not the previous
donut contents. -/
def pieDonut (o : Obj) (config : JVal) : Except Unit Obj := do
  let o ← ensurePlotOptionType o "pie"
  match objGet o "plotOptions" with
  | none => Except.error ()   -- unreachable
  | some po => do
      let pv ← jsGet po "pie"
      let pie := pv.getD JVal.vNull
      let dOld ← jsGet pie "donut"
      let dNew := JVal.vObj (mergeObj (dOld.getD JVal.vNull) config)
      let pie1 ← jsSet pie "donut" dNew
      let cl ← jsGet config "labels"
      if truthyO cl then do
        let clv := cl.getD JVal.vNull
        let dl ← jsGet dNew "labels"
        let acc := mergeObj (dl.getD JVal.vNull) clv
        let nOld := match dl with
          | some l => optGet l "name"
          | none => none
        let cn ← jsGet clv "name"
        let nNew := JVal.vObj (mergeObj (nOld.getD JVal.vNull) (cn.getD JVal.vNull))
        let vOld := match dl with
          | some l => optGet l "value"
          | none => none
        let cv ← jsGet clv "value"
        let vNew := JVal.vObj (mergeObj (vOld.getD JVal.vNull) (cv.getD JVal.vNull))
        let tOld := match dl with
          | some l => optGet l "total"
          | none => none
        let ct ← jsGet clv "total"
        let tNew := JVal.vObj (mergeObj (tOld.getD JVal.vNull) (ct.getD JVal.vNull))
        let labelsNew := JVal.vObj
          (objSet (objSet (objSet acc "name" nNew) "value" vNew) "total" tNew)
        let dFinal ← jsSet dNew "labels" labelsNew
        let pie2 ← jsSet pie1 "donut" dFinal
        let po' ← jsSet po "pie" pie2
        pure (objSet o "plotOptions" po')
      else do
        let po' ← jsSet po "pie" pie1
        pure (objSet o "plotOptions" po')

def radialHollow (o : Obj) (config : JVal) : Except Unit Obj :=
  plotMerge o "radialBar" "hollow" config

def radialTrack (o : Obj) (config : JVal) : Except Unit Obj :=
  plotMerge o "radialBar" "track" config

/-- The `if (config.key) \x7b d.key = \x7b ...(d.key || \x7b\x7d),
...config.key \x7d \x7d` step of `RadialBarOptions.dataLabels`, reading `d`
as it stands after the preceding shallow merge. -/
def deepMergeKey (d : JVal) (config : JVal) (key : String) :
    Except Unit JVal := do
  let ck ← jsGet config key
  if truthyO ck then do
    let old ← jsGet d key
    jsSet d key (JVal.vObj (mergeObj (old.getD JVal.vNull) (ck.getD JVal.vNull)))
  else pure d

/-- `RadialBarOptions.dataLabels` (main.ts 1072-1100), with the same
reassign-then-deep-merge order as `PieOptions.donut`. -/
def radialDataLabels (o : Obj) (config : JVal) : Except Unit Obj := do
  let o ← ensurePlotOptionType o "radialBar"
  match objGet o "plotOptions" with
  | none => Except.error ()   -- unreachable
  | some po => do
      let rv ← jsGet po "radialBar"
      let rb := rv.getD JVal.vNull
      let dOld ← jsGet rb "dataLabels"
      let d0 := JVal.vObj (mergeObj (dOld.getD JVal.vNull) config)
      let d1 ← deepMergeKey d0 config "name"
      let d2 ← deepMergeKey d1 config "value"
      let d3 ← deepMergeKey d2 config "total"
      let rb' ← jsSet rb "dataLabels" d3
      let po' ← jsSet po "radialBar" rb'
      pure (objSet o "plotOptions" po')

def heatmapRadius (o : Obj) (n : Int) : Except Unit Obj :=
  plotSetLeaf o "heatmap" "radius" (JVal.vNum n)

def heatmapEnableShades (o : Obj) (b : Bool) : Except Unit Obj :=
  plotSetLeaf o "heatmap" "enableShades" (JVal.vBool b)

def heatmapShadeIntensity (o : Obj) (n : Int) : Except Unit Obj :=
  plotSetLeaf o "heatmap" "shadeIntensity" (JVal.vNum n)

def heatmapColorScale (o : Obj) (config : JVal) : Except Unit Obj :=
  plotMerge o "heatmap" "colorScale" config

/-! ### The PlotOptionsManager cache (main.ts 1141-1184)

The four plot-type components are stateless (their only instance field is the
shared chart reference), so an instance is identified by a creation stamp;
the manager state holds the cached stamp per type.  `new XOptions(chart)`
performs no tree access at all (the `ChartComponent` constructor only stores
the chart reference), which `xOptionsNew` reflects by returning the tree
unchanged. -/

structure MgrSt where
  barC : Option Nat
  pieC : Option Nat
  radialBarC : Option Nat
  heatmapC : Option Nat
  fresh : Nat

/-- The PlotOptionsManager constructor: empty cache, `plotOptions` ensured. -/
def mgrInit (o : Obj) : MgrSt × Obj :=
  (MgrSt.mk none none none none 0, ensurePlotOptions o)

/-- The tree effect of `new BarOptions(chart)` (and of the other three):
none. -/
def xOptionsNew (o : Obj) : Obj := o

/-- `PlotOptionsManager.bar()`: return the cached instance, creating it on
first access. -/
def mgrBar (s : MgrSt) : Nat × MgrSt :=
  match s with
  | MgrSt.mk none p r h n => (n, MgrSt.mk (some n) p r h (n + 1))
  | MgrSt.mk (some i) _ _ _ _ => (i, s)

def mgrPie (s : MgrSt) : Nat × MgrSt :=
  match s with
  | MgrSt.mk b none r h n => (n, MgrSt.mk b (some n) r h (n + 1))
  | MgrSt.mk _ (some i) _ _ _ => (i, s)

def mgrRadialBar (s : MgrSt) : Nat × MgrSt :=
  match s with
  | MgrSt.mk b p none h n => (n, MgrSt.mk b p (some n) h (n + 1))
  | MgrSt.mk _ _ (some i) _ _ => (i, s)

def mgrHeatmap (s : MgrSt) : Nat × MgrSt :=
  match s with
  | MgrSt.mk b p r none n => (n, MgrSt.mk b p r (some n) (n + 1))
  | MgrSt.mk _ _ _ (some i) _ => (i, s)

/-! ### The Chart container (main.ts 1189-1389) -/

def chartTitle (o : Obj) (text : String) : Except Unit Obj :=
  setLeaf (ensureRoot o "title" (JVal.vObj [])) "title" "text" (JVal.vStr text)

def chartSubtitle (o : Obj) (text : String) : Except Unit Obj :=
  setLeaf (ensureRoot o "subtitle" (JVal.vObj [])) "subtitle" "text"
    (JVal.vStr text)

def chartHeight (o : Obj) (h : JVal) : Except Unit Obj :=
  setLeaf (ensureRoot o "chart" (JVal.vObj [("type", JVal.vStr "line")]))
    "chart" "height" h

def chartWidth (o : Obj) (w : JVal) : Except Unit Obj :=
  setLeaf (ensureRoot o "chart" (JVal.vObj [("type", JVal.vStr "line")]))
    "chart" "width" w

/-- `Chart.series`: wholesale replacement of the series entry. -/
def chartSeries (o : Obj) (data : JVal) : Obj := objSet o "series" data

def chartColors (o : Obj) (colors : JVal) : Obj := objSet o "colors" colors

def chartResponsive (o : Obj) (breakpoints : JVal) : Obj :=
  objSet o "responsive" breakpoints

/-- One `if (config.key?.filter)` arm of `Chart.states`, reading the states
object as reassigned by the preceding shallow merge. -/
def statesDeep (sNew : Obj) (config : JVal) (key : String) :
    Except Unit Obj := do
  let ck ← jsGet config key
  let cf := match ck with
    | some v => optGet v "filter"
    | none => none
  if truthyO cf then
    let sn := objGet sNew key
    let snf := match sn with
      | some v => optGet v "filter"
      | none => none
    let filterNew := JVal.vObj (mergeObj (snf.getD JVal.vNull) (cf.getD JVal.vNull))
    pure (objSet sNew key
      (JVal.vObj (objSet (spreadInto [] (sn.getD JVal.vNull)) "filter" filterNew)))
  else pure sNew

/-- `Chart.states` (main.ts 1293-1324). -/
def chartStates (o : Obj) (config : JVal) : Except Unit Obj := do
  let s0 := mergeObj ((objGet o "states").getD JVal.vNull) config
  let s1 ← statesDeep s0 config "normal"
  let s2 ← statesDeep s1 config "hover"
  let s3 ← statesDeep s2 config "active"
  pure (objSet o "states" (JVal.vObj s3))

/-- One `if (config?.key)` arm of `Chart.animations`, reading the animations
object as reassigned by the preceding shallow merge. -/
def animDeep (a : Obj) (config : JVal) (key : String) : Obj :=
  match optGet config key with
  | some cv =>
      if truthy cv then
        objSet a key (JVal.vObj (mergeObj ((objGet a key).getD JVal.vNull) cv))
      else a
  | none => a

/-- `Chart.animations` (main.ts 1349-1369). -/
def chartAnimations (o : Obj) (config : JVal) : Except Unit Obj := do
  let o := ensureRoot o "chart" (JVal.vObj [("type", JVal.vStr "line")])
  match objGet o "chart" with
  | none => Except.error ()   -- unreachable
  | some c => do
      let aOld ← jsGet c "animations"
      let a0 := mergeObj (aOld.getD JVal.vNull) config
      let a1 := animDeep a0 config "animateGradually"
      let a2 := animDeep a1 config "dynamicAnimation"
      let c' ← jsSet c "animations" (JVal.vObj a2)
      pure (objSet o "chart" c')

/-- The Chart constructor (main.ts 1207-1222): seed the tree with the type
discriminant and the empty series list, then construct every component (the
PlotOptionsManager constructor contributes `ensurePlotOptions`). -/
def chartCreate (ty : String) : Except Unit Obj := do
  let o : Obj := [("chart", JVal.vObj [("type", JVal.vStr ty)]),
                  ("series", JVal.vArr [])]
  let o ← axisInit true o
  let o ← axisInit false o
  let o ← tooltipInit o
  let o ← legendInit o
  let o ← gridInit o
  let o ← dataLabelsInit o
  let o ← markersInit o
  let o ← themeInit o
  pure (ensurePlotOptions o)

/-! ### Concrete scenario material -/

/-- The end-to-end scenario of the specification: a line chart, then
`title("Sample")`, `height(350)`, `series([...])`, `xaxis.categories`,
`xaxis.title("Month")`, `yaxis.title("Value")`; the exported tree is the
final state. -/
def scenarioC6 : Except Unit Obj := do
  let o ← chartCreate "line"
  let o ← chartTitle o "Sample"
  let o ← chartHeight o (JVal.vNum 350)
  let o := chartSeries o (JVal.vArr [JVal.vObj [("name", JVal.vStr "S1"),
    ("data", JVal.vArr [JVal.vNum 1, JVal.vNum 2, JVal.vNum 3])]])
  let o ← axisCategories true o
    (JVal.vArr [JVal.vStr "Jan", JVal.vStr "Feb", JVal.vStr "Mar"])
  let o ← axisTitle true o "Month"
  axisTitle false o "Value"

/-- The tree the scenario actually exports (computed from the embedding). -/
def c6ActualTree : Obj :=
  [("chart", JVal.vObj [("type", JVal.vStr "line"), ("height", JVal.vNum 350)]),
   ("series", JVal.vArr [JVal.vObj [("name", JVal.vStr "S1"),
      ("data", JVal.vArr [JVal.vNum 1, JVal.vNum 2, JVal.vNum 3])]]),
   ("xaxis", JVal.vObj
      [("title", JVal.vObj [("text", JVal.vStr "Month")]),
       ("labels", JVal.vObj [("style", JVal.vObj [])]),
       ("axisBorder", JVal.vObj []),
       ("axisTicks", JVal.vObj []),
       ("crosshairs", JVal.vObj []),
       ("categories", JVal.vArr [JVal.vStr "Jan", JVal.vStr "Feb",
          JVal.vStr "Mar"])]),
   ("yaxis", JVal.vObj
      [("title", JVal.vObj [("text", JVal.vStr "Value")]),
       ("labels", JVal.vObj [("style", JVal.vObj [])]),
       ("axisBorder", JVal.vObj []),
       ("axisTicks", JVal.vObj []),
       ("crosshairs", JVal.vObj [])]),
   ("tooltip", JVal.vObj [("style", JVal.vObj []), ("x", JVal.vObj []),
      ("y", JVal.vObj [])]),
   ("legend", JVal.vObj [("labels", JVal.vObj []), ("markers", JVal.vObj []),
      ("itemMargin", JVal.vObj [])]),
   ("grid", JVal.vObj
      [("xaxis", JVal.vObj [("lines", JVal.vObj [])]),
       ("yaxis", JVal.vObj [("lines", JVal.vObj [])]),
       ("padding", JVal.vObj [])]),
   ("dataLabels", JVal.vObj [("style", JVal.vObj []),
      ("background", JVal.vObj [])]),
   ("markers", JVal.vObj [("hover", JVal.vObj [])]),
   ("theme", JVal.vObj [("monochrome", JVal.vObj [])]),
   ("plotOptions", JVal.vObj []),
   ("title", JVal.vObj [("text", JVal.vStr "Sample")])]

/-- The tree the specification text claims for the scenario (exactly these
keys, no others). -/
def c6ClaimTree : Obj :=
  [("chart", JVal.vObj [("type", JVal.vStr "line"), ("height", JVal.vNum 350)]),
   ("series", JVal.vArr [JVal.vObj [("name", JVal.vStr "S1"),
      ("data", JVal.vArr [JVal.vNum 1, JVal.vNum 2, JVal.vNum 3])]]),
   ("title", JVal.vObj [("text", JVal.vStr "Sample")]),
   ("xaxis", JVal.vObj
      [("categories", JVal.vArr [JVal.vStr "Jan", JVal.vStr "Feb",
          JVal.vStr "Mar"]),
       ("title", JVal.vObj [("text", JVal.vStr "Month")]),
       ("labels", JVal.vObj [("style", JVal.vObj [])]),
       ("axisBorder", JVal.vObj []),
       ("axisTicks", JVal.vObj []),
       ("crosshairs", JVal.vObj [])]),
   ("yaxis", JVal.vObj
      [("title", JVal.vObj [("text", JVal.vStr "Value")]),
       ("labels", JVal.vObj [("style", JVal.vObj [])]),
       ("axisBorder", JVal.vObj []),
       ("axisTicks", JVal.vObj []),
       ("crosshairs", JVal.vObj [])])]

/-- Mapping test. -/
def isObjB : JVal → Bool
  | JVal.vObj _ => true
  | _ => false

/-- An axis mapping on which every Axis setter is exception-free: falsy, or a
mapping whose `title`, when truthy, is itself a mapping.  A truthy
non-mapping resolved value makes the direct-assignment setters throw. -/
def cfgSetterSafe (c : JVal) : Bool :=
  if truthy c then
    match c with
    | JVal.vObj fs =>
        (match objGet fs "title" with
         | some t => !truthy t || isObjB t
         | none => true)
    | _ => false
  else true

/-- The yaxis slot states under which every Axis setter succeeds: absent, or
resolving (slot itself, or element 0 of a sequence) to a setter-safe value. -/
def yaxisSetterSafe (o : Obj) : Bool :=
  match objGet o "yaxis" with
  | none => true
  | some (JVal.vArr l) =>
      match l.head? with
      | none => true
      | some e => cfgSetterSafe e
  | some v => cfgSetterSafe v

/-- Key presence in an object. -/
def hasKey (fs : Obj) (k : String) : Bool := (objGet fs k).isSome

/-- No duplicate keys — every actual JS object satisfies this. -/
def keysNodup : Obj → Bool
  | [] => true
  | (k, _) :: rest => !hasKey rest k && keysNodup rest

/-- The axis mapping produced by scaffolding an empty mapping. -/
def yaxisScaffolded : JVal :=
  JVal.vObj [("title", JVal.vObj []),
    ("labels", JVal.vObj [("style", JVal.vObj [])]),
    ("axisBorder", JVal.vObj []), ("axisTicks", JVal.vObj []),
    ("crosshairs", JVal.vObj [])]

/-- Scalar (non-container) values: these must survive any constructor
re-run byte for byte. -/
def isScalar : JVal → Bool
  | JVal.vObj _ => false
  | JVal.vArr _ => false
  | _ => true

/-- `b` discards no populated leaf of `a`: every truthy scalar reachable in
`a` through mappings is reachable unchanged in `b`.  (Mappings may gain
entries, and the empty yaxis sequence may gain its first element, which is
why containers themselves are not compared.) -/
def leafPresV (a b : JVal) : Prop :=
  ∀ p v, getPath a p = some v → truthy v = true → isScalar v = true →
    getPath b p = some v

/-- Root-level leaf preservation. -/
def preservesLeaves (t t' : Obj) : Prop :=
  leafPresV (JVal.vObj t) (JVal.vObj t')

/-- A scaffolding statement has already been performed on `fs`: the flat key
holds a truthy value; the nested key holds a mapping whose nested child is
truthy. -/
def stepDone (fs : Obj) : ScafStep → Prop
  | ScafStep.flat k => truthyO (objGet fs k) = true
  | ScafStep.nested k sub => ∃ cs, objGet fs k = some (JVal.vObj cs) ∧
      truthyO (objGet cs sub) = true

/-- Concrete populated trees and their scaffolded images, used to exercise the
constructor-idempotence statement on real inputs. -/
def c5tA : Obj := [("xaxis", JVal.vObj [("title", JVal.vObj [("text", JVal.vStr "T")])])]

def c5tA2 : Obj := [("xaxis", JVal.vObj
  [("title", JVal.vObj [("text", JVal.vStr "T")]),
   ("labels", JVal.vObj [("style", JVal.vObj [])]),
   ("axisBorder", JVal.vObj []), ("axisTicks", JVal.vObj []),
   ("crosshairs", JVal.vObj [])])]

def c5tY : Obj := [("yaxis", JVal.vArr [JVal.vObj
  [("title", JVal.vObj [("text", JVal.vStr "Y")])]])]

def c5tY2 : Obj := [("yaxis", JVal.vArr [JVal.vObj
  [("title", JVal.vObj [("text", JVal.vStr "Y")]),
   ("labels", JVal.vObj [("style", JVal.vObj [])]),
   ("axisBorder", JVal.vObj []), ("axisTicks", JVal.vObj []),
   ("crosshairs", JVal.vObj [])]])]

def c5tT : Obj := [("tooltip", JVal.vObj
  [("style", JVal.vObj [("fontSize", JVal.vStr "12px")])])]

def c5tT2 : Obj := [("tooltip", JVal.vObj
  [("style", JVal.vObj [("fontSize", JVal.vStr "12px")]),
   ("x", JVal.vObj []), ("y", JVal.vObj [])])]

def c5tL : Obj := [("legend", JVal.vObj
  [("labels", JVal.vObj [("colors", JVal.vStr "red")])])]

def c5tL2 : Obj := [("legend", JVal.vObj
  [("labels", JVal.vObj [("colors", JVal.vStr "red")]),
   ("markers", JVal.vObj []), ("itemMargin", JVal.vObj [])])]

def c5tG2 : Obj := [("grid", JVal.vObj
  [("xaxis", JVal.vObj [("lines", JVal.vObj [])]),
   ("yaxis", JVal.vObj [("lines", JVal.vObj [])]),
   ("padding", JVal.vObj [])])]

def c5tD2 : Obj := [("dataLabels", JVal.vObj
  [("style", JVal.vObj []), ("background", JVal.vObj [])])]

def c5tM2 : Obj := [("markers", JVal.vObj [("hover", JVal.vObj [])])]

def c5tTh2 : Obj := [("theme", JVal.vObj [("monochrome", JVal.vObj [])])]

/-! ### The always-scaffolded invariant (Chart.constructor and the builder
methods) -/

/-- The slot key of an Axis flavour. -/
def axisKey (isX : Bool) : String := if isX then "xaxis" else "yaxis"

/-- The key holds a mapping that contains the nested key. -/
def nestedHasKey (a : Obj) (k sub : String) : Bool :=
  match objGet a k with
  | some (JVal.vObj c) => hasKey c sub
  | _ => false

/-- The slot holds a mapping carrying every listed key. -/
def mapKeysOK (ks : List String) : Option JVal → Bool
  | some (JVal.vObj a) => ks.all (fun k => hasKey a k)
  | _ => false

/-- An axis slot as the constructor leaves it: a mapping with the five
scaffolded children, `labels` being a mapping that carries `style`. -/
def axisSlotOK : Option JVal → Bool
  | some (JVal.vObj a) =>
      hasKey a "title" && nestedHasKey a "labels" "style" &&
      hasKey a "axisBorder" && hasKey a "axisTicks" && hasKey a "crosshairs"
  | _ => false

/-- The grid slot: a mapping whose `xaxis` and `yaxis` are mappings carrying
`lines`, with `padding` present. -/
def gridSlotOK : Option JVal → Bool
  | some (JVal.vObj g) =>
      nestedHasKey g "xaxis" "lines" && nestedHasKey g "yaxis" "lines" &&
      hasKey g "padding"
  | _ => false

/-- The slot holds a mapping. -/
def objSlotOK : Option JVal → Bool
  | some (JVal.vObj _) => true
  | _ => false

/-- The component keys the Chart constructor scaffolds eagerly. -/
def scafKeys : List String :=
  ["xaxis", "yaxis", "tooltip", "legend", "grid", "dataLabels", "markers",
   "theme", "plotOptions"]

/-- What the invariant requires of one top-level slot. -/
def slotOK (k : String) (v : Option JVal) : Bool :=
  if k = "xaxis" then axisSlotOK v
  else if k = "yaxis" then axisSlotOK v
  else if k = "tooltip" then mapKeysOK ["style", "x", "y"] v
  else if k = "legend" then mapKeysOK ["labels", "markers", "itemMargin"] v
  else if k = "grid" then gridSlotOK v
  else if k = "dataLabels" then mapKeysOK ["style", "background"] v
  else if k = "markers" then mapKeysOK ["hover"] v
  else if k = "theme" then mapKeysOK ["monochrome"] v
  else if k = "plotOptions" then objSlotOK v
  else true

/-- The scaffolding invariant: every eagerly created component key is present
with its scaffolded children. -/
def scaffolded (o : Obj) : Bool :=
  scafKeys.all (fun k => slotOK k (objGet o k))

/-- The tree the Chart constructor produces for chart type `ty`. -/
def c10tree (ty : String) : Obj :=
  [("chart", JVal.vObj [("type", JVal.vStr ty)]),
   ("series", JVal.vArr []),
   ("xaxis", JVal.vObj
     [("title", JVal.vObj []),
      ("labels", JVal.vObj [("style", JVal.vObj [])]),
      ("axisBorder", JVal.vObj []),
      ("axisTicks", JVal.vObj []),
      ("crosshairs", JVal.vObj [])]),
   ("yaxis", JVal.vObj
     [("title", JVal.vObj []),
      ("labels", JVal.vObj [("style", JVal.vObj [])]),
      ("axisBorder", JVal.vObj []),
      ("axisTicks", JVal.vObj []),
      ("crosshairs", JVal.vObj [])]),
   ("tooltip", JVal.vObj
     [("style", JVal.vObj []), ("x", JVal.vObj []), ("y", JVal.vObj [])]),
   ("legend", JVal.vObj
     [("labels", JVal.vObj []), ("markers", JVal.vObj []),
      ("itemMargin", JVal.vObj [])]),
   ("grid", JVal.vObj
     [("xaxis", JVal.vObj [("lines", JVal.vObj [])]),
      ("yaxis", JVal.vObj [("lines", JVal.vObj [])]),
      ("padding", JVal.vObj [])]),
   ("dataLabels", JVal.vObj
     [("style", JVal.vObj []), ("background", JVal.vObj [])]),
   ("markers", JVal.vObj [("hover", JVal.vObj [])]),
   ("theme", JVal.vObj [("monochrome", JVal.vObj [])]),
   ("plotOptions", JVal.vObj [])]

/-- One typed builder operation: every public mutating method of the fluent
API other than the generic `setOption` escape hatch, including re-running a
component constructor (obtaining the accessor anew). -/
inductive Op where
  | axisCtor : Bool → Op
  | aTitle : Bool → String → Op
  | aCategories : Bool → JVal → Op
  | aType : Bool → String → Op
  | aLabels : Bool → JVal → Op
  | aRange : Bool → Int → Int → Op
  | aTickAmount : Bool → Int → Op
  | aBorder : Bool → JVal → Op
  | aTicks : Bool → JVal → Op
  | aCrosshairs : Bool → JVal → Op
  | tooltipCtor : Op
  | tEnabled : Bool → Op
  | tShared : Bool → Op
  | tFollowCursor : Bool → Op
  | tTheme : String → Op
  | tStyle : JVal → Op
  | tCustom : Nat → Op
  | tXFormatter : Nat → Op
  | tYFormatter : Nat → Op
  | legendCtor : Op
  | lShow : Bool → Op
  | lPosition : String → Op
  | lHorizontalAlign : String → Op
  | lFontSize : String → Op
  | lFontFamily : String → Op
  | lLabels : JVal → Op
  | lMarkers : JVal → Op
  | lItemMargin : JVal → Op
  | gridCtor : Op
  | gShow : Bool → Op
  | gBorderColor : String → Op
  | gStrokeDashArray : Int → Op
  | gPosition : String → Op
  | gXaxis : JVal → Op
  | gYaxis : JVal → Op
  | gPadding : JVal → Op
  | dataLabelsCtor : Op
  | dEnabled : Bool → Op
  | dFormatter : Nat → Op
  | dStyle : JVal → Op
  | dBackground : JVal → Op
  | dOffsetX : Int → Op
  | dOffsetY : Int → Op
  | markersCtor : Op
  | mSize : JVal → Op
  | mColors : JVal → Op
  | mStrokeColors : JVal → Op
  | mStrokeWidth : JVal → Op
  | mShape : JVal → Op
  | mRadius : Int → Op
  | mHover : JVal → Op
  | themeCtor : Op
  | thMode : String → Op
  | thPalette : String → Op
  | thMonochrome : JVal → Op
  | bHorizontal : Bool → Op
  | bColumnWidth : String → Op
  | bBarHeight : String → Op
  | bDistributed : Bool → Op
  | bBorderRadius : Int → Op
  | bColors : JVal → Op
  | pStartAngle : Int → Op
  | pEndAngle : Int → Op
  | pExpandOnClick : Bool → Op
  | pDonut : JVal → Op
  | rHollow : JVal → Op
  | rTrack : JVal → Op
  | rDataLabels : JVal → Op
  | hRadius : Int → Op
  | hEnableShades : Bool → Op
  | hShadeIntensity : Int → Op
  | hColorScale : JVal → Op
  | cTitle : String → Op
  | cSubtitle : String → Op
  | cHeight : JVal → Op
  | cWidth : JVal → Op
  | cSeries : JVal → Op
  | cColors : JVal → Op
  | cResponsive : JVal → Op
  | cStates : JVal → Op
  | cAnimations : JVal → Op

/-- Running one typed builder operation on the tree. -/
def applyOp (op : Op) (o : Obj) : Except Unit Obj :=
  match op with
  | Op.axisCtor isX => axisInit isX o
  | Op.aTitle isX s => axisTitle isX o s
  | Op.aCategories isX c => axisCategories isX o c
  | Op.aType isX s => axisType isX o s
  | Op.aLabels isX c => axisLabels isX o c
  | Op.aRange isX mn mx => axisRange isX o mn mx
  | Op.aTickAmount isX n => axisTickAmount isX o n
  | Op.aBorder isX c => axisBorder isX o c
  | Op.aTicks isX c => axisTicks isX o c
  | Op.aCrosshairs isX c => axisCrosshairs isX o c
  | Op.tooltipCtor => tooltipInit o
  | Op.tEnabled b => tooltipEnabled o b
  | Op.tShared b => tooltipShared o b
  | Op.tFollowCursor b => tooltipFollowCursor o b
  | Op.tTheme s => tooltipTheme o s
  | Op.tStyle c => tooltipStyle o c
  | Op.tCustom f => tooltipCustom o f
  | Op.tXFormatter f => tooltipXFormatter o f
  | Op.tYFormatter f => tooltipYFormatter o f
  | Op.legendCtor => legendInit o
  | Op.lShow b => legendShow o b
  | Op.lPosition s => legendPosition o s
  | Op.lHorizontalAlign s => legendHorizontalAlign o s
  | Op.lFontSize s => legendFontSize o s
  | Op.lFontFamily s => legendFontFamily o s
  | Op.lLabels c => legendLabels o c
  | Op.lMarkers c => legendMarkers o c
  | Op.lItemMargin c => legendItemMargin o c
  | Op.gridCtor => gridInit o
  | Op.gShow b => gridShow o b
  | Op.gBorderColor s => gridBorderColor o s
  | Op.gStrokeDashArray n => gridStrokeDashArray o n
  | Op.gPosition s => gridPosition o s
  | Op.gXaxis c => gridXaxis o c
  | Op.gYaxis c => gridYaxis o c
  | Op.gPadding c => gridPadding o c
  | Op.dataLabelsCtor => dataLabelsInit o
  | Op.dEnabled b => dataLabelsEnabled o b
  | Op.dFormatter f => dataLabelsFormatter o f
  | Op.dStyle c => dataLabelsStyle o c
  | Op.dBackground c => dataLabelsBackground o c
  | Op.dOffsetX n => dataLabelsOffsetX o n
  | Op.dOffsetY n => dataLabelsOffsetY o n
  | Op.markersCtor => markersInit o
  | Op.mSize v => markersSize o v
  | Op.mColors v => markersColors o v
  | Op.mStrokeColors v => markersStrokeColors o v
  | Op.mStrokeWidth v => markersStrokeWidth o v
  | Op.mShape v => markersShape o v
  | Op.mRadius n => markersRadius o n
  | Op.mHover c => markersHover o c
  | Op.themeCtor => themeInit o
  | Op.thMode s => themeMode o s
  | Op.thPalette s => themePalette o s
  | Op.thMonochrome c => themeMonochrome o c
  | Op.bHorizontal b => barHorizontal o b
  | Op.bColumnWidth s => barColumnWidth o s
  | Op.bBarHeight s => barBarHeight o s
  | Op.bDistributed b => barDistributed o b
  | Op.bBorderRadius n => barBorderRadius o n
  | Op.bColors c => barColors o c
  | Op.pStartAngle n => pieStartAngle o n
  | Op.pEndAngle n => pieEndAngle o n
  | Op.pExpandOnClick b => pieExpandOnClick o b
  | Op.pDonut c => pieDonut o c
  | Op.rHollow c => radialHollow o c
  | Op.rTrack c => radialTrack o c
  | Op.rDataLabels c => radialDataLabels o c
  | Op.hRadius n => heatmapRadius o n
  | Op.hEnableShades b => heatmapEnableShades o b
  | Op.hShadeIntensity n => heatmapShadeIntensity o n
  | Op.hColorScale c => heatmapColorScale o c
  | Op.cTitle s => chartTitle o s
  | Op.cSubtitle s => chartSubtitle o s
  | Op.cHeight v => chartHeight o v
  | Op.cWidth v => chartWidth o v
  | Op.cSeries v => pure (chartSeries o v)
  | Op.cColors v => pure (chartColors o v)
  | Op.cResponsive v => pure (chartResponsive o v)
  | Op.cStates c => chartStates o c
  | Op.cAnimations c => chartAnimations o c

/-- A builder session: the typed operations in order. -/
def runOps : List Op → Obj → Except Unit Obj
  | [], o => pure o
  | op :: rest, o => do
      let o ← applyOp op o
      runOps rest o

/-- A small concrete builder session for exercising the invariant. -/
def c10ops : List Op := [Op.cTitle "T", Op.tEnabled true]

/-- The tree the session `c10ops` produces from a fresh line chart. -/
def c10w : Obj :=
  objSet (objSet (c10tree "line") "tooltip"
    (JVal.vObj [("style", JVal.vObj []), ("x", JVal.vObj []),
      ("y", JVal.vObj []), ("enabled", JVal.vBool true)]))
    "title" (JVal.vObj [("text", JVal.vStr "T")])

/-- The tree `setOption "title.text"` produces from a fresh line chart. -/
def c10r : JVal :=
  JVal.vObj (objSet (c10tree "line") "title"
    (JVal.vObj [("text", JVal.vStr "T")]))

/-! ## Theorems -/

/-! ### Basic lemmas about objects -/

theorem objGet_objSet_self (fs : Obj) (k : String) (v : JVal) :
    objGet (objSet fs k v) k = some v := by
  induction fs with
  | nil => simp [objGet, objSet]
  | cons kv rest ih =>
      obtain ⟨k₀, w⟩ := kv
      by_cases h : k₀ = k <;> simp [objGet, objSet, h, ih]

theorem objGet_objSet_ne (fs : Obj) (k k' : String) (v : JVal) (h : k' ≠ k) :
    objGet (objSet fs k v) k' = objGet fs k' := by
  have hne : k ≠ k' := fun hk => h hk.symm
  induction fs with
  | nil => simp [objGet, objSet, hne]
  | cons kv rest ih =>
      obtain ⟨k₀, w⟩ := kv
      by_cases h0 : k₀ = k
      · subst h0
        simp [objGet, objSet, hne]
      · by_cases h1 : k₀ = k'
        · subst h1
          simp [objGet, objSet, h0, hne]
        · simp [objGet, objSet, h0, h1, ih]

theorem objSet_id (fs : Obj) (k : String) (v : JVal) (h : objGet fs k = some v) :
    objSet fs k v = fs := by
  induction fs with
  | nil => simp [objGet] at h
  | cons kv rest ih =>
      obtain ⟨k₀, w⟩ := kv
      by_cases h0 : k₀ = k
      · subst h0
        simp [objGet] at h
        simp [objSet, h]
      · simp [objGet, h0] at h
        simp [objSet, h0, ih h]

theorem objGet_objSet_isSome (fs : Obj) (k k' : String) (v : JVal)
    (h : (objGet fs k').isSome = true) :
    (objGet (objSet fs k v) k').isSome = true := by
  by_cases hk : k' = k
  · subst hk; simp [objGet_objSet_self]
  · rwa [objGet_objSet_ne fs k k' v hk]


theorem pathClear_empty (q : String) (rest : List String) :
    pathClear (JVal.vObj []) (q :: rest) = true := by
  cases rest <;> simp [pathClear, objGet]

/-- C1.  For every dot-separated path and value, the path-set primitive
(`setOption`) walks the configuration tree: for every prefix segment except
the last, a child that is undefined or null is replaced by an empty mapping
before descending; at the last segment the value is assigned unconditionally
(overwrite).  Whenever the walk meets only mappings or nullish slots
(`pathClear`), the operation succeeds (never fails) and afterwards reading the
full path yields exactly the assigned value.  The in-place mutation of the
source is embedded as state passing, and the method's returning of the owning
builder corresponds to returning the updated tree.  In particular, setting
`"xaxis.labels.style.fontSize"` to `"12px"` on a tree with no `xaxis` key
yields exactly the tree whose single entry is
`xaxis.labels.style.fontSize = "12px"`. -/
theorem setOption_pathset_spec :
    (∀ (parts : List String) (t v : JVal), pathClear t parts = true →
      ∃ t', setPathGo t parts v = Except.ok t' ∧ getPath t' parts = some v) ∧
    setOption [] "xaxis.labels.style.fontSize" (JVal.vStr "12px") =
      Except.ok (JVal.vObj [("xaxis", JVal.vObj [("labels",
        JVal.vObj [("style", JVal.vObj [("fontSize", JVal.vStr "12px")])])])]) := by
  constructor
  · intro parts
    induction parts with
    | nil => intro t v h; cases t <;> simp [pathClear] at h
    | cons p rest ih =>
        intro t v h
        cases rest with
        | nil =>
            cases t <;> simp [pathClear] at h
            case vObj fs =>
              exact ⟨JVal.vObj (objSet fs p v), rfl, by
                simp [getPath, objGet_objSet_self]⟩
        | cons q rest' =>
            cases t <;> simp [pathClear] at h
            case vObj fs =>
              cases hc : objGet fs p with
              | none =>
                  obtain ⟨c', h1, h2⟩ :=
                    ih (JVal.vObj []) v (pathClear_empty q rest')
                  refine ⟨JVal.vObj (objSet (objSet fs p (JVal.vObj [])) p c'),
                    ?_, ?_⟩
                  · simp [setPathGo, jsGet, jsSet, hc, h1, Except.bind, Bind.bind]
                  · simp [getPath, objGet_objSet_self, h2]
              | some c =>
                  cases c with
                  | vNull =>
                      obtain ⟨c', h1, h2⟩ :=
                        ih (JVal.vObj []) v (pathClear_empty q rest')
                      refine ⟨JVal.vObj (objSet (objSet fs p (JVal.vObj [])) p c'),
                        ?_, ?_⟩
                      · simp [setPathGo, jsGet, jsSet, hc, h1, Except.bind,
                          Bind.bind]
                      · simp [getPath, objGet_objSet_self, h2]
                  | vObj gs =>
                      simp only [pathClear, hc] at h
                      obtain ⟨c', h1, h2⟩ := ih (JVal.vObj gs) v h
                      refine ⟨JVal.vObj (objSet fs p c'), ?_, ?_⟩
                      · simp [setPathGo, jsGet, jsSet, hc, h1, Except.bind,
                          Bind.bind]
                      · simp [getPath, objGet_objSet_self, h2]
                  | vBool b => simp [pathClear, hc] at h
                  | vNum n => simp [pathClear, hc] at h
                  | vStr s => simp [pathClear, hc] at h
                  | vArr l => simp [pathClear, hc] at h
                  | vFun i => simp [pathClear, hc] at h
  · rfl

/-- Witness for C1: the general statement applied at the concrete tree
`\x7bxaxis: \x7blabels: null\x7d\x7d` and path `xaxis.labels.fontSize`. -/
theorem setOption_pathset_spec_witness :
    pathClear (JVal.vObj [("xaxis", JVal.vObj [("labels", JVal.vNull)])])
      ["xaxis", "labels", "fontSize"] = true ∧
    ∃ t', setPathGo (JVal.vObj [("xaxis", JVal.vObj [("labels", JVal.vNull)])])
        ["xaxis", "labels", "fontSize"] (JVal.vStr "12px") = Except.ok t' ∧
      getPath t' ["xaxis", "labels", "fontSize"] = some (JVal.vStr "12px") :=
  ⟨by decide, setOption_pathset_spec.1 ["xaxis", "labels", "fontSize"]
    (JVal.vObj [("xaxis", JVal.vObj [("labels", JVal.vNull)])])
    (JVal.vStr "12px") (by decide)⟩

theorem objSet_objSet_same (fs : Obj) (k : String) (a b : JVal) :
    objSet (objSet fs k a) k b = objSet fs k b := by
  induction fs with
  | nil => simp [objSet]
  | cons kv rest ih =>
      obtain ⟨k₀, w⟩ := kv
      by_cases h : k₀ = k <;> simp [objSet, h, ih]

/-- C9.  `series` replaces the stored list wholesale: after `series(L1)` then
`series(L2)` the series entry is exactly `L2`; indeed the whole tree equals
the one obtained by calling `series(L2)` alone. -/
theorem series_wholesale_replace (o : Obj) (l1 l2 : JVal) :
    objGet (chartSeries (chartSeries o l1) l2) "series" = some l2 ∧
    chartSeries (chartSeries o l1) l2 = chartSeries o l2 :=
  ⟨objGet_objSet_self _ _ _, objSet_objSet_same o "series" l1 l2⟩

/-- C8.  The PlotOptionsManager: its constructor ensures `plotOptions` as an
empty mapping without creating any per-type sub-key; each accessor caches its
component, a second access returning the same instance with no state change;
instantiating a plot-type component touches the tree not at all; and the
per-type sub-key appears exactly when the first setter runs (here
`bar().horizontal(b)` on a tree whose `plotOptions` is empty). -/
theorem plotoptions_manager_contract :
    (∀ o, objGet o "plotOptions" = none →
      (mgrInit o).2 = objSet o "plotOptions" (JVal.vObj []) ∧
      getPath (JVal.vObj (mgrInit o).2) ["plotOptions", "bar"] = none ∧
      getPath (JVal.vObj (mgrInit o).2) ["plotOptions", "pie"] = none ∧
      getPath (JVal.vObj (mgrInit o).2) ["plotOptions", "radialBar"] = none ∧
      getPath (JVal.vObj (mgrInit o).2) ["plotOptions", "heatmap"] = none) ∧
    (∀ s, mgrBar (mgrBar s).2 = ((mgrBar s).1, (mgrBar s).2)) ∧
    (∀ s, mgrPie (mgrPie s).2 = ((mgrPie s).1, (mgrPie s).2)) ∧
    (∀ s, mgrRadialBar (mgrRadialBar s).2 =
      ((mgrRadialBar s).1, (mgrRadialBar s).2)) ∧
    (∀ s, mgrHeatmap (mgrHeatmap s).2 = ((mgrHeatmap s).1, (mgrHeatmap s).2)) ∧
    (∀ o, xOptionsNew o = o) ∧
    (∀ b, barHorizontal [("plotOptions", JVal.vObj [])] b = Except.ok
      [("plotOptions", JVal.vObj [("bar", JVal.vObj
        [("horizontal", JVal.vBool b)])])]) := by
  refine ⟨?_, ?_, ?_, ?_, ?_, fun _ => rfl, fun _ => rfl⟩
  · intro o h
    have h2 : (mgrInit o).2 = objSet o "plotOptions" (JVal.vObj []) := by
      simp [mgrInit, ensurePlotOptions, ensureRoot, h, truthyO]
    refine ⟨h2, ?_, ?_, ?_, ?_⟩ <;>
      simp [h2, getPath, objGet_objSet_self, objGet]
  · intro s
    obtain ⟨b, p, r, hh, n⟩ := s
    cases b <;> rfl
  · intro s
    obtain ⟨b, p, r, hh, n⟩ := s
    cases p <;> rfl
  · intro s
    obtain ⟨b, p, r, hh, n⟩ := s
    cases r <;> rfl
  · intro s
    obtain ⟨b, p, r, hh, n⟩ := s
    cases hh <;> rfl

/-- Witness for C8: the manager constructor on the empty tree. -/
theorem plotoptions_manager_contract_witness :
    objGet ([] : Obj) "plotOptions" = none ∧
    ((mgrInit []).2 = objSet [] "plotOptions" (JVal.vObj []) ∧
      getPath (JVal.vObj (mgrInit []).2) ["plotOptions", "bar"] = none ∧
      getPath (JVal.vObj (mgrInit []).2) ["plotOptions", "pie"] = none ∧
      getPath (JVal.vObj (mgrInit []).2) ["plotOptions", "radialBar"] = none ∧
      getPath (JVal.vObj (mgrInit []).2) ["plotOptions", "heatmap"] = none) :=
  ⟨rfl, plotoptions_manager_contract.1 [] rfl⟩

/-- C3 (code bug).  Calling `PieOptions.donut` with a config whose `labels`
only sets `name.show = true`, on a tree whose `plotOptions.pie.donut.labels`
already holds populated `value` content, replaces that content with the empty
mapping: the shallow merge reassigns `donut` (so `donut.labels` becomes
`config.labels`) before the deep-merge literal reads
`pieOptions.donut.labels?.value`, and the old `labels` contents are lost.
The code's own comment announces a deep merge of the previous labels, so the
specification describes the intent and the code diverges from it. -/
theorem pieDonut_drops_preexisting_value :
    getPath (JVal.vObj [("plotOptions", JVal.vObj [("pie", JVal.vObj
        [("donut", JVal.vObj [("labels", JVal.vObj [("value", JVal.vObj
          [("show", JVal.vBool true), ("fontSize", JVal.vStr "16px")])])])])])])
      ["plotOptions", "pie", "donut", "labels", "value"] =
      some (JVal.vObj [("show", JVal.vBool true),
        ("fontSize", JVal.vStr "16px")]) ∧
    pieDonut
      [("plotOptions", JVal.vObj [("pie", JVal.vObj [("donut", JVal.vObj
        [("labels", JVal.vObj [("value", JVal.vObj [("show", JVal.vBool true),
          ("fontSize", JVal.vStr "16px")])])])])])]
      (JVal.vObj [("labels", JVal.vObj [("name", JVal.vObj
        [("show", JVal.vBool true)])])]) =
      Except.ok [("plotOptions", JVal.vObj [("pie", JVal.vObj [("donut",
        JVal.vObj [("labels", JVal.vObj
          [("name", JVal.vObj [("show", JVal.vBool true)]),
           ("value", JVal.vObj []),
           ("total", JVal.vObj [])])])])])] :=
  ⟨rfl, rfl⟩

/-- C6 (counterexample).  The end-to-end scenario does not export the tree
the specification lists: the actual export also carries the eagerly
scaffolded component keys (here exhibited through `tooltip`, present in the
actual tree and absent from the claimed one). -/
theorem c6_scenario_tree_differs :
    scenarioC6 = Except.ok c6ActualTree ∧
    (objGet c6ActualTree "tooltip").isSome = true ∧
    (objGet c6ClaimTree "tooltip").isSome = false ∧
    c6ActualTree ≠ c6ClaimTree := by
  refine ⟨rfl, rfl, rfl, ?_⟩
  intro h
  have h1 : (objGet c6ActualTree "tooltip").isSome = true := rfl
  have h2 : (objGet c6ClaimTree "tooltip").isSome = false := rfl
  rw [h] at h1
  exact Bool.noConfusion (h2.symm.trans h1)

/-- C6 (amended).  The scenario exports exactly the claimed entries plus the
eagerly scaffolded component keys: `chart`, `series`, `xaxis` (with
categories, title, and the scaffolding children), `yaxis` (likewise),
`tooltip` (style/x/y), `legend` (labels/markers/itemMargin), `grid`
(xaxis.lines/yaxis.lines/padding), `dataLabels` (style/background), `markers`
(hover), `theme` (monochrome), the empty `plotOptions`, and `title`. -/
theorem c6_scenario_tree_amended :
    scenarioC6 = Except.ok c6ActualTree := rfl

/-- C7 (counterexample).  An Axis setter can raise: with the yaxis slot
manually replaced by the truthy primitive `42`, `categories([])` assigns a
property on a primitive, which throws in strict mode instead of being a
silent no-op. -/
theorem axis_categories_throws_on_primitive_slot :
    axisCategories false [("yaxis", JVal.vNum 42)] (JVal.vArr []) =
      Except.error () := rfl

theorem objGet_of_hasKey_false (fs : Obj) (k : String)
    (h : hasKey fs k = false) : objGet fs k = none := by
  unfold hasKey at h
  cases hg : objGet fs k
  · rfl
  · rw [hg] at h; simp at h

theorem spreadInto_objGet (l : Obj) (acc : Obj) (k : String)
    (h : keysNodup l = true) :
    objGet (spreadInto acc (JVal.vObj l)) k =
      match objGet l k with
      | some v => some v
      | none => objGet acc k := by
  induction l generalizing acc with
  | nil => simp [spreadInto, objGet, List.foldl]
  | cons kv tl ih =>
      obtain ⟨k₀, v₀⟩ := kv
      simp only [keysNodup, Bool.and_eq_true, Bool.not_eq_true'] at h
      obtain ⟨hk₀, htl⟩ := h
      have step : spreadInto acc (JVal.vObj ((k₀, v₀) :: tl)) =
          spreadInto (objSet acc k₀ v₀) (JVal.vObj tl) := by
        simp [spreadInto, List.foldl]
      rw [step, ih (objSet acc k₀ v₀) htl]
      by_cases hk : k = k₀
      · subst hk
        rw [objGet_of_hasKey_false tl k hk₀]
        simp [objGet, objGet_objSet_self]
      · have hk' : k₀ ≠ k := fun h0 => hk h0.symm
        have hcons : objGet ((k₀, v₀) :: tl) k = objGet tl k := by
          simp [objGet, hk']
        rw [hcons]
        cases hg : objGet tl k
        · simp [objGet_objSet_ne acc k₀ k v₀ hk]
        · simp

theorem mergeObj_objGet (S C : Obj) (k : String)
    (hS : keysNodup S = true) (hC : keysNodup C = true) :
    objGet (mergeObj (JVal.vObj S) (JVal.vObj C)) k =
      match objGet C k with
      | some v => some v
      | none => objGet S k := by
  unfold mergeObj
  rw [spreadInto_objGet C (spreadInto [] (JVal.vObj S)) k hC,
    spreadInto_objGet S [] k hS]
  cases objGet C k <;> cases objGet S k <;> simp [objGet]

theorem mergeSub_spec (o T S : Obj) (top sub : String) (C : JVal)
    (hT : objGet o top = some (JVal.vObj T))
    (hS : objGet T sub = some (JVal.vObj S)) :
    mergeSub o top sub C = Except.ok (objSet o top (JVal.vObj
      (objSet T sub (JVal.vObj (mergeObj (JVal.vObj S) C))))) := by
  simp only [mergeSub, hT, hS, jsGet, jsSet]
  rfl

/-- C2.  Every merge-setter performs a shallow merge at the immediate level:
for Legend.labels, Tooltip.style, Markers.hover and Theme.monochrome, on any
pre-existing sub-mapping `S` and partial object `C` (no duplicate keys, as in
every actual JS object), the call succeeds, the sub-mapping becomes the
spread-merge of `S` and `C`, and key-wise the result takes `C`'s binding when
present and keeps `S`'s binding otherwise — keys absent from the partial
survive with their old value.  Concretely the merge of `\x7bb:3,c:4\x7d` into
`\x7ba:1,b:2\x7d` is `\x7ba:1,b:3,c:4\x7d`. -/
theorem merge_setters_shallow (o T S C : Obj)
    (hS : keysNodup S = true) (hC : keysNodup C = true) :
    (objGet o "legend" = some (JVal.vObj T) →
      objGet T "labels" = some (JVal.vObj S) →
      ∃ o', legendLabels o (JVal.vObj C) = Except.ok o' ∧
        getPath (JVal.vObj o') ["legend", "labels"] =
          some (JVal.vObj (mergeObj (JVal.vObj S) (JVal.vObj C)))) ∧
    (objGet o "tooltip" = some (JVal.vObj T) →
      objGet T "style" = some (JVal.vObj S) →
      ∃ o', tooltipStyle o (JVal.vObj C) = Except.ok o' ∧
        getPath (JVal.vObj o') ["tooltip", "style"] =
          some (JVal.vObj (mergeObj (JVal.vObj S) (JVal.vObj C)))) ∧
    (objGet o "markers" = some (JVal.vObj T) →
      objGet T "hover" = some (JVal.vObj S) →
      ∃ o', markersHover o (JVal.vObj C) = Except.ok o' ∧
        getPath (JVal.vObj o') ["markers", "hover"] =
          some (JVal.vObj (mergeObj (JVal.vObj S) (JVal.vObj C)))) ∧
    (objGet o "theme" = some (JVal.vObj T) →
      objGet T "monochrome" = some (JVal.vObj S) →
      ∃ o', themeMonochrome o (JVal.vObj C) = Except.ok o' ∧
        getPath (JVal.vObj o') ["theme", "monochrome"] =
          some (JVal.vObj (mergeObj (JVal.vObj S) (JVal.vObj C)))) ∧
    (∀ k, objGet (mergeObj (JVal.vObj S) (JVal.vObj C)) k =
      match objGet C k with
      | some v => some v
      | none => objGet S k) ∧
    mergeObj (JVal.vObj [("a", JVal.vNum 1), ("b", JVal.vNum 2)])
      (JVal.vObj [("b", JVal.vNum 3), ("c", JVal.vNum 4)]) =
      [("a", JVal.vNum 1), ("b", JVal.vNum 3), ("c", JVal.vNum 4)] := by
  have core : ∀ (top sub : String),
      objGet o top = some (JVal.vObj T) →
      objGet T sub = some (JVal.vObj S) →
      ∃ o', mergeSub o top sub (JVal.vObj C) = Except.ok o' ∧
        getPath (JVal.vObj o') [top, sub] =
          some (JVal.vObj (mergeObj (JVal.vObj S) (JVal.vObj C))) := by
    intro top sub hT hSub
    refine ⟨_, mergeSub_spec o T S top sub (JVal.vObj C) hT hSub, ?_⟩
    simp [getPath, objGet_objSet_self]
  exact ⟨fun hT hSub => core "legend" "labels" hT hSub,
    fun hT hSub => core "tooltip" "style" hT hSub,
    fun hT hSub => core "markers" "hover" hT hSub,
    fun hT hSub => core "theme" "monochrome" hT hSub,
    fun k => mergeObj_objGet S C k hS hC, rfl⟩

/-- Witness for C2: the legend-labels setter on the spec's own example
sub-mapping. -/
theorem merge_setters_shallow_witness :
    keysNodup [("a", JVal.vNum 1), ("b", JVal.vNum 2)] = true ∧
    keysNodup [("b", JVal.vNum 3), ("c", JVal.vNum 4)] = true ∧
    (∃ o', legendLabels
        [("legend", JVal.vObj [("labels", JVal.vObj
          [("a", JVal.vNum 1), ("b", JVal.vNum 2)])])]
        (JVal.vObj [("b", JVal.vNum 3), ("c", JVal.vNum 4)]) =
        Except.ok o' ∧
      getPath (JVal.vObj o') ["legend", "labels"] =
        some (JVal.vObj (mergeObj
          (JVal.vObj [("a", JVal.vNum 1), ("b", JVal.vNum 2)])
          (JVal.vObj [("b", JVal.vNum 3), ("c", JVal.vNum 4)])))) :=
  ⟨rfl, rfl,
    (merge_setters_shallow
      [("legend", JVal.vObj [("labels", JVal.vObj
        [("a", JVal.vNum 1), ("b", JVal.vNum 2)])])]
      [("labels", JVal.vObj [("a", JVal.vNum 1), ("b", JVal.vNum 2)])]
      [("a", JVal.vNum 1), ("b", JVal.vNum 2)]
      [("b", JVal.vNum 3), ("c", JVal.vNum 4)] rfl rfl).1 rfl rfl⟩


theorem ok_bind {α β : Type} (a : α) (f : α → Except Unit β) :
    (Except.ok a >>= f) = f a := rfl

theorem pure_eq_ok {α : Type} (a : α) :
    (pure a : Except Unit α) = Except.ok a := rfl

theorem jsGet_obj (fs : Obj) (k : String) :
    jsGet (JVal.vObj fs) k = Except.ok (objGet fs k) := rfl

theorem jsSet_obj (fs : Obj) (k : String) (x : JVal) :
    jsSet (JVal.vObj fs) k x = Except.ok (JVal.vObj (objSet fs k x)) := rfl

theorem ensureField_obj (fs : Obj) (k : String) :
    ensureField (JVal.vObj fs) k = Except.ok (JVal.vObj (objSet fs k
      (if truthyO (objGet fs k) then (objGet fs k).getD JVal.vNull
       else JVal.vObj []))) := rfl

theorem onAxis_ok_of_F (o : Obj) (F : JVal → Except Unit JVal) (c : JVal)
    (hga : getAxisCfg false o = some c) (hF : ∃ c', F c = Except.ok c') :
    ∃ o', onAxis false F o = Except.ok o' := by
  obtain ⟨c', hc'⟩ := hF
  refine ⟨putAxisCfg false o c', ?_⟩
  unfold onAxis
  rw [hga]
  show F c >>= (fun cfg' => pure (putAxisCfg false o cfg')) = _
  rw [hc']
  rfl

theorem onAxis_none_ok (o : Obj) (F : JVal → Except Unit JVal)
    (hga : getAxisCfg false o = none) :
    onAxis false F o = Except.ok o := by
  unfold onAxis
  rw [hga]
  rfl

theorem yaxisSetterSafe_resolved (o : Obj) (c : JVal)
    (h : yaxisSetterSafe o = true) (hc : getAxisCfg false o = some c) :
    cfgSetterSafe c = true := by
  unfold yaxisSetterSafe at h
  unfold getAxisCfg at hc
  simp only [Bool.false_eq_true, if_false] at hc
  cases hg : objGet o "yaxis" with
  | none => rw [hg] at hc; simp at hc
  | some v =>
      rw [hg] at h hc
      cases v with
      | vArr l =>
          cases l with
          | nil => simp at hc
          | cons e tl =>
              simp [List.head?] at hc h
              rwa [hc] at h
      | vNull => simp at hc; subst hc; exact h
      | vBool b => simp at hc; subst hc; exact h
      | vNum n => simp at hc; subst hc; exact h
      | vStr s => simp at hc; subst hc; exact h
      | vObj fs => simp at hc; subst hc; exact h
      | vFun i => simp at hc; subst hc; exact h

/-- C7 (amended).  Every Axis setter is exception-free whenever the resolved
yaxis value is absent, falsy, or a mapping whose `title` (when truthy) is a
mapping, and the partial config passed to `labels` is not `null`: each setter
either performs its write or silently does nothing, and returns.  (The
unamended claim — no exception for *every* slot state — fails: a truthy
primitive slot makes the direct-assignment setters throw in strict mode; see
the counterexample.) -/
theorem axis_setters_total (o : Obj) (text ty : String) (cats cfgJ : JVal)
    (mn mx n : Int) (h : yaxisSetterSafe o = true)
    (hcfg : cfgJ ≠ JVal.vNull) :
    (∃ o', axisTitle false o text = Except.ok o') ∧
    (∃ o', axisCategories false o cats = Except.ok o') ∧
    (∃ o', axisType false o ty = Except.ok o') ∧
    (∃ o', axisLabels false o cfgJ = Except.ok o') ∧
    (∃ o', axisRange false o mn mx = Except.ok o') ∧
    (∃ o', axisTickAmount false o n = Except.ok o') ∧
    (∃ o', axisBorder false o cfgJ = Except.ok o') ∧
    (∃ o', axisTicks false o cfgJ = Except.ok o') ∧
    (∃ o', axisCrosshairs false o cfgJ = Except.ok o') := by
  cases hga : getAxisCfg false o with
  | none =>
      exact ⟨⟨o, onAxis_none_ok _ _ hga⟩, ⟨o, onAxis_none_ok _ _ hga⟩,
        ⟨o, onAxis_none_ok _ _ hga⟩, ⟨o, onAxis_none_ok _ _ hga⟩,
        ⟨o, onAxis_none_ok _ _ hga⟩, ⟨o, onAxis_none_ok _ _ hga⟩,
        ⟨o, onAxis_none_ok _ _ hga⟩, ⟨o, onAxis_none_ok _ _ hga⟩,
        ⟨o, onAxis_none_ok _ _ hga⟩⟩
  | some c =>
      have hcs := yaxisSetterSafe_resolved o c h hga
      cases hb : truthy c with
      | false =>
          have hno : optGet c "title" = none := by
            cases c <;> simp [truthy] at hb <;> simp [optGet]
          refine ⟨onAxis_ok_of_F o _ c hga ?_, onAxis_ok_of_F o _ c hga ?_,
            onAxis_ok_of_F o _ c hga ?_, onAxis_ok_of_F o _ c hga ?_,
            onAxis_ok_of_F o _ c hga ?_, onAxis_ok_of_F o _ c hga ?_,
            onAxis_ok_of_F o _ c hga ?_, onAxis_ok_of_F o _ c hga ?_,
            onAxis_ok_of_F o _ c hga ?_⟩
          · rw [show (∃ c', (match optGet c "title" with
              | some t =>
                  if truthy t then do
                    let t' ← jsSet t "text" (JVal.vStr text)
                    jsSet c "title" t'
                  else pure c
              | none => pure c) = Except.ok c') =
              (∃ c', (match (none : Option JVal) with
              | some t =>
                  if truthy t then do
                    let t' ← jsSet t "text" (JVal.vStr text)
                    jsSet c "title" t'
                  else pure c
              | none => pure c) = Except.ok c') from by rw [hno]]
            exact ⟨c, rfl⟩
          · exact ⟨c, by simp [hb, pure_eq_ok]⟩
          · exact ⟨c, by simp [hb, pure_eq_ok]⟩
          · exact ⟨c, by simp [hb, pure_eq_ok]⟩
          · exact ⟨c, by simp [hb, pure_eq_ok]⟩
          · exact ⟨c, by simp [hb, pure_eq_ok]⟩
          · exact ⟨c, by simp [hb, pure_eq_ok]⟩
          · exact ⟨c, by simp [hb, pure_eq_ok]⟩
          · exact ⟨c, by simp [hb, pure_eq_ok]⟩
      | true =>
          cases c with
          | vObj fs =>
              refine ⟨onAxis_ok_of_F o _ _ hga ?_, onAxis_ok_of_F o _ _ hga ?_,
                onAxis_ok_of_F o _ _ hga ?_, onAxis_ok_of_F o _ _ hga ?_,
                onAxis_ok_of_F o _ _ hga ?_, onAxis_ok_of_F o _ _ hga ?_,
                onAxis_ok_of_F o _ _ hga ?_, onAxis_ok_of_F o _ _ hga ?_,
                onAxis_ok_of_F o _ _ hga ?_⟩
              · -- title
                simp only [optGet]
                cases hgt : objGet fs "title" with
                | none => exact ⟨JVal.vObj fs, rfl⟩
                | some t =>
                    cases htt : truthy t with
                    | false =>
                        exact ⟨JVal.vObj fs, by simp [htt, pure_eq_ok]⟩
                    | true =>
                        have hobj : ∃ g, t = JVal.vObj g := by
                          have hcs' : (match objGet fs "title" with
                            | some u => !truthy u || isObjB u
                            | none => true) = true := hcs
                          rw [hgt] at hcs'
                          have hcs2 : (!truthy t || isObjB t) = true := hcs'
                          rw [htt] at hcs2
                          simp only [Bool.not_true, Bool.false_or] at hcs2
                          cases t with
                          | vObj g => exact ⟨g, rfl⟩
                          | vNull => exact absurd hcs2 (by simp [isObjB])
                          | vBool b => exact absurd hcs2 (by simp [isObjB])
                          | vNum m => exact absurd hcs2 (by simp [isObjB])
                          | vStr s => exact absurd hcs2 (by simp [isObjB])
                          | vArr l => exact absurd hcs2 (by simp [isObjB])
                          | vFun i => exact absurd hcs2 (by simp [isObjB])
                        obtain ⟨g, rfl⟩ := hobj
                        exact ⟨_, rfl⟩
              · exact ⟨_, rfl⟩
              · exact ⟨_, rfl⟩
              · -- labels
                cases cfgJ with
                | vNull => exact absurd rfl hcfg
                | vObj csf =>
                    cases htr : truthyO (objGet csf "style") with
                    | false =>
                        exact ⟨_, by
                          simp [ensureField_obj, jsGet_obj, jsSet_obj,
                            ok_bind, htr, truthy, pure_eq_ok]
                          rfl⟩
                    | true =>
                        exact ⟨_, by
                          simp [ensureField_obj, jsGet_obj, jsSet_obj,
                            ok_bind, htr, truthy, pure_eq_ok]
                          rfl⟩
                | vBool b => exact ⟨_, rfl⟩
                | vNum m => exact ⟨_, rfl⟩
                | vStr s => exact ⟨_, rfl⟩
                | vArr l => exact ⟨_, rfl⟩
                | vFun i => exact ⟨_, rfl⟩
              · exact ⟨_, rfl⟩
              · exact ⟨_, rfl⟩
              · exact ⟨_, rfl⟩
              · exact ⟨_, rfl⟩
              · exact ⟨_, rfl⟩
          | vNull => simp [truthy] at hb
          | vBool b =>
              unfold cfgSetterSafe at hcs
              rw [if_pos hb] at hcs
              simp at hcs
          | vNum m =>
              unfold cfgSetterSafe at hcs
              rw [if_pos hb] at hcs
              simp at hcs
          | vStr s =>
              unfold cfgSetterSafe at hcs
              rw [if_pos hb] at hcs
              simp at hcs
          | vArr l =>
              unfold cfgSetterSafe at hcs
              rw [if_pos hb] at hcs
              simp at hcs
          | vFun i =>
              unfold cfgSetterSafe at hcs
              rw [if_pos hb] at hcs
              simp at hcs

/-- Witness for C7's amended theorem: the yaxis slot replaced by the falsy
primitive `0` — every setter succeeds (as a no-op). -/
theorem axis_setters_total_witness :
    yaxisSetterSafe [("yaxis", JVal.vNum 0)] = true ∧
    (JVal.vObj [] : JVal) ≠ JVal.vNull ∧
    ((∃ o', axisTitle false [("yaxis", JVal.vNum 0)] "Y" = Except.ok o') ∧
     (∃ o', axisCategories false [("yaxis", JVal.vNum 0)] (JVal.vArr []) =
       Except.ok o') ∧
     (∃ o', axisType false [("yaxis", JVal.vNum 0)] "numeric" =
       Except.ok o') ∧
     (∃ o', axisLabels false [("yaxis", JVal.vNum 0)] (JVal.vObj []) =
       Except.ok o') ∧
     (∃ o', axisRange false [("yaxis", JVal.vNum 0)] 0 1 = Except.ok o') ∧
     (∃ o', axisTickAmount false [("yaxis", JVal.vNum 0)] 5 = Except.ok o') ∧
     (∃ o', axisBorder false [("yaxis", JVal.vNum 0)] (JVal.vObj []) =
       Except.ok o') ∧
     (∃ o', axisTicks false [("yaxis", JVal.vNum 0)] (JVal.vObj []) =
       Except.ok o') ∧
     (∃ o', axisCrosshairs false [("yaxis", JVal.vNum 0)] (JVal.vObj []) =
       Except.ok o')) :=
  ⟨rfl, by simp, axis_setters_total [("yaxis", JVal.vNum 0)] "Y" "numeric"
    (JVal.vArr []) (JVal.vObj []) 0 1 5 rfl (by simp)⟩


theorem getAxisCfgY_arr (o : Obj) (l : List JVal)
    (hy : objGet o "yaxis" = some (JVal.vArr l)) :
    getAxisCfg false o = l.head? := by
  unfold getAxisCfg
  rw [hy]
  rfl

theorem getAxisCfgY_obj (o : Obj) (fs : Obj)
    (hy : objGet o "yaxis" = some (JVal.vObj fs)) :
    getAxisCfg false o = some (JVal.vObj fs) := by
  unfold getAxisCfg
  rw [hy]
  rfl

theorem putAxisCfgY_arr (o : Obj) (l : List JVal) (c : JVal)
    (hy : objGet o "yaxis" = some (JVal.vArr l)) :
    putAxisCfg false o c = objSet o "yaxis" (JVal.vArr (l.set 0 c)) := by
  unfold putAxisCfg
  rw [hy]
  rfl

theorem putAxisCfgY_obj (o : Obj) (fs : Obj) (c : JVal)
    (hy : objGet o "yaxis" = some (JVal.vObj fs)) :
    putAxisCfg false o c = objSet o "yaxis" c := by
  unfold putAxisCfg
  rw [hy]
  rfl

theorem onAxisY_tail (o : Obj) (F : JVal → Except Unit JVal) (e : JVal)
    (rest : List JVal) (o' : Obj)
    (hy : objGet o "yaxis" = some (JVal.vArr (e :: rest)))
    (hk : onAxis false F o = Except.ok o') :
    ∃ e', objGet o' "yaxis" = some (JVal.vArr (e' :: rest)) := by
  have hga : getAxisCfg false o = some e := getAxisCfgY_arr o _ hy
  unfold onAxis at hk
  rw [hga] at hk
  have hk2 : (F e >>= fun c => pure (putAxisCfg false o c)) =
      Except.ok o' := hk
  cases hF : F e with
  | error u => rw [hF] at hk2; exact Except.noConfusion hk2
  | ok c' =>
      rw [hF] at hk2
      have ho' : o' = putAxisCfg false o c' :=
        (Except.ok.inj hk2).symm
      refine ⟨c', ?_⟩
      rw [ho', putAxisCfgY_arr o _ c' hy]
      exact objGet_objSet_self _ _ _

/-- C4.  The yaxis slot discipline: constructing the Axis component on a tree
whose yaxis is the empty sequence first normalizes the slot to the
one-element sequence holding one empty mapping (the push of the constructor
prologue), and the full construction then scaffolds exactly that element,
yielding a one-element sequence; resolution targets element 0 when the slot
is a sequence and the slot itself when it is a single mapping; and every Axis
operation (title, categories, type, labels, range, tickAmount, axisBorder,
axisTicks, crosshairs) together with the constructor leaves the sequence
length and every element at index 1 and beyond unchanged, rewriting element 0
only. -/
theorem yaxis_slot_discipline :
    (∀ o, objGet o "yaxis" = some (JVal.vArr []) →
      axisEnsureSlot false o = objSet o "yaxis" (JVal.vArr [JVal.vObj []]) ∧
      axisInit false o =
        Except.ok (objSet o "yaxis" (JVal.vArr [yaxisScaffolded]))) ∧
    (∀ o fs, objGet o "yaxis" = some (JVal.vObj fs) →
      getAxisCfg false o = some (JVal.vObj fs) ∧
      ∀ c, putAxisCfg false o c = objSet o "yaxis" c) ∧
    (∀ o e rest, objGet o "yaxis" = some (JVal.vArr (e :: rest)) →
      getAxisCfg false o = some e ∧
      ∀ c, putAxisCfg false o c = objSet o "yaxis" (JVal.vArr (c :: rest))) ∧
    (∀ o e rest o', objGet o "yaxis" = some (JVal.vArr (e :: rest)) →
      axisInit false o = Except.ok o' →
      ∃ e', objGet o' "yaxis" = some (JVal.vArr (e' :: rest))) ∧
    (∀ o e rest o' text, objGet o "yaxis" = some (JVal.vArr (e :: rest)) →
      axisTitle false o text = Except.ok o' →
      ∃ e', objGet o' "yaxis" = some (JVal.vArr (e' :: rest))) ∧
    (∀ o e rest o' cats, objGet o "yaxis" = some (JVal.vArr (e :: rest)) →
      axisCategories false o cats = Except.ok o' →
      ∃ e', objGet o' "yaxis" = some (JVal.vArr (e' :: rest))) ∧
    (∀ o e rest o' ty, objGet o "yaxis" = some (JVal.vArr (e :: rest)) →
      axisType false o ty = Except.ok o' →
      ∃ e', objGet o' "yaxis" = some (JVal.vArr (e' :: rest))) ∧
    (∀ o e rest o' cfg, objGet o "yaxis" = some (JVal.vArr (e :: rest)) →
      axisLabels false o cfg = Except.ok o' →
      ∃ e', objGet o' "yaxis" = some (JVal.vArr (e' :: rest))) ∧
    (∀ o e rest o' mn mx, objGet o "yaxis" = some (JVal.vArr (e :: rest)) →
      axisRange false o mn mx = Except.ok o' →
      ∃ e', objGet o' "yaxis" = some (JVal.vArr (e' :: rest))) ∧
    (∀ o e rest o' n, objGet o "yaxis" = some (JVal.vArr (e :: rest)) →
      axisTickAmount false o n = Except.ok o' →
      ∃ e', objGet o' "yaxis" = some (JVal.vArr (e' :: rest))) ∧
    (∀ o e rest o' cfg, objGet o "yaxis" = some (JVal.vArr (e :: rest)) →
      axisBorder false o cfg = Except.ok o' →
      ∃ e', objGet o' "yaxis" = some (JVal.vArr (e' :: rest))) ∧
    (∀ o e rest o' cfg, objGet o "yaxis" = some (JVal.vArr (e :: rest)) →
      axisTicks false o cfg = Except.ok o' →
      ∃ e', objGet o' "yaxis" = some (JVal.vArr (e' :: rest))) ∧
    (∀ o e rest o' cfg, objGet o "yaxis" = some (JVal.vArr (e :: rest)) →
      axisCrosshairs false o cfg = Except.ok o' →
      ∃ e', objGet o' "yaxis" = some (JVal.vArr (e' :: rest))) := by
  refine ⟨?_, ?_, ?_, ?_, ?_, ?_, ?_, ?_, ?_, ?_, ?_, ?_, ?_⟩
  · intro o hy
    have h1 : axisEnsureSlot false o =
        objSet o "yaxis" (JVal.vArr [JVal.vObj []]) := by
      unfold axisEnsureSlot
      rw [hy]
      simp [truthyO, truthy]
    refine ⟨h1, ?_⟩
    have hg2 : objGet (objSet o "yaxis" (JVal.vArr [JVal.vObj []])) "yaxis" =
        some (JVal.vArr [JVal.vObj []]) := objGet_objSet_self _ _ _
    have hga : getAxisCfg false (objSet o "yaxis"
        (JVal.vArr [JVal.vObj []])) = some (JVal.vObj []) :=
      getAxisCfgY_arr _ _ hg2
    have hput : putAxisCfg false (objSet o "yaxis"
        (JVal.vArr [JVal.vObj []])) yaxisScaffolded =
        objSet o "yaxis" (JVal.vArr [yaxisScaffolded]) := by
      rw [putAxisCfgY_arr _ _ _ hg2]
      exact objSet_objSet_same o "yaxis" _ _
    have step : axisInit false o =
        (match getAxisCfg false (axisEnsureSlot false o) with
         | some cfg =>
             if truthy cfg = true then do
               let cfg' ← axisScaffold cfg
               pure (putAxisCfg false (axisEnsureSlot false o) cfg')
             else pure (axisEnsureSlot false o)
         | none => pure (axisEnsureSlot false o)) := rfl
    rw [step, h1, hga]
    exact congrArg Except.ok hput
  · intro o fs hy
    exact ⟨getAxisCfgY_obj o fs hy, fun c => putAxisCfgY_obj o fs c hy⟩
  · intro o e rest hy
    exact ⟨getAxisCfgY_arr o _ hy, fun c => putAxisCfgY_arr o _ c hy⟩
  · -- the constructor on a non-empty sequence slot
    intro o e rest o' hy hk
    have h1 : axisEnsureSlot false o = o := by
      unfold axisEnsureSlot
      rw [hy]
      simp [truthyO, truthy]
    have hga : getAxisCfg false o = some e := getAxisCfgY_arr o _ hy
    have step : axisInit false o =
        (match getAxisCfg false (axisEnsureSlot false o) with
         | some cfg =>
             if truthy cfg = true then do
               let cfg' ← axisScaffold cfg
               pure (putAxisCfg false (axisEnsureSlot false o) cfg')
             else pure (axisEnsureSlot false o)
         | none => pure (axisEnsureSlot false o)) := rfl
    rw [step, h1, hga] at hk
    have hk1 : (if truthy e = true then
        (axisScaffold e >>= fun c => pure (putAxisCfg false o c))
      else pure o) = Except.ok o' := hk
    cases ht : truthy e with
    | false =>
        rw [ht] at hk1
        have h2 : Except.ok o = Except.ok o' := hk1
        exact ⟨e, by rw [← Except.ok.inj h2]; exact hy⟩
    | true =>
        rw [ht] at hk1
        have hk2 : (axisScaffold e >>= fun c =>
            pure (putAxisCfg false o c)) = Except.ok o' := hk1
        cases hF : axisScaffold e with
        | error u => rw [hF] at hk2; exact Except.noConfusion hk2
        | ok c' =>
            rw [hF] at hk2
            have ho' : o' = putAxisCfg false o c' :=
              (Except.ok.inj hk2).symm
            refine ⟨c', ?_⟩
            rw [ho', putAxisCfgY_arr o _ c' hy]
            exact objGet_objSet_self _ _ _
  · exact fun o e rest o' text hy hk => onAxisY_tail o _ e rest o' hy hk
  · exact fun o e rest o' cats hy hk => onAxisY_tail o _ e rest o' hy hk
  · exact fun o e rest o' ty hy hk => onAxisY_tail o _ e rest o' hy hk
  · exact fun o e rest o' cfg hy hk => onAxisY_tail o _ e rest o' hy hk
  · exact fun o e rest o' mn mx hy hk => onAxisY_tail o _ e rest o' hy hk
  · exact fun o e rest o' n hy hk => onAxisY_tail o _ e rest o' hy hk
  · exact fun o e rest o' cfg hy hk => onAxisY_tail o _ e rest o' hy hk
  · exact fun o e rest o' cfg hy hk => onAxisY_tail o _ e rest o' hy hk
  · exact fun o e rest o' cfg hy hk => onAxisY_tail o _ e rest o' hy hk

/-- Witness for C4: the empty-sequence slot is normalized and scaffolded, and
a title write on a two-element sequence rewrites element 0 only, preserving
the element at index 1. -/
theorem yaxis_slot_discipline_witness :
    objGet [("yaxis", JVal.vArr [])] "yaxis" = some (JVal.vArr []) ∧
    (axisEnsureSlot false [("yaxis", JVal.vArr [])] =
      objSet [("yaxis", JVal.vArr [])] "yaxis" (JVal.vArr [JVal.vObj []]) ∧
     axisInit false [("yaxis", JVal.vArr [])] = Except.ok
      (objSet [("yaxis", JVal.vArr [])] "yaxis"
        (JVal.vArr [yaxisScaffolded]))) ∧
    (∃ e', objGet
        [("yaxis", JVal.vArr [JVal.vObj [("title", JVal.vObj
          [("text", JVal.vStr "Y")])], JVal.vNum 7])] "yaxis" =
        some (JVal.vArr (e' :: [JVal.vNum 7]))) :=
  ⟨rfl, yaxis_slot_discipline.1 [("yaxis", JVal.vArr [])] rfl,
    yaxis_slot_discipline.2.2.2.2.1
      [("yaxis", JVal.vArr [JVal.vObj [("title", JVal.vObj [])],
        JVal.vNum 7])]
      (JVal.vObj [("title", JVal.vObj [])]) [JVal.vNum 7] _ "Y" rfl rfl⟩

theorem leafPresV_refl (a : JVal) : leafPresV a a := fun _ _ h _ _ => h

theorem leafPresV_trans {a b c : JVal} (h1 : leafPresV a b)
    (h2 : leafPresV b c) : leafPresV a c :=
  fun p v hp ht hs => h2 p v (h1 p v hp ht hs) ht hs

theorem leafPresV_falsy {a : JVal} (h : truthy a = false) (b : JVal) :
    leafPresV a b := by
  intro p v hp ht _
  cases p with
  | nil =>
      simp [getPath] at hp
      rw [hp] at h
      rw [h] at ht
      exact Bool.noConfusion ht
  | cons k rest =>
      cases a <;> simp [truthy] at h <;> simp [getPath] at hp

theorem leafPresV_arr (l : List JVal) (b : JVal) :
    leafPresV (JVal.vArr l) b := by
  intro p v hp ht hs
  cases p with
  | nil =>
      simp [getPath] at hp
      rw [← hp] at hs
      simp [isScalar] at hs
  | cons k rest => simp [getPath] at hp

theorem leafPresV_objSet_present {fs : Obj} {k : String} {u w : JVal}
    (hg : objGet fs k = some u) (hp : leafPresV u w) :
    leafPresV (JVal.vObj fs) (JVal.vObj (objSet fs k w)) := by
  intro p v hpath ht hs
  cases p with
  | nil =>
      simp [getPath] at hpath
      rw [← hpath] at hs
      simp [isScalar] at hs
  | cons k' rest =>
      by_cases hk : k' = k
      · subst hk
        simp only [getPath, hg] at hpath
        simp only [getPath, objGet_objSet_self]
        exact hp rest v hpath ht hs
      · simp only [getPath] at hpath ⊢
        rw [objGet_objSet_ne fs k k' w hk]
        exact hpath

theorem leafPresV_objSet_absent {fs : Obj} {k : String} (w : JVal)
    (hg : objGet fs k = none) :
    leafPresV (JVal.vObj fs) (JVal.vObj (objSet fs k w)) := by
  intro p v hpath ht hs
  cases p with
  | nil =>
      simp [getPath] at hpath
      rw [← hpath] at hs
      simp [isScalar] at hs
  | cons k' rest =>
      by_cases hk : k' = k
      · subst hk
        simp only [getPath, hg] at hpath
        exact Option.noConfusion hpath
      · simp only [getPath] at hpath ⊢
        rw [objGet_objSet_ne fs k k' w hk]
        exact hpath

theorem preservesLeaves_ensureRoot (o : Obj) (key : String) (dflt : JVal) :
    preservesLeaves o (ensureRoot o key dflt) := by
  unfold ensureRoot
  cases hb : truthyO (objGet o key) with
  | true => simp; exact leafPresV_refl _
  | false =>
      simp
      cases hg : objGet o key with
      | none => exact leafPresV_objSet_absent dflt hg
      | some u =>
          rw [hg] at hb
          exact leafPresV_objSet_present hg
            (leafPresV_falsy (by simpa [truthyO] using hb) dflt)

theorem ensureField_cases (t : JVal) (k : String) (t' : JVal)
    (h : ensureField t k = Except.ok t') :
    ∃ fs, t = JVal.vObj fs ∧
      ((truthyO (objGet fs k) = true ∧ t' = t) ∨
       (truthyO (objGet fs k) = false ∧
        t' = JVal.vObj (objSet fs k (JVal.vObj [])))) := by
  cases t with
  | vObj fs =>
      refine ⟨fs, rfl, ?_⟩
      have he := ensureField_obj fs k
      rw [h] at he
      have ht' := Except.ok.inj he
      cases hb : truthyO (objGet fs k) with
      | true =>
          left
          refine ⟨rfl, ?_⟩
          rw [ht']
          cases hg : objGet fs k with
          | none => rw [hg] at hb; simp [truthyO] at hb
          | some u =>
              have hbu : truthy u = true := by
                rw [hg] at hb
                simpa [truthyO] using hb
              simp [truthyO, hbu, objSet_id fs k u hg]
      | false =>
          right
          refine ⟨rfl, ?_⟩
          rw [ht', hb]
          simp
  | vNull => exact Except.noConfusion h
  | vBool b => exact Except.noConfusion h
  | vNum n => exact Except.noConfusion h
  | vStr s => exact Except.noConfusion h
  | vArr l => exact Except.noConfusion h
  | vFun i => exact Except.noConfusion h

theorem ensureField_pres {t : JVal} {k : String} {t' : JVal}
    (h : ensureField t k = Except.ok t') : leafPresV t t' := by
  obtain ⟨fs, rfl, hcase⟩ := ensureField_cases t k t' h
  cases hcase with
  | inl hc => rw [hc.2]; exact leafPresV_refl _
  | inr hc =>
      rw [hc.2]
      cases hg : objGet fs k with
      | none => exact leafPresV_objSet_absent _ hg
      | some u =>
          have hu : truthy u = false := by
            have := hc.1
            rw [hg] at this
            simpa [truthyO] using this
          exact leafPresV_objSet_present hg (leafPresV_falsy hu _)

theorem ensureField_keepTruthy {t : JVal} {k : String} {t' : JVal}
    (h : ensureField t k = Except.ok t') (k0 : String)
    (h0 : truthyO (optGet t k0) = true) : truthyO (optGet t' k0) = true := by
  obtain ⟨fs, rfl, hcase⟩ := ensureField_cases t k t' h
  cases hcase with
  | inl hc => rw [hc.2]; exact h0
  | inr hc =>
      rw [hc.2]
      by_cases hk : k0 = k
      · subst hk
        simp [optGet] at h0
        rw [hc.1] at h0
        exact Bool.noConfusion h0
      · simp only [optGet] at h0 ⊢
        rw [objGet_objSet_ne fs k k0 _ hk]
        exact h0

theorem ensureField_mkTruthy {t : JVal} {k : String} {t' : JVal}
    (h : ensureField t k = Except.ok t') :
    truthyO (optGet t' k) = true := by
  obtain ⟨fs, rfl, hcase⟩ := ensureField_cases t k t' h
  cases hcase with
  | inl hc => rw [hc.2]; simpa [optGet] using hc.1
  | inr hc =>
      rw [hc.2]
      simp [optGet, objGet_objSet_self, truthyO, truthy]

theorem ensureField_out_obj {t : JVal} {k : String} {t' : JVal}
    (h : ensureField t k = Except.ok t') : ∃ gs, t' = JVal.vObj gs := by
  obtain ⟨fs, rfl, hcase⟩ := ensureField_cases t k t' h
  cases hcase with
  | inl hc => exact ⟨fs, hc.2⟩
  | inr hc => exact ⟨_, hc.2⟩

theorem ensureField_fix {fs : Obj} {k : String}
    (h : truthyO (objGet fs k) = true) :
    ensureField (JVal.vObj fs) k = Except.ok (JVal.vObj fs) := by
  rw [ensureField_obj fs k]
  cases hg : objGet fs k with
  | none => rw [hg] at h; exact Bool.noConfusion h
  | some u =>
      rw [hg] at h
      simp [h, objSet_id fs k u hg]

theorem ensureFieldIn_shape (t : JVal) (k sub : String) (t' : JVal)
    (h : ensureFieldIn t k sub = Except.ok t') :
    ∃ fs gs cs, t = JVal.vObj fs ∧ t' = JVal.vObj (objSet gs k (JVal.vObj cs)) ∧
      truthyO (objGet cs sub) = true ∧
      (∀ k0, k0 ≠ k → objGet gs k0 = objGet fs k0) ∧ leafPresV t t' ∧
      ensureField (JVal.vObj fs) k = Except.ok (JVal.vObj gs) ∧
      ∃ v, objGet gs k = some v ∧
        ensureField v sub = Except.ok (JVal.vObj cs) := by
  have hstep : (ensureField t k >>= fun t1 => (jsGet t1 k >>= fun cv =>
      (ensureField (cv.getD JVal.vNull) sub >>= fun c' =>
        jsSet t1 k c'))) = Except.ok t' := h
  cases h1 : ensureField t k with
  | error u => rw [h1] at hstep; exact Except.noConfusion hstep
  | ok t1 =>
      rw [h1] at hstep
      obtain ⟨fs, rfl, _⟩ := ensureField_cases t k t1 h1
      obtain ⟨gs, rfl⟩ := ensureField_out_obj h1
      have hkt : truthyO (objGet gs k) = true := by
        have := ensureField_mkTruthy h1
        simpa [optGet] using this
      have hstep2 : ((jsGet (JVal.vObj gs) k) >>= fun cv =>
          (ensureField (cv.getD JVal.vNull) sub >>= fun c' =>
            jsSet (JVal.vObj gs) k c')) = Except.ok t' := hstep
      rw [jsGet_obj] at hstep2
      cases hg : objGet gs k with
      | none => rw [hg] at hkt; exact Bool.noConfusion hkt
      | some v =>
          rw [hg] at hstep2
          have hstep3 : (ensureField v sub >>= fun c' =>
              jsSet (JVal.vObj gs) k c') = Except.ok t' := hstep2
          cases h2 : ensureField v sub with
          | error u => rw [h2] at hstep3; exact Except.noConfusion hstep3
          | ok c' =>
              rw [h2] at hstep3
              obtain ⟨cs, rfl⟩ := ensureField_out_obj h2
              have ht' : t' = JVal.vObj (objSet gs k (JVal.vObj cs)) := by
                have : Except.ok (JVal.vObj (objSet gs k (JVal.vObj cs))) =
                    Except.ok t' := hstep3
                exact (Except.ok.inj this).symm
              refine ⟨fs, gs, cs, rfl, ht', ?_, ?_, ?_, h1, v, hg, h2⟩
              · have := ensureField_mkTruthy h2
                simpa [optGet] using this
              · intro k0 hk0
                obtain ⟨fs2, heq, hcase⟩ := ensureField_cases _ k _ h1
                injection heq with he
                subst he
                cases hcase with
                | inl hc => injection hc.2 with he2; rw [he2]
                | inr hc =>
                    injection hc.2 with he2
                    rw [he2]
                    exact objGet_objSet_ne _ k k0 _ hk0
              · rw [ht']
                refine leafPresV_trans (ensureField_pres h1) ?_
                exact leafPresV_objSet_present hg (ensureField_pres h2)

theorem ensureFieldIn_fix (fs cs : Obj) (k sub : String)
    (hg : objGet fs k = some (JVal.vObj cs))
    (hs : truthyO (objGet cs sub) = true) :
    ensureFieldIn (JVal.vObj fs) k sub = Except.ok (JVal.vObj fs) := by
  have h1 : ensureField (JVal.vObj fs) k = Except.ok (JVal.vObj fs) :=
    ensureField_fix (by rw [hg]; rfl)
  have hshow : (ensureField (JVal.vObj fs) k >>= fun t1 =>
      (jsGet t1 k >>= fun cv =>
        (ensureField (cv.getD JVal.vNull) sub >>= fun c' =>
          jsSet t1 k c'))) = Except.ok (JVal.vObj fs) := by
    rw [h1]
    show ((jsGet (JVal.vObj fs) k) >>= fun cv =>
      (ensureField (cv.getD JVal.vNull) sub >>= fun c' =>
        jsSet (JVal.vObj fs) k c')) = _
    rw [jsGet_obj, hg]
    show (ensureField (JVal.vObj cs) sub >>= fun c' =>
      jsSet (JVal.vObj fs) k c') = _
    rw [ensureField_fix hs]
    show jsSet (JVal.vObj fs) k (JVal.vObj cs) = _
    rw [jsSet_obj, objSet_id fs k _ hg]
  exact hshow

theorem scafStep_pres {t : JVal} {st : ScafStep} {t' : JVal}
    (h : scafStep t st = Except.ok t') : leafPresV t t' := by
  cases st with
  | flat k => exact ensureField_pres h
  | nested k sub =>
      obtain ⟨_, _, _, _, _, _, _, hp, _⟩ := ensureFieldIn_shape t k sub t' h
      exact hp

theorem scafStep_out_obj {t : JVal} {st : ScafStep} {t' : JVal}
    (h : scafStep t st = Except.ok t') : ∃ gs, t' = JVal.vObj gs := by
  cases st with
  | flat k => exact ensureField_out_obj h
  | nested k sub =>
      obtain ⟨_, gs, cs, _, ht', _⟩ := ensureFieldIn_shape t k sub t' h
      exact ⟨_, ht'⟩

theorem scafStep_in_obj {t : JVal} {st : ScafStep} {t' : JVal}
    (h : scafStep t st = Except.ok t') : ∃ fs, t = JVal.vObj fs := by
  cases st with
  | flat k =>
      obtain ⟨fs, hf, _⟩ := ensureField_cases t _ t' h
      exact ⟨fs, hf⟩
  | nested k sub =>
      obtain ⟨fs, _, _, hf, _⟩ := ensureFieldIn_shape t k sub t' h
      exact ⟨fs, hf⟩

theorem scafStep_keepTruthy {t : JVal} {st : ScafStep} {t' : JVal}
    (h : scafStep t st = Except.ok t') (k0 : String)
    (h0 : truthyO (optGet t k0) = true) : truthyO (optGet t' k0) = true := by
  cases st with
  | flat k => exact ensureField_keepTruthy h k0 h0
  | nested k sub =>
      obtain ⟨fs, gs, cs, rfl, rfl, _, hne, _⟩ :=
        ensureFieldIn_shape t k sub t' h
      by_cases hk : k0 = k
      · subst hk
        simp [optGet, objGet_objSet_self, truthyO, truthy]
      · simp only [optGet] at h0 ⊢
        rw [objGet_objSet_ne gs k k0 _ hk, hne k0 hk]
        exact h0

theorem scafStep_fix {fs : Obj} {st : ScafStep} (h : stepDone fs st) :
    scafStep (JVal.vObj fs) st = Except.ok (JVal.vObj fs) := by
  cases st with
  | flat k => exact ensureField_fix h
  | nested k sub =>
      obtain ⟨cs, hg, hs⟩ := h
      exact ensureFieldIn_fix fs cs k sub hg hs

theorem scafStep_mkDone {fs fs' : Obj} {st : ScafStep}
    (h : scafStep (JVal.vObj fs) st = Except.ok (JVal.vObj fs')) :
    stepDone fs' st := by
  cases st with
  | flat k =>
      have := ensureField_mkTruthy h
      simpa [optGet, stepDone] using this
  | nested k sub =>
      obtain ⟨fs0, gs, cs, _, ht', hs, _⟩ :=
        ensureFieldIn_shape _ k sub _ h
      injection ht' with he
      refine ⟨cs, ?_, hs⟩
      rw [he]
      exact objGet_objSet_self gs k _

theorem scafStep_keepDone {fs fs' : Obj} {st st0 : ScafStep}
    (h0 : stepDone fs st0)
    (h : scafStep (JVal.vObj fs) st = Except.ok (JVal.vObj fs')) :
    stepDone fs' st0 := by
  cases st with
  | flat k =>
      obtain ⟨fs2, heq, hcase⟩ := ensureField_cases _ k _ h
      injection heq with he
      cases hcase with
      | inl hc =>
          injection hc.2 with he2
          rw [he2]
          exact h0
      | inr hc =>
          injection hc.2 with he2
          have hfalsy : truthyO (objGet fs k) = false := by
            rw [he]; exact hc.1
          cases st0 with
          | flat k0 =>
              by_cases hk : k0 = k
              · rw [hk] at h0
                rw [h0] at hfalsy
                exact Bool.noConfusion hfalsy
              · show truthyO (objGet fs' k0) = true
                rw [he2, objGet_objSet_ne fs2 k k0 _ hk, ← he]
                exact h0
          | nested k0 sub0 =>
              obtain ⟨cs0, hg0, hs0⟩ := h0
              by_cases hk : k0 = k
              · rw [hk] at hg0
                rw [hg0] at hfalsy
                exact absurd hfalsy (by simp [truthyO, truthy])
              · refine ⟨cs0, ?_, hs0⟩
                rw [he2, objGet_objSet_ne fs2 k k0 _ hk, ← he]
                exact hg0
  | nested k sub =>
      obtain ⟨fs0, gs, cs, heq0, ht', hs, hne, _, h1, v, hgv, h2⟩ :=
        ensureFieldIn_shape _ k sub _ h
      injection heq0 with he0
      injection ht' with he
      rw [he]
      have hne' : ∀ k1, k1 ≠ k → objGet gs k1 = objGet fs k1 := by
        intro k1 hk1
        rw [hne k1 hk1, ← he0]
      cases st0 with
      | flat k0 =>
          by_cases hk : k0 = k
          · rw [hk]
            show truthyO (objGet (objSet gs k (JVal.vObj cs)) k) = true
            rw [objGet_objSet_self]
            rfl
          · show truthyO (objGet (objSet gs k (JVal.vObj cs)) k0) = true
            rw [objGet_objSet_ne gs k k0 _ hk, hne' k0 hk]
            exact h0
      | nested k0 sub0 =>
          obtain ⟨cs0, hg0, hs0⟩ := h0
          by_cases hk : k0 = k
          · rw [hk] at hg0
            rw [show ScafStep.nested k0 sub0 = ScafStep.nested k sub0 from
              by rw [hk]]
            refine ⟨cs, by rw [objGet_objSet_self], ?_⟩
            -- the old value at the key is a truthy mapping, so the flat
            -- ensure kept it, and the inner ensure kept its truthy sub-key
            have h1' : ensureField (JVal.vObj fs) k = Except.ok (JVal.vObj gs) := by
              rw [he0]; exact h1
            obtain ⟨fs2, heq2, hcase⟩ := ensureField_cases _ k _ h1'
            injection heq2 with he2
            have hgs : gs = fs := by
              cases hcase with
              | inl hc => exact JVal.vObj.inj hc.2
              | inr hc =>
                  have hf : truthyO (objGet fs2 k) = false := hc.1
                  rw [← he2, hg0] at hf
                  exact absurd hf (by simp [truthyO, truthy])
            rw [hgs] at hgv
            rw [hg0] at hgv
            have hv : v = JVal.vObj cs0 := (Option.some.inj hgv).symm
            rw [hv] at h2
            obtain ⟨cs2, heq3, hcase2⟩ := ensureField_cases _ sub _ h2
            injection heq3 with he3
            cases hcase2 with
            | inl hc =>
                injection hc.2 with he4
                rw [he4]
                exact hs0
            | inr hc =>
                injection hc.2 with he4
                by_cases hsub : sub0 = sub
                · have hf : truthyO (objGet cs2 sub) = false := hc.1
                  rw [← he3, ← hsub] at hf
                  rw [hs0] at hf
                  exact Bool.noConfusion hf
                · rw [he4, objGet_objSet_ne cs2 sub sub0 _ hsub, ← he3]
                  exact hs0
          · refine ⟨cs0, ?_, hs0⟩
            rw [objGet_objSet_ne gs k k0 _ hk, hne' k0 hk]
            exact hg0

theorem scafSteps_pres : ∀ (steps : List ScafStep) (t t' : JVal),
    scafSteps t steps = Except.ok t' → leafPresV t t' := by
  intro steps
  induction steps with
  | nil =>
      intro t t' h
      rw [← Except.ok.inj h]
      exact leafPresV_refl _
  | cons st rest ih =>
      intro t t' h
      have hstep : (scafStep t st >>= fun t1 => scafSteps t1 rest) =
          Except.ok t' := h
      cases h1 : scafStep t st with
      | error u => rw [h1] at hstep; exact Except.noConfusion hstep
      | ok t1 =>
          rw [h1] at hstep
          exact leafPresV_trans (scafStep_pres h1) (ih t1 t' hstep)

theorem scafSteps_out_obj : ∀ (steps : List ScafStep) (t t' : JVal),
    steps ≠ [] → scafSteps t steps = Except.ok t' →
    ∃ gs, t' = JVal.vObj gs := by
  intro steps
  induction steps with
  | nil => intro t t' hne _; exact absurd rfl hne
  | cons st rest ih =>
      intro t t' _ h
      have hstep : (scafStep t st >>= fun t1 => scafSteps t1 rest) =
          Except.ok t' := h
      cases h1 : scafStep t st with
      | error u => rw [h1] at hstep; exact Except.noConfusion hstep
      | ok t1 =>
          rw [h1] at hstep
          have hB : scafSteps t1 rest = Except.ok t' := hstep
          cases rest with
          | nil =>
              obtain ⟨gs, hg⟩ := scafStep_out_obj h1
              have ht : t1 = t' := Except.ok.inj hB
              exact ⟨gs, by rw [← ht, hg]⟩
          | cons st2 rest2 => exact ih t1 t' (by simp) hB

theorem scafSteps_keepDone : ∀ (steps : List ScafStep) (gs fs' : Obj)
    (st0 : ScafStep), stepDone gs st0 →
    scafSteps (JVal.vObj gs) steps = Except.ok (JVal.vObj fs') →
    stepDone fs' st0 := by
  intro steps
  induction steps with
  | nil =>
      intro gs fs' st0 hd h
      have : JVal.vObj gs = JVal.vObj fs' := Except.ok.inj h
      rw [← JVal.vObj.inj this]
      exact hd
  | cons st rest ih =>
      intro gs fs' st0 hd h
      have hstep : (scafStep (JVal.vObj gs) st >>= fun t1 =>
          scafSteps t1 rest) = Except.ok (JVal.vObj fs') := h
      cases h1 : scafStep (JVal.vObj gs) st with
      | error u => rw [h1] at hstep; exact Except.noConfusion hstep
      | ok t1 =>
          rw [h1] at hstep
          obtain ⟨gs2, rfl⟩ := scafStep_out_obj h1
          exact ih gs2 fs' st0 (scafStep_keepDone hd h1) hstep

theorem scafSteps_mkDone : ∀ (steps : List ScafStep) (t : JVal) (fs' : Obj),
    scafSteps t steps = Except.ok (JVal.vObj fs') →
    ∀ st ∈ steps, stepDone fs' st := by
  intro steps
  induction steps with
  | nil => intro t fs' _ st hst; exact absurd hst (List.not_mem_nil st)
  | cons st0 rest ih =>
      intro t fs' h st hst
      have hstep : (scafStep t st0 >>= fun t1 => scafSteps t1 rest) =
          Except.ok (JVal.vObj fs') := h
      cases h1 : scafStep t st0 with
      | error u => rw [h1] at hstep; exact Except.noConfusion hstep
      | ok t1 =>
          rw [h1] at hstep
          have hB : scafSteps t1 rest = Except.ok (JVal.vObj fs') := hstep
          obtain ⟨gs, rfl⟩ := scafStep_out_obj h1
          cases List.mem_cons.mp hst with
          | inl he =>
              rw [he]
              have hd : stepDone gs st0 := by
                obtain ⟨fs0, rfl⟩ := scafStep_in_obj h1
                exact scafStep_mkDone h1
              exact scafSteps_keepDone rest gs fs' st0 hd hB
          | inr hm => exact ih (JVal.vObj gs) fs' hB st hm

theorem scafSteps_fix : ∀ (steps : List ScafStep) (fs : Obj),
    (∀ st ∈ steps, stepDone fs st) →
    scafSteps (JVal.vObj fs) steps = Except.ok (JVal.vObj fs) := by
  intro steps
  induction steps with
  | nil => intro fs _; rfl
  | cons st rest ih =>
      intro fs h
      show (scafStep (JVal.vObj fs) st >>= fun t1 => scafSteps t1 rest) = _
      rw [scafStep_fix (h st (List.mem_cons_self st rest))]
      exact ih fs (fun st0 hst0 => h st0 (List.mem_cons_of_mem st hst0))

theorem scafSteps_idem {steps : List ScafStep} {t t' : JVal}
    (h : scafSteps t steps = Except.ok t') :
    scafSteps t' steps = Except.ok t' := by
  cases steps with
  | nil =>
      rw [← Except.ok.inj h]
      rfl
  | cons st rest =>
      obtain ⟨gs, rfl⟩ := scafSteps_out_obj (st :: rest) t t' (by simp) h
      exact scafSteps_fix (st :: rest) gs
        (scafSteps_mkDone (st :: rest) t gs h)

theorem ensureRoot_id (o : Obj) (key : String) (dflt : JVal)
    (h : truthyO (objGet o key) = true) : ensureRoot o key dflt = o := by
  unfold ensureRoot
  simp [h]

theorem ensureRoot_out_truthy (o : Obj) (top : String) :
    truthyO (objGet (ensureRoot o top (JVal.vObj [])) top) = true := by
  unfold ensureRoot
  cases hb : truthyO (objGet o top) with
  | true => simp [hb]
  | false => simp [hb, objGet_objSet_self, truthyO, truthy]

theorem leafInit_shape (o : Obj) (top : String) (steps : List ScafStep)
    (o' : Obj) (h : leafInit o top steps = Except.ok o') :
    ∃ t t', objGet (ensureRoot o top (JVal.vObj [])) top = some t ∧
      scafSteps t steps = Except.ok t' ∧
      o' = objSet (ensureRoot o top (JVal.vObj [])) top t' := by
  have h0 : (match objGet (ensureRoot o top (JVal.vObj [])) top with
    | none => (Except.error () : Except Unit Obj)
    | some t => scafSteps t steps >>= fun t' =>
        pure (objSet (ensureRoot o top (JVal.vObj [])) top t')) =
      Except.ok o' := h
  cases hg : objGet (ensureRoot o top (JVal.vObj [])) top with
  | none => rw [hg] at h0; exact Except.noConfusion h0
  | some t =>
      rw [hg] at h0
      have h1 : (scafSteps t steps >>= fun t' =>
          pure (objSet (ensureRoot o top (JVal.vObj [])) top t')) =
          Except.ok o' := h0
      cases h2 : scafSteps t steps with
      | error u => rw [h2] at h1; exact Except.noConfusion h1
      | ok t' =>
          rw [h2] at h1
          exact ⟨t, t', rfl, h2, (Except.ok.inj h1).symm⟩

theorem leafInit_pres {o : Obj} {top : String} {steps : List ScafStep}
    {o' : Obj} (h : leafInit o top steps = Except.ok o') :
    preservesLeaves o o' := by
  obtain ⟨t, t', hg, hsc, rfl⟩ := leafInit_shape o top steps o' h
  exact leafPresV_trans (preservesLeaves_ensureRoot o top (JVal.vObj []))
    (leafPresV_objSet_present hg (scafSteps_pres steps t t' hsc))

theorem leafInit_idem {o : Obj} {top : String} {steps : List ScafStep}
    {o' : Obj} (h : leafInit o top steps = Except.ok o') :
    leafInit o' top steps = Except.ok o' := by
  obtain ⟨t, t', hg, hsc, rfl⟩ := leafInit_shape o top steps o' h
  have hslot : objGet (objSet (ensureRoot o top (JVal.vObj [])) top t')
      top = some t' := objGet_objSet_self _ _ _
  have htt' : truthy t' = true := by
    cases steps with
    | nil =>
        have ht : t = t' := Except.ok.inj hsc
        have := ensureRoot_out_truthy o top
        rw [hg] at this
        rw [← ht]
        simpa [truthyO] using this
    | cons st rest =>
        obtain ⟨gs, rfl⟩ := scafSteps_out_obj (st :: rest) t t' (by simp) hsc
        rfl
  have h1 : ensureRoot (objSet (ensureRoot o top (JVal.vObj [])) top t')
      top (JVal.vObj []) =
      objSet (ensureRoot o top (JVal.vObj [])) top t' :=
    ensureRoot_id _ top _ (by rw [hslot]; simpa [truthyO] using htt')
  have goal0 : (match objGet (ensureRoot (objSet (ensureRoot o top
      (JVal.vObj [])) top t') top (JVal.vObj [])) top with
    | none => (Except.error () : Except Unit Obj)
    | some u => scafSteps u steps >>= fun u' =>
        pure (objSet (ensureRoot (objSet (ensureRoot o top (JVal.vObj []))
          top t') top (JVal.vObj [])) top u')) =
      Except.ok (objSet (ensureRoot o top (JVal.vObj [])) top t') := by
    rw [h1, hslot]
    show (scafSteps t' steps >>= fun u' =>
      pure (objSet (objSet (ensureRoot o top (JVal.vObj [])) top t')
        top u')) = _
    rw [scafSteps_idem hsc]
    show Except.ok (objSet (objSet (ensureRoot o top (JVal.vObj []))
      top t') top t') = _
    rw [objSet_objSet_same]
  exact goal0

theorem axisEnsureSlot_x (o : Obj) :
    axisEnsureSlot true o = ensureRoot o "xaxis" (JVal.vObj []) := rfl

theorem getAxisCfg_x (o : Obj) : getAxisCfg true o = objGet o "xaxis" := rfl

theorem putAxisCfg_x (o : Obj) (c : JVal) :
    putAxisCfg true o c = objSet o "xaxis" c := rfl

theorem axisEnsureSlot_y_pres (o : Obj) :
    preservesLeaves o (axisEnsureSlot false o) := by
  unfold axisEnsureSlot
  simp only [Bool.false_eq_true, if_false]
  cases hb : truthyO (objGet o "yaxis") with
  | false =>
      simp only [hb]
      cases hg : objGet o "yaxis" with
      | none => exact leafPresV_objSet_absent _ hg
      | some u =>
          rw [hg] at hb
          exact leafPresV_objSet_present hg
            (leafPresV_falsy (by simpa [truthyO] using hb) _)
  | true =>
      rw [if_neg (by simp : ¬(true = false))]
      cases hg : objGet o "yaxis" with
      | none => exact leafPresV_refl _
      | some v =>
          cases v with
          | vArr l =>
              cases l with
              | nil => exact leafPresV_objSet_present hg (leafPresV_arr [] _)
              | cons e tl => exact leafPresV_refl _
          | vNull => exact leafPresV_refl _
          | vBool b => exact leafPresV_refl _
          | vNum n => exact leafPresV_refl _
          | vStr s => exact leafPresV_refl _
          | vObj fs => exact leafPresV_refl _
          | vFun i => exact leafPresV_refl _

theorem axisEnsureSlot_y_out (o : Obj) :
    ∃ v, objGet (axisEnsureSlot false o) "yaxis" = some v ∧
      truthy v = true ∧ ∀ l, v = JVal.vArr l → l ≠ [] := by
  unfold axisEnsureSlot
  simp only [Bool.false_eq_true, if_false]
  cases hb : truthyO (objGet o "yaxis") with
  | false =>
      simp only [hb, if_pos rfl]
      exact ⟨JVal.vObj [], objGet_objSet_self _ _ _, rfl, by simp⟩
  | true =>
      rw [if_neg (by simp : ¬(true = false))]
      cases hg : objGet o "yaxis" with
      | none => rw [hg] at hb; exact Bool.noConfusion hb
      | some v =>
          rw [hg] at hb
          cases v with
          | vArr l =>
              cases l with
              | nil =>
                  exact ⟨JVal.vArr [JVal.vObj []], objGet_objSet_self _ _ _,
                    rfl, by intro l hl; injection hl with he; rw [← he]; simp⟩
              | cons e tl =>
                  refine ⟨JVal.vArr (e :: tl), hg, rfl, ?_⟩
                  intro l hl
                  injection hl with he
                  rw [← he]
                  simp
          | vNull => simp [truthyO, truthy] at hb
          | vBool b =>
              refine ⟨JVal.vBool b, hg, by simpa [truthyO] using hb, by simp⟩
          | vNum n =>
              refine ⟨JVal.vNum n, hg, by simpa [truthyO] using hb, by simp⟩
          | vStr s =>
              refine ⟨JVal.vStr s, hg, by simpa [truthyO] using hb, by simp⟩
          | vObj fs =>
              refine ⟨JVal.vObj fs, hg, rfl, by simp⟩
          | vFun i =>
              refine ⟨JVal.vFun i, hg, rfl, by simp⟩

theorem axisEnsureSlot_y_id (o : Obj) (v : JVal)
    (hg : objGet o "yaxis" = some v) (ht : truthy v = true)
    (hne : ∀ l, v = JVal.vArr l → l ≠ []) : axisEnsureSlot false o = o := by
  unfold axisEnsureSlot
  simp only [Bool.false_eq_true, if_false]
  rw [hg]
  have hb : truthyO (some v) = true := by simpa [truthyO] using ht
  rw [hb]
  simp only [if_neg (by simp : ¬(true = false))]
  cases v with
  | vArr l =>
      cases l with
      | nil => exact absurd rfl (hne [] rfl)
      | cons e tl => rfl
  | vNull => rfl
  | vBool b => rfl
  | vNum n => rfl
  | vStr s => rfl
  | vObj fs => rfl
  | vFun i => rfl

theorem axisScaffold_in_obj {cfg cfg' : JVal}
    (h : axisScaffold cfg = Except.ok cfg') : ∃ fs, cfg = JVal.vObj fs := by
  have hstep : (scafStep cfg (ScafStep.flat "title") >>= fun t1 =>
      scafSteps t1 [ScafStep.nested "labels" "style",
        ScafStep.flat "axisBorder", ScafStep.flat "axisTicks",
        ScafStep.flat "crosshairs"]) = Except.ok cfg' := h
  cases h1 : scafStep cfg (ScafStep.flat "title") with
  | error u => rw [h1] at hstep; exact Except.noConfusion hstep
  | ok t1 => exact scafStep_in_obj h1

theorem axisScaffold_out_obj {cfg cfg' : JVal}
    (h : axisScaffold cfg = Except.ok cfg') : ∃ gs, cfg' = JVal.vObj gs :=
  scafSteps_out_obj _ cfg cfg' (by simp) h

theorem getAxisCfgY_other (o : Obj) (v : JVal)
    (hy : objGet o "yaxis" = some v) (hna : ∀ l, v ≠ JVal.vArr l) :
    getAxisCfg false o = some v := by
  unfold getAxisCfg
  rw [hy]
  cases v with
  | vArr l => exact absurd rfl (hna l)
  | vNull => rfl
  | vBool b => rfl
  | vNum n => rfl
  | vStr s => rfl
  | vObj fs => rfl
  | vFun i => rfl

theorem axisInit_shape {isX : Bool} {o : Obj} : axisInit isX o =
    (match getAxisCfg isX (axisEnsureSlot isX o) with
     | some cfg =>
         if truthy cfg = true then do
           let cfg' ← axisScaffold cfg
           pure (putAxisCfg isX (axisEnsureSlot isX o) cfg')
         else pure (axisEnsureSlot isX o)
     | none => pure (axisEnsureSlot isX o)) := rfl

theorem axisEnsureSlot_idem (isX : Bool) (o : Obj) :
    axisEnsureSlot isX (axisEnsureSlot isX o) = axisEnsureSlot isX o := by
  cases isX with
  | true =>
      rw [axisEnsureSlot_x, axisEnsureSlot_x]
      exact ensureRoot_id _ "xaxis" _ (ensureRoot_out_truthy o "xaxis")
  | false =>
      obtain ⟨v, hg, ht2, hne⟩ := axisEnsureSlot_y_out o
      exact axisEnsureSlot_y_id _ v hg ht2 hne

theorem axisInit_pres {isX : Bool} {o o' : Obj}
    (h : axisInit isX o = Except.ok o') : preservesLeaves o o' := by
  have hp1 : preservesLeaves o (axisEnsureSlot isX o) := by
    cases isX with
    | true =>
        rw [axisEnsureSlot_x]
        exact preservesLeaves_ensureRoot o "xaxis" _
    | false => exact axisEnsureSlot_y_pres o
  rw [axisInit_shape] at h
  cases hga : getAxisCfg isX (axisEnsureSlot isX o) with
  | none =>
      rw [hga] at h
      rw [← Except.ok.inj h]
      exact hp1
  | some cfg =>
      rw [hga] at h
      have h1 : (if truthy cfg = true then
          (axisScaffold cfg >>= fun c =>
            pure (putAxisCfg isX (axisEnsureSlot isX o) c))
          else pure (axisEnsureSlot isX o)) = Except.ok o' := h
      cases ht : truthy cfg with
      | false =>
          rw [ht] at h1
          have h2 : Except.ok (axisEnsureSlot isX o) = Except.ok o' := h1
          rw [← Except.ok.inj h2]
          exact hp1
      | true =>
          rw [ht] at h1
          have h2 : (axisScaffold cfg >>= fun c =>
              pure (putAxisCfg isX (axisEnsureSlot isX o) c)) =
              Except.ok o' := h1
          cases hF : axisScaffold cfg with
          | error u => rw [hF] at h2; exact Except.noConfusion h2
          | ok cfg' =>
              rw [hF] at h2
              have ho' : putAxisCfg isX (axisEnsureSlot isX o) cfg' = o' :=
                Except.ok.inj h2
              have hpc : leafPresV cfg cfg' := scafSteps_pres _ cfg cfg' hF
              obtain ⟨fsc, hfsc⟩ := axisScaffold_in_obj hF
              have hp2 : preservesLeaves (axisEnsureSlot isX o)
                  (putAxisCfg isX (axisEnsureSlot isX o) cfg') := by
                cases isX with
                | true =>
                    rw [putAxisCfg_x]
                    exact leafPresV_objSet_present
                      (show objGet (axisEnsureSlot true o) "xaxis" = some cfg
                        from hga) hpc
                | false =>
                    obtain ⟨v, hg, ht0, hne0⟩ := axisEnsureSlot_y_out o
                    cases v with
                    | vArr l =>
                        rw [putAxisCfgY_arr _ _ _ hg]
                        exact leafPresV_objSet_present hg (leafPresV_arr l _)
                    | vObj fs0 =>
                        have hcv : cfg = JVal.vObj fs0 := by
                          have h3 := getAxisCfgY_obj _ _ hg
                          rw [hga] at h3
                          exact Option.some.inj h3
                        rw [putAxisCfgY_obj _ _ _ hg]
                        refine leafPresV_objSet_present hg ?_
                        rw [← hcv]
                        exact hpc
                    | vNull => simp [truthy] at ht0
                    | vBool b =>
                        exfalso
                        have h3 := getAxisCfgY_other _ _ hg
                          (fun l hl => JVal.noConfusion hl)
                        rw [hga] at h3
                        have hcv := Option.some.inj h3
                        rw [hfsc] at hcv
                        exact JVal.noConfusion hcv
                    | vNum n =>
                        exfalso
                        have h3 := getAxisCfgY_other _ _ hg
                          (fun l hl => JVal.noConfusion hl)
                        rw [hga] at h3
                        have hcv := Option.some.inj h3
                        rw [hfsc] at hcv
                        exact JVal.noConfusion hcv
                    | vStr s =>
                        exfalso
                        have h3 := getAxisCfgY_other _ _ hg
                          (fun l hl => JVal.noConfusion hl)
                        rw [hga] at h3
                        have hcv := Option.some.inj h3
                        rw [hfsc] at hcv
                        exact JVal.noConfusion hcv
                    | vFun i =>
                        exfalso
                        have h3 := getAxisCfgY_other _ _ hg
                          (fun l hl => JVal.noConfusion hl)
                        rw [hga] at h3
                        have hcv := Option.some.inj h3
                        rw [hfsc] at hcv
                        exact JVal.noConfusion hcv
              rw [← ho']
              exact leafPresV_trans hp1 hp2

theorem axisInit_idem {isX : Bool} {o o' : Obj}
    (h : axisInit isX o = Except.ok o') : axisInit isX o' = Except.ok o' := by
  rw [axisInit_shape] at h
  cases hga : getAxisCfg isX (axisEnsureSlot isX o) with
  | none =>
      exfalso
      cases isX with
      | true =>
          have hx := ensureRoot_out_truthy o "xaxis"
          rw [← axisEnsureSlot_x, ← getAxisCfg_x, hga] at hx
          simp [truthyO] at hx
      | false =>
          obtain ⟨v, hg, ht0, hne0⟩ := axisEnsureSlot_y_out o
          cases v with
          | vArr l =>
              cases l with
              | nil => exact absurd rfl (hne0 [] rfl)
              | cons e tl =>
                  have h3 := getAxisCfgY_arr _ _ hg
                  rw [hga] at h3
                  simp at h3
          | vObj fs0 =>
              have h3 := getAxisCfgY_obj _ _ hg
              rw [hga] at h3
              exact Option.noConfusion h3
          | vNull => simp [truthy] at ht0
          | vBool b =>
              have h3 := getAxisCfgY_other _ _ hg
                (fun l hl => JVal.noConfusion hl)
              rw [hga] at h3
              exact Option.noConfusion h3
          | vNum n =>
              have h3 := getAxisCfgY_other _ _ hg
                (fun l hl => JVal.noConfusion hl)
              rw [hga] at h3
              exact Option.noConfusion h3
          | vStr s =>
              have h3 := getAxisCfgY_other _ _ hg
                (fun l hl => JVal.noConfusion hl)
              rw [hga] at h3
              exact Option.noConfusion h3
          | vFun i =>
              have h3 := getAxisCfgY_other _ _ hg
                (fun l hl => JVal.noConfusion hl)
              rw [hga] at h3
              exact Option.noConfusion h3
  | some cfg =>
      rw [hga] at h
      have h1 : (if truthy cfg = true then
          (axisScaffold cfg >>= fun c =>
            pure (putAxisCfg isX (axisEnsureSlot isX o) c))
          else pure (axisEnsureSlot isX o)) = Except.ok o' := h
      cases ht : truthy cfg with
      | false =>
          rw [ht] at h1
          have ho' : axisEnsureSlot isX o = o' := Except.ok.inj h1
          rw [axisInit_shape, ← ho', axisEnsureSlot_idem, hga]
          have h2 : (if truthy cfg = true then
              (axisScaffold cfg >>= fun c =>
                pure (putAxisCfg isX (axisEnsureSlot isX o) c))
              else pure (axisEnsureSlot isX o)) =
              Except.ok (axisEnsureSlot isX o) → (match some cfg with
               | some cfg =>
                   if truthy cfg = true then do
                     let cfg' ← axisScaffold cfg
                     pure (putAxisCfg isX (axisEnsureSlot isX o) cfg')
                   else pure (axisEnsureSlot isX o)
               | none => pure (axisEnsureSlot isX o)) =
              Except.ok (axisEnsureSlot isX o) := fun x => x
          apply h2
          rw [ht]
          rfl
      | true =>
          rw [ht] at h1
          have h2 : (axisScaffold cfg >>= fun c =>
              pure (putAxisCfg isX (axisEnsureSlot isX o) c)) =
              Except.ok o' := h1
          cases hF : axisScaffold cfg with
          | error u => rw [hF] at h2; exact Except.noConfusion h2
          | ok cfg' =>
              rw [hF] at h2
              have ho' : putAxisCfg isX (axisEnsureSlot isX o) cfg' = o' :=
                Except.ok.inj h2
              obtain ⟨gs, hgs⟩ := axisScaffold_out_obj hF
              have hsc2 : axisScaffold cfg' = Except.ok cfg' := scafSteps_idem hF
              have htc : truthy cfg' = true := by rw [hgs]; rfl
              cases isX with
              | true =>
                  have hgx : objGet o' "xaxis" = some cfg' := by
                    rw [← ho', putAxisCfg_x]
                    exact objGet_objSet_self _ _ _
                  have hE : axisEnsureSlot true o' = o' := by
                    rw [axisEnsureSlot_x]
                    refine ensureRoot_id o' "xaxis" _ ?_
                    rw [hgx, hgs]
                    rfl
                  have hg2 : getAxisCfg true o' = some cfg' := by
                    rw [getAxisCfg_x]
                    exact hgx
                  rw [axisInit_shape, hE, hg2]
                  have h3 : (axisScaffold cfg' >>= fun c =>
                      pure (putAxisCfg true o' c)) = Except.ok o' := by
                    rw [hsc2]
                    show Except.ok (putAxisCfg true o' cfg') = Except.ok o'
                    rw [putAxisCfg_x, objSet_id o' "xaxis" cfg' hgx]
                  have h4 : (if truthy cfg' = true then
                      (axisScaffold cfg' >>= fun c =>
                        pure (putAxisCfg true o' c))
                      else pure o') = Except.ok o' := by
                    rw [htc]
                    exact h3
                  exact h4
              | false =>
                  obtain ⟨v, hg, ht0, hne0⟩ := axisEnsureSlot_y_out o
                  cases v with
                  | vArr l =>
                      cases l with
                      | nil => exact absurd rfl (hne0 [] rfl)
                      | cons e tl =>
                          have hgy' : objGet o' "yaxis" =
                              some (JVal.vArr (cfg' :: tl)) := by
                            rw [← ho', putAxisCfgY_arr _ _ _ hg]
                            exact objGet_objSet_self _ _ _
                          have hE : axisEnsureSlot false o' = o' := by
                            refine axisEnsureSlot_y_id o' _ hgy' rfl ?_
                            intro l2 hl2
                            injection hl2 with he2
                            rw [← he2]
                            simp
                          have hg2 : getAxisCfg false o' = some cfg' :=
                            (getAxisCfgY_arr o' _ hgy').trans rfl
                          rw [axisInit_shape, hE, hg2]
                          have h3 : (axisScaffold cfg' >>= fun c =>
                              pure (putAxisCfg false o' c)) = Except.ok o' := by
                            rw [hsc2]
                            show Except.ok (putAxisCfg false o' cfg') =
                              Except.ok o'
                            rw [putAxisCfgY_arr _ _ _ hgy']
                            show Except.ok (objSet o' "yaxis"
                              (JVal.vArr (cfg' :: tl))) = Except.ok o'
                            rw [objSet_id o' "yaxis" _ hgy']
                          have h4 : (if truthy cfg' = true then
                              (axisScaffold cfg' >>= fun c =>
                                pure (putAxisCfg false o' c))
                              else pure o') = Except.ok o' := by
                            rw [htc]
                            exact h3
                          exact h4
                  | vObj fs0 =>
                      have hgy' : objGet o' "yaxis" = some cfg' := by
                        rw [← ho', putAxisCfgY_obj _ _ _ hg]
                        exact objGet_objSet_self _ _ _
                      have hgy2 : objGet o' "yaxis" =
                          some (JVal.vObj gs) := by
                        rw [← hgs]
                        exact hgy'
                      have hE : axisEnsureSlot false o' = o' := by
                        refine axisEnsureSlot_y_id o' _ hgy' htc ?_
                        intro l2 hl2
                        rw [hgs] at hl2
                        exact JVal.noConfusion hl2
                      have hg2 : getAxisCfg false o' = some cfg' := by
                        rw [hgs]
                        exact getAxisCfgY_obj _ _ hgy2
                      rw [axisInit_shape, hE, hg2]
                      have h3 : (axisScaffold cfg' >>= fun c =>
                          pure (putAxisCfg false o' c)) = Except.ok o' := by
                        rw [hsc2]
                        show Except.ok (putAxisCfg false o' cfg') =
                          Except.ok o'
                        rw [putAxisCfgY_obj _ _ _ hgy2,
                          objSet_id o' "yaxis" cfg' hgy']
                      have h4 : (if truthy cfg' = true then
                          (axisScaffold cfg' >>= fun c =>
                            pure (putAxisCfg false o' c))
                          else pure o') = Except.ok o' := by
                        rw [htc]
                        exact h3
                      exact h4
                  | vNull => simp [truthy] at ht0
                  | vBool b =>
                      exfalso
                      obtain ⟨fsc, hfsc⟩ := axisScaffold_in_obj hF
                      have h3 := getAxisCfgY_other _ _ hg
                        (fun l hl => JVal.noConfusion hl)
                      rw [hga] at h3
                      have hcv := Option.some.inj h3
                      rw [hfsc] at hcv
                      exact JVal.noConfusion hcv
                  | vNum n =>
                      exfalso
                      obtain ⟨fsc, hfsc⟩ := axisScaffold_in_obj hF
                      have h3 := getAxisCfgY_other _ _ hg
                        (fun l hl => JVal.noConfusion hl)
                      rw [hga] at h3
                      have hcv := Option.some.inj h3
                      rw [hfsc] at hcv
                      exact JVal.noConfusion hcv
                  | vStr s =>
                      exfalso
                      obtain ⟨fsc, hfsc⟩ := axisScaffold_in_obj hF
                      have h3 := getAxisCfgY_other _ _ hg
                        (fun l hl => JVal.noConfusion hl)
                      rw [hga] at h3
                      have hcv := Option.some.inj h3
                      rw [hfsc] at hcv
                      exact JVal.noConfusion hcv
                  | vFun i =>
                      exfalso
                      obtain ⟨fsc, hfsc⟩ := axisScaffold_in_obj hF
                      have h3 := getAxisCfgY_other _ _ hg
                        (fun l hl => JVal.noConfusion hl)
                      rw [hga] at h3
                      have hcv := Option.some.inj h3
                      rw [hfsc] at hcv
                      exact JVal.noConfusion hcv

/-- C5: for each of the seven components — Axis (both the x and the y flavour),
Tooltip, Legend, Grid, DataLabels, Markers, Theme — constructing the component
is idempotent: whenever the constructor succeeds, running it again on the
resulting tree succeeds and changes nothing at all, and the first run preserves
every populated leaf of the input tree (every truthy scalar value reachable
through mapping keys is still there, unchanged, at the same path): the eager
scaffolding only creates empty mappings where slots are absent or falsy and
never discards existing values. -/
theorem scaffolding_idempotent :
    (∀ t t', axisInit true t = Except.ok t' →
      axisInit true t' = Except.ok t' ∧ preservesLeaves t t') ∧
    (∀ t t', axisInit false t = Except.ok t' →
      axisInit false t' = Except.ok t' ∧ preservesLeaves t t') ∧
    (∀ t t', tooltipInit t = Except.ok t' →
      tooltipInit t' = Except.ok t' ∧ preservesLeaves t t') ∧
    (∀ t t', legendInit t = Except.ok t' →
      legendInit t' = Except.ok t' ∧ preservesLeaves t t') ∧
    (∀ t t', gridInit t = Except.ok t' →
      gridInit t' = Except.ok t' ∧ preservesLeaves t t') ∧
    (∀ t t', dataLabelsInit t = Except.ok t' →
      dataLabelsInit t' = Except.ok t' ∧ preservesLeaves t t') ∧
    (∀ t t', markersInit t = Except.ok t' →
      markersInit t' = Except.ok t' ∧ preservesLeaves t t') ∧
    (∀ t t', themeInit t = Except.ok t' →
      themeInit t' = Except.ok t' ∧ preservesLeaves t t') :=
  ⟨fun _ _ h => ⟨axisInit_idem h, axisInit_pres h⟩,
   fun _ _ h => ⟨axisInit_idem h, axisInit_pres h⟩,
   fun _ _ h => ⟨leafInit_idem h, leafInit_pres h⟩,
   fun _ _ h => ⟨leafInit_idem h, leafInit_pres h⟩,
   fun _ _ h => ⟨leafInit_idem h, leafInit_pres h⟩,
   fun _ _ h => ⟨leafInit_idem h, leafInit_pres h⟩,
   fun _ _ h => ⟨leafInit_idem h, leafInit_pres h⟩,
   fun _ _ h => ⟨leafInit_idem h, leafInit_pres h⟩⟩

theorem scaffolding_idempotent_witness :
    (axisInit true c5tA = Except.ok c5tA2 ∧
      axisInit true c5tA2 = Except.ok c5tA2 ∧ preservesLeaves c5tA c5tA2) ∧
    (axisInit false c5tY = Except.ok c5tY2 ∧
      axisInit false c5tY2 = Except.ok c5tY2 ∧ preservesLeaves c5tY c5tY2) ∧
    (tooltipInit c5tT = Except.ok c5tT2 ∧
      tooltipInit c5tT2 = Except.ok c5tT2 ∧ preservesLeaves c5tT c5tT2) ∧
    (legendInit c5tL = Except.ok c5tL2 ∧
      legendInit c5tL2 = Except.ok c5tL2 ∧ preservesLeaves c5tL c5tL2) ∧
    (gridInit [] = Except.ok c5tG2 ∧
      gridInit c5tG2 = Except.ok c5tG2 ∧ preservesLeaves [] c5tG2) ∧
    (dataLabelsInit [] = Except.ok c5tD2 ∧
      dataLabelsInit c5tD2 = Except.ok c5tD2 ∧ preservesLeaves [] c5tD2) ∧
    (markersInit [] = Except.ok c5tM2 ∧
      markersInit c5tM2 = Except.ok c5tM2 ∧ preservesLeaves [] c5tM2) ∧
    (themeInit [] = Except.ok c5tTh2 ∧
      themeInit c5tTh2 = Except.ok c5tTh2 ∧ preservesLeaves [] c5tTh2) :=
  ⟨⟨rfl, (scaffolding_idempotent.1 c5tA c5tA2 rfl).1,
     (scaffolding_idempotent.1 c5tA c5tA2 rfl).2⟩,
   ⟨rfl, (scaffolding_idempotent.2.1 c5tY c5tY2 rfl).1,
     (scaffolding_idempotent.2.1 c5tY c5tY2 rfl).2⟩,
   ⟨rfl, (scaffolding_idempotent.2.2.1 c5tT c5tT2 rfl).1,
     (scaffolding_idempotent.2.2.1 c5tT c5tT2 rfl).2⟩,
   ⟨rfl, (scaffolding_idempotent.2.2.2.1 c5tL c5tL2 rfl).1,
     (scaffolding_idempotent.2.2.2.1 c5tL c5tL2 rfl).2⟩,
   ⟨rfl, (scaffolding_idempotent.2.2.2.2.1 [] c5tG2 rfl).1,
     (scaffolding_idempotent.2.2.2.2.1 [] c5tG2 rfl).2⟩,
   ⟨rfl, (scaffolding_idempotent.2.2.2.2.2.1 [] c5tD2 rfl).1,
     (scaffolding_idempotent.2.2.2.2.2.1 [] c5tD2 rfl).2⟩,
   ⟨rfl, (scaffolding_idempotent.2.2.2.2.2.2.1 [] c5tM2 rfl).1,
     (scaffolding_idempotent.2.2.2.2.2.2.1 [] c5tM2 rfl).2⟩,
   ⟨rfl, (scaffolding_idempotent.2.2.2.2.2.2.2 [] c5tTh2 rfl).1,
     (scaffolding_idempotent.2.2.2.2.2.2.2 [] c5tTh2 rfl).2⟩⟩

/-! ### Presence lemmas for the scaffolding invariant -/

theorem hasKey_objSet {a : Obj} {k : String} (key : String) (v : JVal)
    (h : hasKey a k = true) : hasKey (objSet a key v) k = true := by
  by_cases hk : k = key
  · subst hk
    simp [hasKey, objGet_objSet_self]
  · rw [hasKey, objGet_objSet_ne a key k v hk]
    exact h

theorem hasKey_objSet_self (a : Obj) (key : String) (v : JVal) :
    hasKey (objSet a key v) key = true := by
  simp [hasKey, objGet_objSet_self]

theorem hasKey_foldl_objSet (fs : List (String × JVal)) :
    ∀ (acc : Obj) (k : String), hasKey acc k = true →
    hasKey (fs.foldl (fun a kv => objSet a kv.1 kv.2) acc) k = true := by
  induction fs with
  | nil => intro acc k h; exact h
  | cons kv tl ih =>
      intro acc k h
      exact ih _ k (hasKey_objSet _ _ h)

theorem hasKey_foldl_objSet_mem (fs : List (String × JVal)) :
    ∀ (acc : Obj) (k : String), hasKey fs k = true →
    hasKey (fs.foldl (fun a kv => objSet a kv.1 kv.2) acc) k = true := by
  induction fs with
  | nil => intro acc k h; simp [hasKey, objGet] at h
  | cons kv tl ih =>
      intro acc k h
      by_cases hk : kv.1 = k
      · refine hasKey_foldl_objSet tl _ k ?_
        rw [← hk]
        exact hasKey_objSet_self acc kv.1 kv.2
      · refine ih _ k ?_
        obtain ⟨k0, v0⟩ := kv
        simp only [hasKey, objGet, if_neg hk] at h
        exact h

theorem hasKey_spreadInto_pres {acc : Obj} {k : String} (v : JVal)
    (h : hasKey acc k = true) : hasKey (spreadInto acc v) k = true := by
  cases v with
  | vObj fs => exact hasKey_foldl_objSet fs acc k h
  | vNull => exact h
  | vBool b => exact h
  | vNum n => exact h
  | vStr s => exact h
  | vArr l => exact h
  | vFun i => exact h

theorem hasKey_spreadInto_src {S : Obj} (acc : Obj) {k : String}
    (h : hasKey S k = true) :
    hasKey (spreadInto acc (JVal.vObj S)) k = true :=
  hasKey_foldl_objSet_mem S acc k h

theorem hasKey_mergeObj {S : Obj} (b : JVal) {k : String}
    (h : hasKey S k = true) : hasKey (mergeObj (JVal.vObj S) b) k = true := by
  unfold mergeObj
  exact hasKey_spreadInto_pres b (hasKey_spreadInto_src [] h)

theorem objGet_ensureRoot_ne (o : Obj) (top : String) (d : JVal)
    {k : String} (h : k ≠ top) :
    objGet (ensureRoot o top d) k = objGet o k := by
  unfold ensureRoot
  cases truthyO (objGet o top) with
  | true => simp
  | false => simp [objGet_objSet_ne o top k d h]

theorem scaffolded_update {o o' : Obj} (top : String)
    (hother : ∀ k, k ≠ top → objGet o' k = objGet o k)
    (hslot : slotOK top (objGet o' top) = true)
    (hs : scaffolded o = true) : scaffolded o' = true := by
  unfold scaffolded at *
  rw [List.all_eq_true] at *
  intro k hk
  by_cases hkt : k = top
  · subst hkt
    exact hslot
  · rw [hother k hkt]
    exact hs k hk

theorem mapKeysOK_objSet {ks : List String} {a : Obj} (key : String)
    (v : JVal) (h : mapKeysOK ks (some (JVal.vObj a)) = true) :
    mapKeysOK ks (some (JVal.vObj (objSet a key v))) = true := by
  simp only [mapKeysOK, List.all_eq_true] at *
  intro k hk
  exact hasKey_objSet _ _ (h k hk)

/-! ### Shape lemmas for the builder statement forms -/

theorem setLeaf_shape {o : Obj} {top key : String} {v : JVal} {o' : Obj}
    (h : setLeaf o top key v = Except.ok o') :
    ∃ a, objGet o top = some (JVal.vObj a) ∧
      o' = objSet o top (JVal.vObj (objSet a key v)) := by
  unfold setLeaf at h
  cases hg : objGet o top with
  | none => rw [hg] at h; exact Except.noConfusion h
  | some t =>
      rw [hg] at h
      cases t with
      | vObj a =>
          refine ⟨a, rfl, ?_⟩
          exact (Except.ok.inj h).symm
      | vNull => exact Except.noConfusion h
      | vBool b => exact Except.noConfusion h
      | vNum n => exact Except.noConfusion h
      | vStr s => exact Except.noConfusion h
      | vArr l => exact Except.noConfusion h
      | vFun i => exact Except.noConfusion h

theorem setLeaf2_shape {o : Obj} {top mid key : String} {v : JVal} {o' : Obj}
    (h : setLeaf2 o top mid key v = Except.ok o') :
    ∃ a w, objGet o top = some (JVal.vObj a) ∧
      o' = objSet o top (JVal.vObj (objSet a mid w)) := by
  unfold setLeaf2 at h
  cases hg : objGet o top with
  | none => rw [hg] at h; exact Except.noConfusion h
  | some t =>
      rw [hg] at h
      cases t with
      | vObj a =>
          have h1 : (match objGet a mid with
            | none => (Except.error () : Except Unit Obj)
            | some m => do
                let m' ← jsSet m key v
                let t' ← jsSet (JVal.vObj a) mid m'
                pure (objSet o top t')) = Except.ok o' := h
          cases hm : objGet a mid with
          | none => rw [hm] at h1; exact Except.noConfusion h1
          | some m =>
              have h2 : (do
                  let m' ← jsSet m key v
                  let t' ← jsSet (JVal.vObj a) mid m'
                  pure (objSet o top t')) = Except.ok o' := by
                rw [hm] at h1
                exact h1
              cases m with
              | vObj ms =>
                  refine ⟨a, JVal.vObj (objSet ms key v), rfl, ?_⟩
                  exact (Except.ok.inj h2).symm
              | vNull => exact Except.noConfusion h2
              | vBool b => exact Except.noConfusion h2
              | vNum n => exact Except.noConfusion h2
              | vStr s => exact Except.noConfusion h2
              | vArr l => exact Except.noConfusion h2
              | vFun i => exact Except.noConfusion h2
      | vNull => exact Except.noConfusion h
      | vBool b => exact Except.noConfusion h
      | vNum n => exact Except.noConfusion h
      | vStr s => exact Except.noConfusion h
      | vArr l => exact Except.noConfusion h
      | vFun i => exact Except.noConfusion h

theorem mergeSub_shape {o : Obj} {top sub : String} {config : JVal} {o' : Obj}
    (h : mergeSub o top sub config = Except.ok o') :
    ∃ a w, objGet o top = some (JVal.vObj a) ∧
      o' = objSet o top (JVal.vObj (objSet a sub w)) := by
  unfold mergeSub at h
  cases hg : objGet o top with
  | none => rw [hg] at h; exact Except.noConfusion h
  | some t =>
      rw [hg] at h
      cases t with
      | vObj a =>
          refine ⟨a, JVal.vObj (mergeObj ((objGet a sub).getD JVal.vNull)
            config), rfl, ?_⟩
          exact (Except.ok.inj h).symm
      | vNull => exact Except.noConfusion h
      | vBool b => exact Except.noConfusion h
      | vNum n => exact Except.noConfusion h
      | vStr s => exact Except.noConfusion h
      | vArr l => exact Except.noConfusion h
      | vFun i => exact Except.noConfusion h

theorem onAxis_obj_shape {isX : Bool} {F : JVal → Except Unit JVal}
    {o o' : Obj} {a : Obj}
    (hg : objGet o (axisKey isX) = some (JVal.vObj a))
    (h : onAxis isX F o = Except.ok o') :
    ∃ r, F (JVal.vObj a) = Except.ok r ∧ o' = objSet o (axisKey isX) r := by
  cases isX with
  | true =>
      have hga : getAxisCfg true o = some (JVal.vObj a) := hg
      unfold onAxis at h
      rw [hga] at h
      have h2 : (F (JVal.vObj a) >>= fun cfg' =>
          pure (putAxisCfg true o cfg')) = Except.ok o' := h
      cases hF : F (JVal.vObj a) with
      | error u => rw [hF] at h2; exact Except.noConfusion h2
      | ok r =>
          rw [hF] at h2
          refine ⟨r, rfl, ?_⟩
          have h3 : putAxisCfg true o r = o' := Except.ok.inj h2
          rw [← h3]
          exact putAxisCfg_x o r
  | false =>
      have hgy : objGet o "yaxis" = some (JVal.vObj a) := hg
      have hga : getAxisCfg false o = some (JVal.vObj a) :=
        getAxisCfgY_obj o a hgy
      unfold onAxis at h
      rw [hga] at h
      have h2 : (F (JVal.vObj a) >>= fun cfg' =>
          pure (putAxisCfg false o cfg')) = Except.ok o' := h
      cases hF : F (JVal.vObj a) with
      | error u => rw [hF] at h2; exact Except.noConfusion h2
      | ok r =>
          rw [hF] at h2
          refine ⟨r, rfl, ?_⟩
          have h3 : putAxisCfg false o r = o' := Except.ok.inj h2
          rw [← h3]
          exact putAxisCfgY_obj o a r hgy

/-! ### Slot-level preservation lemmas -/

theorem nestedHasKey_get {a : Obj} {k sub : String}
    (h : nestedHasKey a k sub = true) :
    ∃ c, objGet a k = some (JVal.vObj c) ∧ hasKey c sub = true := by
  unfold nestedHasKey at h
  cases hg : objGet a k with
  | none => rw [hg] at h; exact Bool.noConfusion h
  | some v =>
      rw [hg] at h
      cases v with
      | vObj c => exact ⟨c, rfl, h⟩
      | vNull => exact Bool.noConfusion h
      | vBool b => exact Bool.noConfusion h
      | vNum n => exact Bool.noConfusion h
      | vStr s => exact Bool.noConfusion h
      | vArr l => exact Bool.noConfusion h
      | vFun i => exact Bool.noConfusion h

theorem nestedHasKey_objSet_ne {a : Obj} {k sub : String} (key : String)
    (v : JVal) (hne : k ≠ key) (h : nestedHasKey a k sub = true) :
    nestedHasKey (objSet a key v) k sub = true := by
  unfold nestedHasKey at h ⊢
  rw [objGet_objSet_ne a key k v hne]
  exact h

theorem axisSlotOK_fields {a : Obj}
    (h : axisSlotOK (some (JVal.vObj a)) = true) :
    hasKey a "title" = true ∧ nestedHasKey a "labels" "style" = true ∧
    hasKey a "axisBorder" = true ∧ hasKey a "axisTicks" = true ∧
    hasKey a "crosshairs" = true := by
  have h' : (hasKey a "title" && nestedHasKey a "labels" "style" &&
      hasKey a "axisBorder" && hasKey a "axisTicks" &&
      hasKey a "crosshairs") = true := h
  simp only [Bool.and_eq_true] at h'
  exact ⟨h'.1.1.1.1, h'.1.1.1.2, h'.1.1.2, h'.1.2, h'.2⟩

theorem axisSlotOK_mk {a : Obj}
    (h1 : hasKey a "title" = true)
    (h2 : nestedHasKey a "labels" "style" = true)
    (h3 : hasKey a "axisBorder" = true)
    (h4 : hasKey a "axisTicks" = true)
    (h5 : hasKey a "crosshairs" = true) :
    axisSlotOK (some (JVal.vObj a)) = true := by
  show (hasKey a "title" && nestedHasKey a "labels" "style" &&
      hasKey a "axisBorder" && hasKey a "axisTicks" &&
      hasKey a "crosshairs") = true
  rw [h1, h2, h3, h4, h5]
  rfl

theorem axisSlotOK_objSet {a : Obj} {key : String} (v : JVal)
    (hkey : key ≠ "labels")
    (h : axisSlotOK (some (JVal.vObj a)) = true) :
    axisSlotOK (some (JVal.vObj (objSet a key v))) = true := by
  obtain ⟨h1, h2, h3, h4, h5⟩ := axisSlotOK_fields h
  exact axisSlotOK_mk (hasKey_objSet _ _ h1)
    (nestedHasKey_objSet_ne key v (fun he => hkey he.symm) h2)
    (hasKey_objSet _ _ h3) (hasKey_objSet _ _ h4) (hasKey_objSet _ _ h5)

theorem gridSlotOK_fields {g : Obj}
    (h : gridSlotOK (some (JVal.vObj g)) = true) :
    nestedHasKey g "xaxis" "lines" = true ∧
    nestedHasKey g "yaxis" "lines" = true ∧
    hasKey g "padding" = true := by
  have h' : (nestedHasKey g "xaxis" "lines" &&
      nestedHasKey g "yaxis" "lines" && hasKey g "padding") = true := h
  simp only [Bool.and_eq_true] at h'
  exact ⟨h'.1.1, h'.1.2, h'.2⟩

theorem gridSlotOK_mk {g : Obj}
    (h1 : nestedHasKey g "xaxis" "lines" = true)
    (h2 : nestedHasKey g "yaxis" "lines" = true)
    (h3 : hasKey g "padding" = true) :
    gridSlotOK (some (JVal.vObj g)) = true := by
  show (nestedHasKey g "xaxis" "lines" && nestedHasKey g "yaxis" "lines" &&
      hasKey g "padding") = true
  rw [h1, h2, h3]
  rfl

theorem gridSlotOK_objSet {g : Obj} {key : String} (v : JVal)
    (hx : key ≠ "xaxis") (hy : key ≠ "yaxis")
    (h : gridSlotOK (some (JVal.vObj g)) = true) :
    gridSlotOK (some (JVal.vObj (objSet g key v))) = true := by
  obtain ⟨h1, h2, h3⟩ := gridSlotOK_fields h
  exact gridSlotOK_mk
    (nestedHasKey_objSet_ne key v (fun he => hx he.symm) h1)
    (nestedHasKey_objSet_ne key v (fun he => hy he.symm) h2)
    (hasKey_objSet _ _ h3)

theorem scaffolded_slot {o : Obj} (top : String) (hmem : top ∈ scafKeys)
    (hs : scaffolded o = true) : slotOK top (objGet o top) = true := by
  unfold scaffolded at hs
  rw [List.all_eq_true] at hs
  exact hs top hmem

theorem scaffolded_objSet_out {o : Obj} (top : String) (w : JVal)
    (htriv : ∀ v, slotOK top v = true)
    (hs : scaffolded o = true) : scaffolded (objSet o top w) = true :=
  scaffolded_update top (fun k hk => objGet_objSet_ne o top k w hk)
    (htriv _) hs

theorem scaffolded_rootSet_out {o : Obj} (top : String) (d w : JVal)
    (htriv : ∀ v, slotOK top v = true) (hs : scaffolded o = true) :
    scaffolded (objSet (ensureRoot o top d) top w) = true := by
  refine scaffolded_update top ?_ (htriv _) hs
  intro k hk
  rw [objGet_objSet_ne _ top k w hk, objGet_ensureRoot_ne o top d hk]

theorem scaffolded_setLeaf_keys {o o' : Obj} {top key : String} {v : JVal}
    (ks : List String) (h : setLeaf o top key v = Except.ok o')
    (hmem : top ∈ scafKeys) (hsl : ∀ u, slotOK top u = mapKeysOK ks u)
    (hs : scaffolded o = true) : scaffolded o' = true := by
  obtain ⟨a, hg, rfl⟩ := setLeaf_shape h
  refine scaffolded_update top
    (fun k hk => objGet_objSet_ne o top k _ hk) ?_ hs
  rw [objGet_objSet_self, hsl]
  have h0 := scaffolded_slot top hmem hs
  rw [hg, hsl] at h0
  exact mapKeysOK_objSet key v h0

theorem scaffolded_mergeSub_keys {o o' : Obj} {top sub : String}
    {config : JVal} (ks : List String)
    (h : mergeSub o top sub config = Except.ok o')
    (hmem : top ∈ scafKeys) (hsl : ∀ u, slotOK top u = mapKeysOK ks u)
    (hs : scaffolded o = true) : scaffolded o' = true := by
  obtain ⟨a, w, hg, rfl⟩ := mergeSub_shape h
  refine scaffolded_update top
    (fun k hk => objGet_objSet_ne o top k _ hk) ?_ hs
  rw [objGet_objSet_self, hsl]
  have h0 := scaffolded_slot top hmem hs
  rw [hg, hsl] at h0
  exact mapKeysOK_objSet sub w h0

theorem scaffolded_setLeaf2_keys {o o' : Obj} {top mid key : String}
    {v : JVal} (ks : List String)
    (h : setLeaf2 o top mid key v = Except.ok o')
    (hmem : top ∈ scafKeys) (hsl : ∀ u, slotOK top u = mapKeysOK ks u)
    (hs : scaffolded o = true) : scaffolded o' = true := by
  obtain ⟨a, w, hg, rfl⟩ := setLeaf2_shape h
  refine scaffolded_update top
    (fun k hk => objGet_objSet_ne o top k _ hk) ?_ hs
  rw [objGet_objSet_self, hsl]
  have h0 := scaffolded_slot top hmem hs
  rw [hg, hsl] at h0
  exact mapKeysOK_objSet mid w h0

theorem scaffolded_setLeaf_grid {o o' : Obj} {key : String} {v : JVal}
    (hx : key ≠ "xaxis") (hy : key ≠ "yaxis")
    (h : setLeaf o "grid" key v = Except.ok o')
    (hs : scaffolded o = true) : scaffolded o' = true := by
  obtain ⟨a, hg, rfl⟩ := setLeaf_shape h
  refine scaffolded_update "grid"
    (fun k hk => objGet_objSet_ne o "grid" k _ hk) ?_ hs
  rw [objGet_objSet_self]
  have h0 := scaffolded_slot "grid" (by simp [scafKeys]) hs
  rw [hg] at h0
  show gridSlotOK (some (JVal.vObj (objSet a key v))) = true
  exact gridSlotOK_objSet v hx hy h0

theorem scaffolded_mergeSub_grid {o o' : Obj} {sub : String} {config : JVal}
    (hx : sub ≠ "xaxis") (hy : sub ≠ "yaxis")
    (h : mergeSub o "grid" sub config = Except.ok o')
    (hs : scaffolded o = true) : scaffolded o' = true := by
  obtain ⟨a, w, hg, rfl⟩ := mergeSub_shape h
  refine scaffolded_update "grid"
    (fun k hk => objGet_objSet_ne o "grid" k _ hk) ?_ hs
  rw [objGet_objSet_self]
  have h0 := scaffolded_slot "grid" (by simp [scafKeys]) hs
  rw [hg] at h0
  show gridSlotOK (some (JVal.vObj (objSet a sub w))) = true
  exact gridSlotOK_objSet w hx hy h0

theorem nestedHasKey_objSet_self (a : Obj) (key sub : String) (c : Obj)
    (h : hasKey c sub = true) :
    nestedHasKey (objSet a key (JVal.vObj c)) key sub = true := by
  unfold nestedHasKey
  rw [objGet_objSet_self]
  exact h

theorem scaffolded_gridLines {o o' : Obj} {which : String} {config : JVal}
    (hwx : which = "xaxis" ∨ which = "yaxis")
    (h : gridLines o which config = Except.ok o')
    (hs : scaffolded o = true) : scaffolded o' = true := by
  have h0 := scaffolded_slot "grid" (by simp [scafKeys]) hs
  unfold gridLines at h
  cases hg : objGet o "grid" with
  | none => rw [hg] at h; exact Except.noConfusion h
  | some g =>
      rw [hg] at h
      rw [hg] at h0
      cases g with
      | vObj gs =>
          obtain ⟨hxa, hya, hpad⟩ := gridSlotOK_fields h0
          have hw : nestedHasKey gs which "lines" = true := by
            cases hwx with
            | inl he => rw [he]; exact hxa
            | inr he => rw [he]; exact hya
          obtain ⟨xs, hgw, hlx⟩ := nestedHasKey_get hw
          have hE : ensureField (JVal.vObj gs) which =
              Except.ok (JVal.vObj (objSet gs which (JVal.vObj xs))) := by
            rw [ensureField_obj, hgw]
            rfl
          have h1 : (ensureField (JVal.vObj gs) which >>= fun g1 =>
              jsGet g1 which >>= fun axv =>
              jsGet (axv.getD JVal.vNull) "lines" >>= fun lv =>
              jsGet config "lines" >>= fun cl =>
              jsSet (axv.getD JVal.vNull) "lines"
                (JVal.vObj (mergeObj (lv.getD JVal.vNull)
                  (cl.getD JVal.vNull))) >>= fun ax' =>
              jsSet g1 which ax' >>= fun g' =>
              pure (objSet o "grid" g')) = Except.ok o' := h
          rw [hE, ok_bind, jsGet_obj, objGet_objSet_self, ok_bind] at h1
          simp only [Option.getD_some] at h1
          rw [jsGet_obj, ok_bind] at h1
          cases hc : jsGet config "lines" with
          | error u => rw [hc] at h1; exact Except.noConfusion h1
          | ok cl0 =>
              rw [hc, ok_bind, jsSet_obj, ok_bind, jsSet_obj, ok_bind] at h1
              have ho' : objSet o "grid" (JVal.vObj
                  (objSet (objSet gs which (JVal.vObj xs)) which
                    (JVal.vObj (objSet xs "lines"
                      (JVal.vObj (mergeObj ((objGet xs "lines").getD
                        JVal.vNull) (cl0.getD JVal.vNull))))))) = o' :=
                Except.ok.inj h1
              rw [← ho']
              refine scaffolded_update "grid"
                (fun k hk => objGet_objSet_ne o "grid" k _ hk) ?_ hs
              rw [objGet_objSet_self]
              show gridSlotOK (some (JVal.vObj
                (objSet (objSet gs which (JVal.vObj xs)) which _))) = true
              rw [objSet_objSet_same]
              cases hwx with
              | inl he =>
                  rw [he]
                  exact gridSlotOK_mk
                    (nestedHasKey_objSet_self _ _ _ _
                      (hasKey_objSet_self _ _ _))
                    (nestedHasKey_objSet_ne _ _ (by decide) hya)
                    (hasKey_objSet _ _ hpad)
              | inr he =>
                  rw [he]
                  exact gridSlotOK_mk
                    (nestedHasKey_objSet_ne _ _ (by decide) hxa)
                    (nestedHasKey_objSet_self _ _ _ _
                      (hasKey_objSet_self _ _ _))
                    (hasKey_objSet _ _ hpad)
      | vNull => exact Bool.noConfusion h0
      | vBool b => exact Bool.noConfusion h0
      | vNum n => exact Bool.noConfusion h0
      | vStr s => exact Bool.noConfusion h0
      | vArr l => exact Bool.noConfusion h0
      | vFun i => exact Bool.noConfusion h0

theorem hasKey_of_truthyO {a : Obj} {k : String}
    (h : truthyO (objGet a k) = true) : hasKey a k = true := by
  unfold truthyO at h
  cases hg : objGet a k with
  | none => rw [hg] at h; exact Bool.noConfusion h
  | some v => simp [hasKey, hg]

theorem nestedHasKey_of_stepDone {gs : Obj} {k sub : String}
    (h : stepDone gs (ScafStep.nested k sub)) :
    nestedHasKey gs k sub = true := by
  obtain ⟨cs, hg, ht⟩ := h
  unfold nestedHasKey
  rw [hg]
  exact hasKey_of_truthyO ht

theorem axisSlot_of_scaffolded {o : Obj} (isX : Bool)
    (hs : scaffolded o = true) :
    axisSlotOK (objGet o (axisKey isX)) = true := by
  cases isX with
  | true => exact scaffolded_slot "xaxis" (by simp [scafKeys]) hs
  | false => exact scaffolded_slot "yaxis" (by simp [scafKeys]) hs

theorem axisSlotOK_obj {v : Option JVal} (h : axisSlotOK v = true) :
    ∃ a, v = some (JVal.vObj a) := by
  cases v with
  | none => exact Bool.noConfusion h
  | some u =>
      cases u with
      | vObj a => exact ⟨a, rfl⟩
      | vNull => exact Bool.noConfusion h
      | vBool b => exact Bool.noConfusion h
      | vNum n => exact Bool.noConfusion h
      | vStr s => exact Bool.noConfusion h
      | vArr l => exact Bool.noConfusion h
      | vFun i => exact Bool.noConfusion h

theorem scaffolded_onAxis {isX : Bool} {F : JVal → Except Unit JVal}
    {o o' : Obj}
    (hF : ∀ a, axisSlotOK (some (JVal.vObj a)) = true →
      ∀ r, F (JVal.vObj a) = Except.ok r → axisSlotOK (some r) = true)
    (h : onAxis isX F o = Except.ok o') (hs : scaffolded o = true) :
    scaffolded o' = true := by
  have h0 := axisSlot_of_scaffolded isX hs
  obtain ⟨a, hga⟩ := axisSlotOK_obj h0
  rw [hga] at h0
  obtain ⟨r, hFr, rfl⟩ := onAxis_obj_shape hga h
  refine scaffolded_update (axisKey isX)
    (fun k hk => objGet_objSet_ne o (axisKey isX) k _ hk) ?_ hs
  rw [objGet_objSet_self]
  have hr := hF a h0 r hFr
  cases isX with
  | true => exact hr
  | false => exact hr

theorem scaffolded_axisInit {isX : Bool} {o o' : Obj}
    (h : axisInit isX o = Except.ok o') (hs : scaffolded o = true) :
    scaffolded o' = true := by
  have h0 := axisSlot_of_scaffolded isX hs
  obtain ⟨a, hga⟩ := axisSlotOK_obj h0
  rw [hga] at h0
  have hE : axisEnsureSlot isX o = o := by
    cases isX with
    | true =>
        have hgx : objGet o "xaxis" = some (JVal.vObj a) := hga
        rw [axisEnsureSlot_x]
        refine ensureRoot_id o "xaxis" _ ?_
        rw [hgx]
        rfl
    | false =>
        have hgy : objGet o "yaxis" = some (JVal.vObj a) := hga
        exact axisEnsureSlot_y_id o _ hgy rfl (fun l hl => JVal.noConfusion hl)
  rw [axisInit_shape, hE] at h
  have hcfg : getAxisCfg isX o = some (JVal.vObj a) := by
    cases isX with
    | true => exact hga
    | false => exact getAxisCfgY_obj o a hga
  rw [hcfg] at h
  have h1 : (axisScaffold (JVal.vObj a) >>= fun c =>
      pure (putAxisCfg isX o c)) = Except.ok o' := h
  cases hF : axisScaffold (JVal.vObj a) with
  | error u => rw [hF] at h1; exact Except.noConfusion h1
  | ok cfg' =>
      rw [hF] at h1
      obtain ⟨gs, rfl⟩ := axisScaffold_out_obj hF
      have ho' : putAxisCfg isX o (JVal.vObj gs) = o' := Except.ok.inj h1
      have hput : putAxisCfg isX o (JVal.vObj gs) =
          objSet o (axisKey isX) (JVal.vObj gs) := by
        cases isX with
        | true => exact putAxisCfg_x o _
        | false => exact putAxisCfgY_obj o a _ hga
      rw [hput] at ho'
      rw [← ho']
      refine scaffolded_update (axisKey isX)
        (fun k hk => objGet_objSet_ne o _ k _ hk) ?_ hs
      rw [objGet_objSet_self]
      have hd := scafSteps_mkDone _ (JVal.vObj a) gs hF
      have hsOK : axisSlotOK (some (JVal.vObj gs)) = true :=
        axisSlotOK_mk
          (hasKey_of_truthyO (hd (ScafStep.flat "title") (by simp)))
          (nestedHasKey_of_stepDone
            (hd (ScafStep.nested "labels" "style") (by simp)))
          (hasKey_of_truthyO (hd (ScafStep.flat "axisBorder") (by simp)))
          (hasKey_of_truthyO (hd (ScafStep.flat "axisTicks") (by simp)))
          (hasKey_of_truthyO (hd (ScafStep.flat "crosshairs") (by simp)))
      cases isX with
      | true => exact hsOK
      | false => exact hsOK

theorem scaffolded_leafInit {o o' : Obj} {top : String}
    {steps : List ScafStep}
    (hslot : ∀ gs, (∀ st ∈ steps, stepDone gs st) →
      slotOK top (some (JVal.vObj gs)) = true)
    (hne : steps ≠ [])
    (h : leafInit o top steps = Except.ok o')
    (hs : scaffolded o = true) : scaffolded o' = true := by
  obtain ⟨t, t', hg, hsc, rfl⟩ := leafInit_shape o top steps o' h
  obtain ⟨gs, rfl⟩ := scafSteps_out_obj steps t t' hne hsc
  refine scaffolded_update top ?_ ?_ hs
  · intro k hk
    rw [objGet_objSet_ne _ top k _ hk, objGet_ensureRoot_ne o top _ hk]
  · rw [objGet_objSet_self]
    exact hslot gs (scafSteps_mkDone steps t gs hsc)

theorem axisF_set1 {key : String} (v : JVal) (hkey : key ≠ "labels") :
    ∀ a, axisSlotOK (some (JVal.vObj a)) = true →
    ∀ r, (if truthy (JVal.vObj a) = true then jsSet (JVal.vObj a) key v
      else pure (JVal.vObj a)) = Except.ok r →
    axisSlotOK (some r) = true := by
  intro a h0 r hr
  have hr' : Except.ok (JVal.vObj (objSet a key v)) = Except.ok r := hr
  rw [← Except.ok.inj hr']
  exact axisSlotOK_objSet v hkey h0

theorem axisF_range (mn mx : Int) :
    ∀ a, axisSlotOK (some (JVal.vObj a)) = true →
    ∀ r, (if truthy (JVal.vObj a) = true then do
        let cfg ← jsSet (JVal.vObj a) "min" (JVal.vNum mn)
        jsSet cfg "max" (JVal.vNum mx)
      else pure (JVal.vObj a)) = Except.ok r →
    axisSlotOK (some r) = true := by
  intro a h0 r hr
  have hr' : Except.ok (JVal.vObj (objSet (objSet a "min" (JVal.vNum mn))
      "max" (JVal.vNum mx))) = Except.ok r := hr
  rw [← Except.ok.inj hr']
  exact axisSlotOK_objSet _ (by decide)
    (axisSlotOK_objSet _ (by decide) h0)

theorem axisF_merge1 {key : String} (config : JVal) (hkey : key ≠ "labels") :
    ∀ a, axisSlotOK (some (JVal.vObj a)) = true →
    ∀ r, (if truthy (JVal.vObj a) = true then do
        let old ← jsGet (JVal.vObj a) key
        jsSet (JVal.vObj a) key
          (JVal.vObj (mergeObj (old.getD JVal.vNull) config))
      else pure (JVal.vObj a)) = Except.ok r →
    axisSlotOK (some r) = true := by
  intro a h0 r hr
  have hr' : Except.ok (JVal.vObj (objSet a key
      (JVal.vObj (mergeObj ((objGet a key).getD JVal.vNull) config)))) =
      Except.ok r := hr
  rw [← Except.ok.inj hr']
  exact axisSlotOK_objSet _ hkey h0

theorem axisF_title (text : String) :
    ∀ a, axisSlotOK (some (JVal.vObj a)) = true →
    ∀ r, (match optGet (JVal.vObj a) "title" with
      | some t =>
          if truthy t = true then do
            let t' ← jsSet t "text" (JVal.vStr text)
            jsSet (JVal.vObj a) "title" t'
          else pure (JVal.vObj a)
      | none => pure (JVal.vObj a)) = Except.ok r →
    axisSlotOK (some r) = true := by
  intro a h0 r hr
  have hr1 : (match objGet a "title" with
    | some t =>
        if truthy t = true then do
          let t' ← jsSet t "text" (JVal.vStr text)
          jsSet (JVal.vObj a) "title" t'
        else pure (JVal.vObj a)
    | none => (pure (JVal.vObj a) : Except Unit JVal)) = Except.ok r := hr
  cases ht : objGet a "title" with
  | none =>
      rw [ht] at hr1
      rw [← Except.ok.inj hr1]
      exact h0
  | some t =>
      rw [ht] at hr1
      have hr2 : (if truthy t = true then do
          let t' ← jsSet t "text" (JVal.vStr text)
          jsSet (JVal.vObj a) "title" t'
        else pure (JVal.vObj a)) = Except.ok r := hr1
      cases htt : truthy t with
      | false =>
          rw [htt] at hr2
          have hr3 : Except.ok (JVal.vObj a) = Except.ok r := hr2
          rw [← Except.ok.inj hr3]
          exact h0
      | true =>
          rw [htt] at hr2
          cases t with
          | vObj ts =>
              have hr3 : Except.ok (JVal.vObj (objSet a "title"
                  (JVal.vObj (objSet ts "text" (JVal.vStr text))))) =
                  Except.ok r := hr2
              rw [← Except.ok.inj hr3]
              exact axisSlotOK_objSet _ (by decide) h0
          | vNull => exact Except.noConfusion hr2
          | vBool b => exact Except.noConfusion hr2
          | vNum n => exact Except.noConfusion hr2
          | vStr s => exact Except.noConfusion hr2
          | vArr l => exact Except.noConfusion hr2
          | vFun i => exact Except.noConfusion hr2

theorem axisF_labels (config : JVal) :
    ∀ a, axisSlotOK (some (JVal.vObj a)) = true →
    ∀ r, (if truthy (JVal.vObj a) = true then do
        let cfg ← ensureField (JVal.vObj a) "labels"
        let lv ← jsGet cfg "labels"
        let merged := JVal.vObj (mergeObj (lv.getD JVal.vNull) config)
        let cfg ← jsSet cfg "labels" merged
        let cs ← jsGet config "style"
        if truthyO cs = true then do
          let m1 ← ensureField merged "style"
          let sv ← jsGet m1 "style"
          let m2 ← jsSet m1 "style"
            (JVal.vObj (mergeObj (sv.getD JVal.vNull) (cs.getD JVal.vNull)))
          jsSet cfg "labels" m2
        else pure cfg
      else pure (JVal.vObj a)) = Except.ok r →
    axisSlotOK (some r) = true := by
  intro a h0 r hr
  obtain ⟨h1t, h1l, h1b, h1k, h1c⟩ := axisSlotOK_fields h0
  obtain ⟨ls, hls, hstyle⟩ := nestedHasKey_get h1l
  have hE : ensureField (JVal.vObj a) "labels" =
      Except.ok (JVal.vObj (objSet a "labels" (JVal.vObj ls))) := by
    rw [ensureField_obj, hls]
    rfl
  have h1 : (ensureField (JVal.vObj a) "labels" >>= fun cfg1 =>
      jsGet cfg1 "labels" >>= fun lv =>
      jsSet cfg1 "labels"
        (JVal.vObj (mergeObj (lv.getD JVal.vNull) config)) >>= fun cfg2 =>
      jsGet config "style" >>= fun cs =>
      if truthyO cs = true then
        ensureField (JVal.vObj (mergeObj (lv.getD JVal.vNull) config))
          "style" >>= fun m1 =>
        jsGet m1 "style" >>= fun sv =>
        jsSet m1 "style" (JVal.vObj (mergeObj (sv.getD JVal.vNull)
          (cs.getD JVal.vNull))) >>= fun m2 =>
        jsSet cfg2 "labels" m2
      else pure cfg2) = Except.ok r := hr
  rw [hE, ok_bind, jsGet_obj, objGet_objSet_self, ok_bind] at h1
  simp only [Option.getD_some] at h1
  rw [jsSet_obj, ok_bind, objSet_objSet_same] at h1
  have hMstyle : hasKey (mergeObj (JVal.vObj ls) config) "style" = true :=
    hasKey_mergeObj config hstyle
  cases hcs : jsGet config "style" with
  | error u => rw [hcs] at h1; exact Except.noConfusion h1
  | ok cs0 =>
      rw [hcs, ok_bind] at h1
      cases hcst : truthyO cs0 with
      | false =>
          rw [hcst] at h1
          have h2 : Except.ok (JVal.vObj (objSet a "labels"
              (JVal.vObj (mergeObj (JVal.vObj ls) config)))) =
              Except.ok r := h1
          rw [← Except.ok.inj h2]
          exact axisSlotOK_mk (hasKey_objSet _ _ h1t)
            (nestedHasKey_objSet_self _ _ _ _ hMstyle)
            (hasKey_objSet _ _ h1b) (hasKey_objSet _ _ h1k)
            (hasKey_objSet _ _ h1c)
      | true =>
          rw [hcst] at h1
          have h2 : (ensureField (JVal.vObj (mergeObj (JVal.vObj ls)
              config)) "style" >>= fun m1 =>
              jsGet m1 "style" >>= fun sv =>
              jsSet m1 "style" (JVal.vObj (mergeObj (sv.getD JVal.vNull)
                (cs0.getD JVal.vNull))) >>= fun m2 =>
              jsSet (JVal.vObj (objSet a "labels" (JVal.vObj (mergeObj
                (JVal.vObj ls) config)))) "labels" m2) =
              Except.ok r := h1
          obtain ⟨sv0, hsv0⟩ := Option.isSome_iff_exists.mp hMstyle
          have hE2 := ensureField_obj (mergeObj (JVal.vObj ls) config)
            "style"
          rw [hsv0] at hE2
          rw [hE2, ok_bind, jsGet_obj, objGet_objSet_self, ok_bind] at h2
          simp only [Option.getD_some] at h2
          rw [jsSet_obj, ok_bind, objSet_objSet_same, jsSet_obj,
            objSet_objSet_same] at h2
          rw [← Except.ok.inj h2]
          exact axisSlotOK_mk (hasKey_objSet _ _ h1t)
            (nestedHasKey_objSet_self _ _ _ _ (hasKey_objSet_self _ _ _))
            (hasKey_objSet _ _ h1b) (hasKey_objSet _ _ h1k)
            (hasKey_objSet _ _ h1c)

theorem plotOptions_step_pres {o o' : Obj}
    (hsh : ∀ k, k ≠ "plotOptions" → objGet o' k = objGet o k)
    (hobj : objSlotOK (objGet o' "plotOptions") = true)
    (hs : scaffolded o = true) : scaffolded o' = true :=
  scaffolded_update "plotOptions" hsh hobj hs

theorem ensurePlotOptionType_shape {o : Obj} {ty : String} {o' : Obj}
    (h : ensurePlotOptionType o ty = Except.ok o') :
    (∀ k, k ≠ "plotOptions" → objGet o' k = objGet o k) ∧
    ∃ w, objGet o' "plotOptions" = some (JVal.vObj w) := by
  unfold ensurePlotOptionType at h
  have h0 : (match objGet (ensurePlotOptions o) "plotOptions" with
    | none => (Except.error () : Except Unit Obj)
    | some po => do
        let c ← jsGet po ty
        if truthyO c = true then pure (ensurePlotOptions o)
        else do
          let po' ← jsSet po ty (JVal.vObj [])
          pure (objSet (ensurePlotOptions o) "plotOptions" po')) =
      Except.ok o' := h
  cases hg : objGet (ensurePlotOptions o) "plotOptions" with
  | none => rw [hg] at h0; exact Except.noConfusion h0
  | some po =>
      rw [hg] at h0
      cases po with
      | vObj ps =>
          have h1 : (if truthyO (objGet ps ty) = true then
              pure (ensurePlotOptions o)
            else do
              let po' ← jsSet (JVal.vObj ps) ty (JVal.vObj [])
              pure (objSet (ensurePlotOptions o) "plotOptions" po')) =
              Except.ok o' := h0
          cases ht : truthyO (objGet ps ty) with
          | true =>
              rw [ht] at h1
              have ho' : ensurePlotOptions o = o' := Except.ok.inj h1
              refine ⟨?_, ?_⟩
              · intro k hk
                rw [← ho']
                exact objGet_ensureRoot_ne o _ _ hk
              · rw [← ho']
                exact ⟨ps, hg⟩
          | false =>
              rw [ht] at h1
              have ho' : objSet (ensurePlotOptions o) "plotOptions"
                  (JVal.vObj (objSet ps ty (JVal.vObj []))) = o' :=
                Except.ok.inj h1
              refine ⟨?_, ?_⟩
              · intro k hk
                rw [← ho', objGet_objSet_ne _ _ k _ hk]
                exact objGet_ensureRoot_ne o "plotOptions" _ hk
              · rw [← ho', objGet_objSet_self]
                exact ⟨_, rfl⟩
      | vNull => exact Except.noConfusion h0
      | vBool b => exact Except.noConfusion h0
      | vNum n => exact Except.noConfusion h0
      | vStr s => exact Except.noConfusion h0
      | vArr l => exact Except.noConfusion h0
      | vFun i => exact Except.noConfusion h0

theorem plotSetLeaf_lookups {o : Obj} {ty key : String} {v : JVal} {o' : Obj}
    (h : plotSetLeaf o ty key v = Except.ok o') :
    (∀ k, k ≠ "plotOptions" → objGet o' k = objGet o k) ∧
    ∃ w, objGet o' "plotOptions" = some (JVal.vObj w) := by
  unfold plotSetLeaf at h
  cases hE : ensurePlotOptionType o ty with
  | error u => rw [hE] at h; exact Except.noConfusion h
  | ok o2 =>
      rw [hE] at h
      obtain ⟨hsh2, w2, hw2⟩ := ensurePlotOptionType_shape hE
      have h1 : (match objGet o2 "plotOptions" with
        | none => (Except.error () : Except Unit Obj)
        | some po => do
            let tv ← jsGet po ty
            let t' ← jsSet (tv.getD JVal.vNull) key v
            let po' ← jsSet po ty t'
            pure (objSet o2 "plotOptions" po')) = Except.ok o' := h
      rw [hw2] at h1
      have h2 : (jsGet (JVal.vObj w2) ty >>= fun tv =>
          jsSet (tv.getD JVal.vNull) key v >>= fun t' =>
          jsSet (JVal.vObj w2) ty t' >>= fun po' =>
          pure (objSet o2 "plotOptions" po')) = Except.ok o' := h1
      rw [jsGet_obj, ok_bind] at h2
      cases hts : jsSet ((objGet w2 ty).getD JVal.vNull) key v with
      | error u => rw [hts] at h2; exact Except.noConfusion h2
      | ok t0 =>
          rw [hts, ok_bind, jsSet_obj, ok_bind] at h2
          have ho' : objSet o2 "plotOptions"
              (JVal.vObj (objSet w2 ty t0)) = o' := Except.ok.inj h2
          refine ⟨?_, ?_⟩
          · intro k hk
            rw [← ho', objGet_objSet_ne _ _ k _ hk]
            exact hsh2 k hk
          · rw [← ho', objGet_objSet_self]
            exact ⟨_, rfl⟩

theorem plotMerge_lookups {o : Obj} {ty key : String} {config : JVal}
    {o' : Obj} (h : plotMerge o ty key config = Except.ok o') :
    (∀ k, k ≠ "plotOptions" → objGet o' k = objGet o k) ∧
    ∃ w, objGet o' "plotOptions" = some (JVal.vObj w) := by
  unfold plotMerge at h
  cases hE : ensurePlotOptionType o ty with
  | error u => rw [hE] at h; exact Except.noConfusion h
  | ok o2 =>
      rw [hE] at h
      obtain ⟨hsh2, w2, hw2⟩ := ensurePlotOptionType_shape hE
      have h1 : (match objGet o2 "plotOptions" with
        | none => (Except.error () : Except Unit Obj)
        | some po => do
            let tv ← jsGet po ty
            let old ← jsGet (tv.getD JVal.vNull) key
            let t' ← jsSet (tv.getD JVal.vNull) key
              (JVal.vObj (mergeObj (old.getD JVal.vNull) config))
            let po' ← jsSet po ty t'
            pure (objSet o2 "plotOptions" po')) = Except.ok o' := h
      rw [hw2] at h1
      have h2 : (jsGet (JVal.vObj w2) ty >>= fun tv =>
          jsGet (tv.getD JVal.vNull) key >>= fun old =>
          jsSet (tv.getD JVal.vNull) key
            (JVal.vObj (mergeObj (old.getD JVal.vNull) config)) >>= fun t' =>
          jsSet (JVal.vObj w2) ty t' >>= fun po' =>
          pure (objSet o2 "plotOptions" po')) = Except.ok o' := h1
      rw [jsGet_obj, ok_bind] at h2
      cases hold : jsGet ((objGet w2 ty).getD JVal.vNull) key with
      | error u => rw [hold] at h2; exact Except.noConfusion h2
      | ok old0 =>
          rw [hold, ok_bind] at h2
          cases hts : jsSet ((objGet w2 ty).getD JVal.vNull) key
              (JVal.vObj (mergeObj (old0.getD JVal.vNull) config)) with
          | error u => rw [hts] at h2; exact Except.noConfusion h2
          | ok t0 =>
              rw [hts, ok_bind, jsSet_obj, ok_bind] at h2
              have ho' : objSet o2 "plotOptions"
                  (JVal.vObj (objSet w2 ty t0)) = o' := Except.ok.inj h2
              refine ⟨?_, ?_⟩
              · intro k hk
                rw [← ho', objGet_objSet_ne _ _ k _ hk]
                exact hsh2 k hk
              · rw [← ho', objGet_objSet_self]
                exact ⟨_, rfl⟩

theorem pieDonut_lookups {o : Obj} {config : JVal} {o' : Obj}
    (h : pieDonut o config = Except.ok o') :
    (∀ k, k ≠ "plotOptions" → objGet o' k = objGet o k) ∧
    ∃ w, objGet o' "plotOptions" = some (JVal.vObj w) := by
  unfold pieDonut at h
  cases hE : ensurePlotOptionType o "pie" with
  | error u => rw [hE] at h; exact Except.noConfusion h
  | ok o2 =>
      rw [hE] at h
      obtain ⟨hsh2, w2, hw2⟩ := ensurePlotOptionType_shape hE
      have conclude : ∀ (x : JVal),
          objSet o2 "plotOptions" (JVal.vObj (objSet w2 "pie" x)) = o' →
          (∀ k, k ≠ "plotOptions" → objGet o' k = objGet o k) ∧
          ∃ w, objGet o' "plotOptions" = some (JVal.vObj w) := by
        intro x hx
        refine ⟨?_, ?_⟩
        · intro k hk
          rw [← hx, objGet_objSet_ne _ _ k _ hk]
          exact hsh2 k hk
        · rw [← hx, objGet_objSet_self]
          exact ⟨_, rfl⟩
      have h1 : (match objGet o2 "plotOptions" with
        | none => (Except.error () : Except Unit Obj)
        | some po => do
            let pv ← jsGet po "pie"
            let pie := pv.getD JVal.vNull
            let dOld ← jsGet pie "donut"
            let dNew := JVal.vObj (mergeObj (dOld.getD JVal.vNull) config)
            let pie1 ← jsSet pie "donut" dNew
            let cl ← jsGet config "labels"
            if truthyO cl then do
              let clv := cl.getD JVal.vNull
              let dl ← jsGet dNew "labels"
              let acc := mergeObj (dl.getD JVal.vNull) clv
              let nOld := match dl with
                | some l => optGet l "name"
                | none => none
              let cn ← jsGet clv "name"
              let nNew := JVal.vObj (mergeObj (nOld.getD JVal.vNull)
                (cn.getD JVal.vNull))
              let vOld := match dl with
                | some l => optGet l "value"
                | none => none
              let cv ← jsGet clv "value"
              let vNew := JVal.vObj (mergeObj (vOld.getD JVal.vNull)
                (cv.getD JVal.vNull))
              let tOld := match dl with
                | some l => optGet l "total"
                | none => none
              let ct ← jsGet clv "total"
              let tNew := JVal.vObj (mergeObj (tOld.getD JVal.vNull)
                (ct.getD JVal.vNull))
              let labelsNew := JVal.vObj
                (objSet (objSet (objSet acc "name" nNew) "value" vNew)
                  "total" tNew)
              let dFinal ← jsSet dNew "labels" labelsNew
              let pie2 ← jsSet pie1 "donut" dFinal
              let po' ← jsSet po "pie" pie2
              pure (objSet o2 "plotOptions" po')
            else do
              let po' ← jsSet po "pie" pie1
              pure (objSet o2 "plotOptions" po')) = Except.ok o' := h
      rw [hw2] at h1
      have h2 : (jsGet ((objGet w2 "pie").getD JVal.vNull) "donut" >>=
          fun dOld =>
          jsSet ((objGet w2 "pie").getD JVal.vNull) "donut"
            (JVal.vObj (mergeObj (dOld.getD JVal.vNull) config)) >>=
          fun pie1 =>
          jsGet config "labels" >>= fun cl =>
          if truthyO cl then
            jsGet (JVal.vObj (mergeObj (dOld.getD JVal.vNull) config))
              "labels" >>= fun dl =>
            jsGet (cl.getD JVal.vNull) "name" >>= fun cn =>
            jsGet (cl.getD JVal.vNull) "value" >>= fun cv =>
            jsGet (cl.getD JVal.vNull) "total" >>= fun ct =>
            jsSet (JVal.vObj (mergeObj (dOld.getD JVal.vNull) config))
              "labels" (JVal.vObj
                (objSet (objSet (objSet
                  (mergeObj (dl.getD JVal.vNull) (cl.getD JVal.vNull))
                  "name" (JVal.vObj (mergeObj ((match dl with
                    | some l => optGet l "name"
                    | none => none).getD JVal.vNull)
                    (cn.getD JVal.vNull))))
                  "value" (JVal.vObj (mergeObj ((match dl with
                    | some l => optGet l "value"
                    | none => none).getD JVal.vNull)
                    (cv.getD JVal.vNull))))
                  "total" (JVal.vObj (mergeObj ((match dl with
                    | some l => optGet l "total"
                    | none => none).getD JVal.vNull)
                    (ct.getD JVal.vNull))))) >>= fun dFinal =>
            jsSet pie1 "donut" dFinal >>= fun pie2 =>
            jsSet (JVal.vObj w2) "pie" pie2 >>= fun po' =>
            pure (objSet o2 "plotOptions" po')
          else
            jsSet (JVal.vObj w2) "pie" pie1 >>= fun po' =>
            pure (objSet o2 "plotOptions" po')) = Except.ok o' := h1
      cases hdo : jsGet ((objGet w2 "pie").getD JVal.vNull) "donut" with
      | error u => rw [hdo] at h2; exact Except.noConfusion h2
      | ok dOld0 =>
          rw [hdo, ok_bind] at h2
          cases hp1 : jsSet ((objGet w2 "pie").getD JVal.vNull) "donut"
              (JVal.vObj (mergeObj (dOld0.getD JVal.vNull) config)) with
          | error u => rw [hp1] at h2; exact Except.noConfusion h2
          | ok p10 =>
              rw [hp1, ok_bind] at h2
              cases hcl : jsGet config "labels" with
              | error u => rw [hcl] at h2; exact Except.noConfusion h2
              | ok cl0 =>
                  rw [hcl, ok_bind] at h2
                  cases hct : truthyO cl0 with
                  | false =>
                      rw [hct] at h2
                      simp only [Bool.false_eq_true, if_false] at h2
                      rw [jsSet_obj, ok_bind] at h2
                      exact conclude p10 (Except.ok.inj h2)
                  | true =>
                      rw [hct] at h2
                      simp only [if_true] at h2
                      rw [jsGet_obj, ok_bind] at h2
                      cases hcn : jsGet (cl0.getD JVal.vNull) "name" with
                      | error u => rw [hcn] at h2; exact Except.noConfusion h2
                      | ok cn0 =>
                          rw [hcn, ok_bind] at h2
                          cases hcv : jsGet (cl0.getD JVal.vNull) "value" with
                          | error u =>
                              rw [hcv] at h2
                              exact Except.noConfusion h2
                          | ok cv0 =>
                              rw [hcv, ok_bind] at h2
                              cases hctl : jsGet (cl0.getD JVal.vNull)
                                  "total" with
                              | error u =>
                                  rw [hctl] at h2
                                  exact Except.noConfusion h2
                              | ok ct0 =>
                                  rw [hctl, ok_bind, jsSet_obj, ok_bind] at h2
                                  cases hp2 : jsSet p10 "donut"
                                      (JVal.vObj (objSet (mergeObj
                                        (dOld0.getD JVal.vNull) config)
                                        "labels" (JVal.vObj
                                        (objSet (objSet (objSet
                                          (mergeObj (((objGet (mergeObj
                                            (dOld0.getD JVal.vNull) config)
                                            "labels")).getD JVal.vNull)
                                            (cl0.getD JVal.vNull))
                                          "name" (JVal.vObj (mergeObj
                                            ((match objGet (mergeObj
                                              (dOld0.getD JVal.vNull) config)
                                              "labels" with
                                              | some l => optGet l "name"
                                              | none => none).getD JVal.vNull)
                                            (cn0.getD JVal.vNull))))
                                          "value" (JVal.vObj (mergeObj
                                            ((match objGet (mergeObj
                                              (dOld0.getD JVal.vNull) config)
                                              "labels" with
                                              | some l => optGet l "value"
                                              | none => none).getD JVal.vNull)
                                            (cv0.getD JVal.vNull))))
                                          "total" (JVal.vObj (mergeObj
                                            ((match objGet (mergeObj
                                              (dOld0.getD JVal.vNull) config)
                                              "labels" with
                                              | some l => optGet l "total"
                                              | none => none).getD JVal.vNull)
                                            (ct0.getD JVal.vNull))))))) with
                                  | error u =>
                                      rw [hp2] at h2
                                      exact Except.noConfusion h2
                                  | ok p20 =>
                                      rw [hp2, ok_bind, jsSet_obj,
                                        ok_bind] at h2
                                      exact conclude p20 (Except.ok.inj h2)

theorem radialDataLabels_lookups {o : Obj} {config : JVal} {o' : Obj}
    (h : radialDataLabels o config = Except.ok o') :
    (∀ k, k ≠ "plotOptions" → objGet o' k = objGet o k) ∧
    ∃ w, objGet o' "plotOptions" = some (JVal.vObj w) := by
  unfold radialDataLabels at h
  cases hE : ensurePlotOptionType o "radialBar" with
  | error u => rw [hE] at h; exact Except.noConfusion h
  | ok o2 =>
      rw [hE] at h
      obtain ⟨hsh2, w2, hw2⟩ := ensurePlotOptionType_shape hE
      have h1 : (match objGet o2 "plotOptions" with
        | none => (Except.error () : Except Unit Obj)
        | some po => do
            let rv ← jsGet po "radialBar"
            let rb := rv.getD JVal.vNull
            let dOld ← jsGet rb "dataLabels"
            let d0 := JVal.vObj (mergeObj (dOld.getD JVal.vNull) config)
            let d1 ← deepMergeKey d0 config "name"
            let d2 ← deepMergeKey d1 config "value"
            let d3 ← deepMergeKey d2 config "total"
            let rb' ← jsSet rb "dataLabels" d3
            let po' ← jsSet po "radialBar" rb'
            pure (objSet o2 "plotOptions" po')) = Except.ok o' := h
      rw [hw2] at h1
      have h2 : (jsGet ((objGet w2 "radialBar").getD JVal.vNull)
          "dataLabels" >>= fun dOld =>
          deepMergeKey (JVal.vObj (mergeObj (dOld.getD JVal.vNull) config))
            config "name" >>= fun d1 =>
          deepMergeKey d1 config "value" >>= fun d2 =>
          deepMergeKey d2 config "total" >>= fun d3 =>
          jsSet ((objGet w2 "radialBar").getD JVal.vNull)
            "dataLabels" d3 >>= fun rb' =>
          jsSet (JVal.vObj w2) "radialBar" rb' >>= fun po' =>
          pure (objSet o2 "plotOptions" po')) = Except.ok o' := h1
      cases hdo : jsGet ((objGet w2 "radialBar").getD JVal.vNull)
          "dataLabels" with
      | error u => rw [hdo] at h2; exact Except.noConfusion h2
      | ok dOld0 =>
          rw [hdo, ok_bind] at h2
          cases hd1 : deepMergeKey (JVal.vObj (mergeObj
              (dOld0.getD JVal.vNull) config)) config "name" with
          | error u => rw [hd1] at h2; exact Except.noConfusion h2
          | ok d10 =>
              rw [hd1, ok_bind] at h2
              cases hd2 : deepMergeKey d10 config "value" with
              | error u => rw [hd2] at h2; exact Except.noConfusion h2
              | ok d20 =>
                  rw [hd2, ok_bind] at h2
                  cases hd3 : deepMergeKey d20 config "total" with
                  | error u => rw [hd3] at h2; exact Except.noConfusion h2
                  | ok d30 =>
                      rw [hd3, ok_bind] at h2
                      cases hrb : jsSet ((objGet w2 "radialBar").getD
                          JVal.vNull) "dataLabels" d30 with
                      | error u => rw [hrb] at h2; exact Except.noConfusion h2
                      | ok rb0 =>
                          rw [hrb, ok_bind, jsSet_obj, ok_bind] at h2
                          have ho' : objSet o2 "plotOptions"
                              (JVal.vObj (objSet w2 "radialBar" rb0)) = o' :=
                            Except.ok.inj h2
                          refine ⟨?_, ?_⟩
                          · intro k hk
                            rw [← ho', objGet_objSet_ne _ _ k _ hk]
                            exact hsh2 k hk
                          · rw [← ho', objGet_objSet_self]
                            exact ⟨_, rfl⟩

theorem chartStates_shape {o : Obj} {config : JVal} {o' : Obj}
    (h : chartStates o config = Except.ok o') :
    ∃ w, o' = objSet o "states" w := by
  unfold chartStates at h
  have h0 : (statesDeep (mergeObj ((objGet o "states").getD JVal.vNull)
      config) config "normal" >>= fun s1 =>
      statesDeep s1 config "hover" >>= fun s2 =>
      statesDeep s2 config "active" >>= fun s3 =>
      pure (objSet o "states" (JVal.vObj s3))) = Except.ok o' := h
  cases h1 : statesDeep (mergeObj ((objGet o "states").getD JVal.vNull)
      config) config "normal" with
  | error u => rw [h1] at h0; exact Except.noConfusion h0
  | ok s1 =>
      rw [h1, ok_bind] at h0
      cases h2 : statesDeep s1 config "hover" with
      | error u => rw [h2] at h0; exact Except.noConfusion h0
      | ok s2 =>
          rw [h2, ok_bind] at h0
          cases h3 : statesDeep s2 config "active" with
          | error u => rw [h3] at h0; exact Except.noConfusion h0
          | ok s3 =>
              rw [h3, ok_bind] at h0
              exact ⟨JVal.vObj s3, (Except.ok.inj h0).symm⟩

theorem chartAnimations_lookups {o : Obj} {config : JVal} {o' : Obj}
    (h : chartAnimations o config = Except.ok o') :
    ∀ k, k ≠ "chart" → objGet o' k = objGet o k := by
  unfold chartAnimations at h
  have h1 : (match objGet (ensureRoot o "chart"
      (JVal.vObj [("type", JVal.vStr "line")])) "chart" with
    | none => (Except.error () : Except Unit Obj)
    | some c => do
        let aOld ← jsGet c "animations"
        let a0 := mergeObj (aOld.getD JVal.vNull) config
        let a1 := animDeep a0 config "animateGradually"
        let a2 := animDeep a1 config "dynamicAnimation"
        let c' ← jsSet c "animations" (JVal.vObj a2)
        pure (objSet (ensureRoot o "chart"
          (JVal.vObj [("type", JVal.vStr "line")])) "chart" c')) =
      Except.ok o' := h
  cases hg : objGet (ensureRoot o "chart"
      (JVal.vObj [("type", JVal.vStr "line")])) "chart" with
  | none => rw [hg] at h1; exact Except.noConfusion h1
  | some c =>
      rw [hg] at h1
      have h2 : (jsGet c "animations" >>= fun aOld =>
          jsSet c "animations" (JVal.vObj (animDeep (animDeep
            (mergeObj (aOld.getD JVal.vNull) config) config
            "animateGradually") config "dynamicAnimation")) >>= fun c' =>
          pure (objSet (ensureRoot o "chart"
            (JVal.vObj [("type", JVal.vStr "line")])) "chart" c')) =
          Except.ok o' := h1
      cases ha : jsGet c "animations" with
      | error u => rw [ha] at h2; exact Except.noConfusion h2
      | ok aOld0 =>
          rw [ha, ok_bind] at h2
          cases hc' : jsSet c "animations" (JVal.vObj (animDeep (animDeep
              (mergeObj (aOld0.getD JVal.vNull) config) config
              "animateGradually") config "dynamicAnimation")) with
          | error u => rw [hc'] at h2; exact Except.noConfusion h2
          | ok c0 =>
              rw [hc', ok_bind] at h2
              have ho' : objSet (ensureRoot o "chart"
                  (JVal.vObj [("type", JVal.vStr "line")])) "chart" c0 =
                  o' := Except.ok.inj h2
              intro k hk
              rw [← ho', objGet_objSet_ne _ _ k _ hk]
              exact objGet_ensureRoot_ne o "chart" _ hk

theorem plot_pres_of_lookups {o o' : Obj}
    (hl : (∀ k, k ≠ "plotOptions" → objGet o' k = objGet o k) ∧
      ∃ w, objGet o' "plotOptions" = some (JVal.vObj w))
    (hs : scaffolded o = true) : scaffolded o' = true := by
  obtain ⟨hsh, w, hw⟩ := hl
  refine plotOptions_step_pres hsh ?_ hs
  rw [hw]
  rfl

theorem applyOp_pres {op : Op} {t t' : Obj}
    (h : applyOp op t = Except.ok t') (hs : scaffolded t = true) :
    scaffolded t' = true := by
  cases op with
  | axisCtor isX => exact scaffolded_axisInit h hs
  | aTitle isX s => exact scaffolded_onAxis (axisF_title s) h hs
  | aCategories isX c =>
      exact scaffolded_onAxis (axisF_set1 c (by decide)) h hs
  | aType isX s =>
      exact scaffolded_onAxis (axisF_set1 (JVal.vStr s) (by decide)) h hs
  | aLabels isX c => exact scaffolded_onAxis (axisF_labels c) h hs
  | aRange isX mn mx => exact scaffolded_onAxis (axisF_range mn mx) h hs
  | aTickAmount isX n =>
      exact scaffolded_onAxis (axisF_set1 (JVal.vNum n) (by decide)) h hs
  | aBorder isX c =>
      exact scaffolded_onAxis (axisF_merge1 c (by decide)) h hs
  | aTicks isX c =>
      exact scaffolded_onAxis (axisF_merge1 c (by decide)) h hs
  | aCrosshairs isX c =>
      exact scaffolded_onAxis (axisF_merge1 c (by decide)) h hs
  | tooltipCtor =>
      refine scaffolded_leafInit ?_ (by simp) h hs
      intro gs hd
      show mapKeysOK ["style", "x", "y"] (some (JVal.vObj gs)) = true
      have h1 := hasKey_of_truthyO (hd (ScafStep.flat "style") (by simp))
      have h2 := hasKey_of_truthyO (hd (ScafStep.flat "x") (by simp))
      have h3 := hasKey_of_truthyO (hd (ScafStep.flat "y") (by simp))
      simp [mapKeysOK, h1, h2, h3]
  | tEnabled b =>
      exact scaffolded_setLeaf_keys ["style", "x", "y"] h
        (by simp [scafKeys]) (fun u => rfl) hs
  | tShared b =>
      exact scaffolded_setLeaf_keys ["style", "x", "y"] h
        (by simp [scafKeys]) (fun u => rfl) hs
  | tFollowCursor b =>
      exact scaffolded_setLeaf_keys ["style", "x", "y"] h
        (by simp [scafKeys]) (fun u => rfl) hs
  | tTheme s =>
      exact scaffolded_setLeaf_keys ["style", "x", "y"] h
        (by simp [scafKeys]) (fun u => rfl) hs
  | tStyle c =>
      exact scaffolded_mergeSub_keys ["style", "x", "y"] h
        (by simp [scafKeys]) (fun u => rfl) hs
  | tCustom f =>
      exact scaffolded_setLeaf_keys ["style", "x", "y"] h
        (by simp [scafKeys]) (fun u => rfl) hs
  | tXFormatter f =>
      exact scaffolded_setLeaf2_keys ["style", "x", "y"] h
        (by simp [scafKeys]) (fun u => rfl) hs
  | tYFormatter f =>
      exact scaffolded_setLeaf2_keys ["style", "x", "y"] h
        (by simp [scafKeys]) (fun u => rfl) hs
  | legendCtor =>
      refine scaffolded_leafInit ?_ (by simp) h hs
      intro gs hd
      show mapKeysOK ["labels", "markers", "itemMargin"]
        (some (JVal.vObj gs)) = true
      have h1 := hasKey_of_truthyO (hd (ScafStep.flat "labels") (by simp))
      have h2 := hasKey_of_truthyO (hd (ScafStep.flat "markers") (by simp))
      have h3 := hasKey_of_truthyO
        (hd (ScafStep.flat "itemMargin") (by simp))
      simp [mapKeysOK, h1, h2, h3]
  | lShow b =>
      exact scaffolded_setLeaf_keys ["labels", "markers", "itemMargin"]
        h (by simp [scafKeys]) (fun u => rfl) hs
  | lPosition s =>
      exact scaffolded_setLeaf_keys ["labels", "markers", "itemMargin"]
        h (by simp [scafKeys]) (fun u => rfl) hs
  | lHorizontalAlign s =>
      exact scaffolded_setLeaf_keys ["labels", "markers", "itemMargin"]
        h (by simp [scafKeys]) (fun u => rfl) hs
  | lFontSize s =>
      exact scaffolded_setLeaf_keys ["labels", "markers", "itemMargin"]
        h (by simp [scafKeys]) (fun u => rfl) hs
  | lFontFamily s =>
      exact scaffolded_setLeaf_keys ["labels", "markers", "itemMargin"]
        h (by simp [scafKeys]) (fun u => rfl) hs
  | lLabels c =>
      exact scaffolded_mergeSub_keys ["labels", "markers", "itemMargin"]
        h (by simp [scafKeys]) (fun u => rfl) hs
  | lMarkers c =>
      exact scaffolded_mergeSub_keys ["labels", "markers", "itemMargin"]
        h (by simp [scafKeys]) (fun u => rfl) hs
  | lItemMargin c =>
      exact scaffolded_mergeSub_keys ["labels", "markers", "itemMargin"]
        h (by simp [scafKeys]) (fun u => rfl) hs
  | gridCtor =>
      refine scaffolded_leafInit ?_ (by simp) h hs
      intro gs hd
      show gridSlotOK (some (JVal.vObj gs)) = true
      exact gridSlotOK_mk
        (nestedHasKey_of_stepDone
          (hd (ScafStep.nested "xaxis" "lines") (by simp)))
        (nestedHasKey_of_stepDone
          (hd (ScafStep.nested "yaxis" "lines") (by simp)))
        (hasKey_of_truthyO (hd (ScafStep.flat "padding") (by simp)))
  | gShow b => exact scaffolded_setLeaf_grid (by decide) (by decide) h hs
  | gBorderColor s =>
      exact scaffolded_setLeaf_grid (by decide) (by decide) h hs
  | gStrokeDashArray n =>
      exact scaffolded_setLeaf_grid (by decide) (by decide) h hs
  | gPosition s =>
      exact scaffolded_setLeaf_grid (by decide) (by decide) h hs
  | gXaxis c => exact scaffolded_gridLines (Or.inl rfl) h hs
  | gYaxis c => exact scaffolded_gridLines (Or.inr rfl) h hs
  | gPadding c =>
      exact scaffolded_mergeSub_grid (by decide) (by decide) h hs
  | dataLabelsCtor =>
      refine scaffolded_leafInit ?_ (by simp) h hs
      intro gs hd
      show mapKeysOK ["style", "background"] (some (JVal.vObj gs)) = true
      have h1 := hasKey_of_truthyO (hd (ScafStep.flat "style") (by simp))
      have h2 := hasKey_of_truthyO
        (hd (ScafStep.flat "background") (by simp))
      simp [mapKeysOK, h1, h2]
  | dEnabled b =>
      exact scaffolded_setLeaf_keys ["style", "background"] h
        (by simp [scafKeys]) (fun u => rfl) hs
  | dFormatter f =>
      exact scaffolded_setLeaf_keys ["style", "background"] h
        (by simp [scafKeys]) (fun u => rfl) hs
  | dStyle c =>
      exact scaffolded_mergeSub_keys ["style", "background"] h
        (by simp [scafKeys]) (fun u => rfl) hs
  | dBackground c =>
      exact scaffolded_mergeSub_keys ["style", "background"] h
        (by simp [scafKeys]) (fun u => rfl) hs
  | dOffsetX n =>
      exact scaffolded_setLeaf_keys ["style", "background"] h
        (by simp [scafKeys]) (fun u => rfl) hs
  | dOffsetY n =>
      exact scaffolded_setLeaf_keys ["style", "background"] h
        (by simp [scafKeys]) (fun u => rfl) hs
  | markersCtor =>
      refine scaffolded_leafInit ?_ (by simp) h hs
      intro gs hd
      show mapKeysOK ["hover"] (some (JVal.vObj gs)) = true
      have h1 := hasKey_of_truthyO (hd (ScafStep.flat "hover") (by simp))
      simp [mapKeysOK, h1]
  | mSize v =>
      exact scaffolded_setLeaf_keys ["hover"] h
        (by simp [scafKeys]) (fun u => rfl) hs
  | mColors v =>
      exact scaffolded_setLeaf_keys ["hover"] h
        (by simp [scafKeys]) (fun u => rfl) hs
  | mStrokeColors v =>
      exact scaffolded_setLeaf_keys ["hover"] h
        (by simp [scafKeys]) (fun u => rfl) hs
  | mStrokeWidth v =>
      exact scaffolded_setLeaf_keys ["hover"] h
        (by simp [scafKeys]) (fun u => rfl) hs
  | mShape v =>
      exact scaffolded_setLeaf_keys ["hover"] h
        (by simp [scafKeys]) (fun u => rfl) hs
  | mRadius n =>
      exact scaffolded_setLeaf_keys ["hover"] h
        (by simp [scafKeys]) (fun u => rfl) hs
  | mHover c =>
      exact scaffolded_mergeSub_keys ["hover"] h
        (by simp [scafKeys]) (fun u => rfl) hs
  | themeCtor =>
      refine scaffolded_leafInit ?_ (by simp) h hs
      intro gs hd
      show mapKeysOK ["monochrome"] (some (JVal.vObj gs)) = true
      have h1 := hasKey_of_truthyO
        (hd (ScafStep.flat "monochrome") (by simp))
      simp [mapKeysOK, h1]
  | thMode s =>
      exact scaffolded_setLeaf_keys ["monochrome"] h
        (by simp [scafKeys]) (fun u => rfl) hs
  | thPalette s =>
      exact scaffolded_setLeaf_keys ["monochrome"] h
        (by simp [scafKeys]) (fun u => rfl) hs
  | thMonochrome c =>
      exact scaffolded_mergeSub_keys ["monochrome"] h
        (by simp [scafKeys]) (fun u => rfl) hs
  | bHorizontal b => exact plot_pres_of_lookups (plotSetLeaf_lookups h) hs
  | bColumnWidth s => exact plot_pres_of_lookups (plotSetLeaf_lookups h) hs
  | bBarHeight s => exact plot_pres_of_lookups (plotSetLeaf_lookups h) hs
  | bDistributed b => exact plot_pres_of_lookups (plotSetLeaf_lookups h) hs
  | bBorderRadius n => exact plot_pres_of_lookups (plotSetLeaf_lookups h) hs
  | bColors c => exact plot_pres_of_lookups (plotMerge_lookups h) hs
  | pStartAngle n => exact plot_pres_of_lookups (plotSetLeaf_lookups h) hs
  | pEndAngle n => exact plot_pres_of_lookups (plotSetLeaf_lookups h) hs
  | pExpandOnClick b =>
      exact plot_pres_of_lookups (plotSetLeaf_lookups h) hs
  | pDonut c => exact plot_pres_of_lookups (pieDonut_lookups h) hs
  | rHollow c => exact plot_pres_of_lookups (plotMerge_lookups h) hs
  | rTrack c => exact plot_pres_of_lookups (plotMerge_lookups h) hs
  | rDataLabels c =>
      exact plot_pres_of_lookups (radialDataLabels_lookups h) hs
  | hRadius n => exact plot_pres_of_lookups (plotSetLeaf_lookups h) hs
  | hEnableShades b => exact plot_pres_of_lookups (plotSetLeaf_lookups h) hs
  | hShadeIntensity n =>
      exact plot_pres_of_lookups (plotSetLeaf_lookups h) hs
  | hColorScale c => exact plot_pres_of_lookups (plotMerge_lookups h) hs
  | cTitle s =>
      obtain ⟨a, hg, rfl⟩ := setLeaf_shape h
      exact scaffolded_rootSet_out "title" _ _ (fun v0 => rfl) hs
  | cSubtitle s =>
      obtain ⟨a, hg, rfl⟩ := setLeaf_shape h
      exact scaffolded_rootSet_out "subtitle" _ _ (fun v0 => rfl) hs
  | cHeight v =>
      obtain ⟨a, hg, rfl⟩ := setLeaf_shape h
      exact scaffolded_rootSet_out "chart" _ _ (fun v0 => rfl) hs
  | cWidth v =>
      obtain ⟨a, hg, rfl⟩ := setLeaf_shape h
      exact scaffolded_rootSet_out "chart" _ _ (fun v0 => rfl) hs
  | cSeries v =>
      rw [← Except.ok.inj h]
      exact scaffolded_objSet_out "series" v (fun v0 => rfl) hs
  | cColors v =>
      rw [← Except.ok.inj h]
      exact scaffolded_objSet_out "colors" v (fun v0 => rfl) hs
  | cResponsive v =>
      rw [← Except.ok.inj h]
      exact scaffolded_objSet_out "responsive" v (fun v0 => rfl) hs
  | cStates c =>
      obtain ⟨w, rfl⟩ := chartStates_shape h
      exact scaffolded_objSet_out "states" w (fun v0 => rfl) hs
  | cAnimations c =>
      exact scaffolded_update "chart" (chartAnimations_lookups h) rfl hs

theorem runOps_pres : ∀ (ops : List Op) (t t' : Obj),
    scaffolded t = true → runOps ops t = Except.ok t' →
    scaffolded t' = true := by
  intro ops
  induction ops with
  | nil =>
      intro t t' hs h
      rw [← Except.ok.inj h]
      exact hs
  | cons op rest ih =>
      intro t t' hs h
      have h1 : (applyOp op t >>= fun t1 => runOps rest t1) =
          Except.ok t' := h
      cases ha : applyOp op t with
      | error u => rw [ha] at h1; exact Except.noConfusion h1
      | ok t1 =>
          rw [ha, ok_bind] at h1
          exact ih t1 t' (applyOp_pres ha hs) h1

set_option maxHeartbeats 2000000 in
theorem chartCreate_tree (ty : String) :
    chartCreate ty = Except.ok (c10tree ty) := by
  have e1 : axisInit true
      [("chart", JVal.vObj [("type", JVal.vStr ty)]),
      ("series", JVal.vArr [])] =
      Except.ok [("chart", JVal.vObj [("type", JVal.vStr ty)]),
      ("series", JVal.vArr []),
      ("xaxis", JVal.vObj
        [("title", JVal.vObj []),
         ("labels", JVal.vObj [("style", JVal.vObj [])]),
         ("axisBorder", JVal.vObj []),
         ("axisTicks", JVal.vObj []),
         ("crosshairs", JVal.vObj [])])] := rfl
  have e2 : axisInit false
      [("chart", JVal.vObj [("type", JVal.vStr ty)]),
      ("series", JVal.vArr []),
      ("xaxis", JVal.vObj
        [("title", JVal.vObj []),
         ("labels", JVal.vObj [("style", JVal.vObj [])]),
         ("axisBorder", JVal.vObj []),
         ("axisTicks", JVal.vObj []),
         ("crosshairs", JVal.vObj [])])] =
      Except.ok [("chart", JVal.vObj [("type", JVal.vStr ty)]),
      ("series", JVal.vArr []),
      ("xaxis", JVal.vObj
        [("title", JVal.vObj []),
         ("labels", JVal.vObj [("style", JVal.vObj [])]),
         ("axisBorder", JVal.vObj []),
         ("axisTicks", JVal.vObj []),
         ("crosshairs", JVal.vObj [])]),
      ("yaxis", JVal.vObj
        [("title", JVal.vObj []),
         ("labels", JVal.vObj [("style", JVal.vObj [])]),
         ("axisBorder", JVal.vObj []),
         ("axisTicks", JVal.vObj []),
         ("crosshairs", JVal.vObj [])])] := rfl
  have e3 : tooltipInit
      [("chart", JVal.vObj [("type", JVal.vStr ty)]),
      ("series", JVal.vArr []),
      ("xaxis", JVal.vObj
        [("title", JVal.vObj []),
         ("labels", JVal.vObj [("style", JVal.vObj [])]),
         ("axisBorder", JVal.vObj []),
         ("axisTicks", JVal.vObj []),
         ("crosshairs", JVal.vObj [])]),
      ("yaxis", JVal.vObj
        [("title", JVal.vObj []),
         ("labels", JVal.vObj [("style", JVal.vObj [])]),
         ("axisBorder", JVal.vObj []),
         ("axisTicks", JVal.vObj []),
         ("crosshairs", JVal.vObj [])])] =
      Except.ok [("chart", JVal.vObj [("type", JVal.vStr ty)]),
      ("series", JVal.vArr []),
      ("xaxis", JVal.vObj
        [("title", JVal.vObj []),
         ("labels", JVal.vObj [("style", JVal.vObj [])]),
         ("axisBorder", JVal.vObj []),
         ("axisTicks", JVal.vObj []),
         ("crosshairs", JVal.vObj [])]),
      ("yaxis", JVal.vObj
        [("title", JVal.vObj []),
         ("labels", JVal.vObj [("style", JVal.vObj [])]),
         ("axisBorder", JVal.vObj []),
         ("axisTicks", JVal.vObj []),
         ("crosshairs", JVal.vObj [])]),
      ("tooltip", JVal.vObj [("style", JVal.vObj []), ("x", JVal.vObj []), ("y", JVal.vObj [])])] := rfl
  have e4 : legendInit
      [("chart", JVal.vObj [("type", JVal.vStr ty)]),
      ("series", JVal.vArr []),
      ("xaxis", JVal.vObj
        [("title", JVal.vObj []),
         ("labels", JVal.vObj [("style", JVal.vObj [])]),
         ("axisBorder", JVal.vObj []),
         ("axisTicks", JVal.vObj []),
         ("crosshairs", JVal.vObj [])]),
      ("yaxis", JVal.vObj
        [("title", JVal.vObj []),
         ("labels", JVal.vObj [("style", JVal.vObj [])]),
         ("axisBorder", JVal.vObj []),
         ("axisTicks", JVal.vObj []),
         ("crosshairs", JVal.vObj [])]),
      ("tooltip", JVal.vObj [("style", JVal.vObj []), ("x", JVal.vObj []), ("y", JVal.vObj [])])] =
      Except.ok [("chart", JVal.vObj [("type", JVal.vStr ty)]),
      ("series", JVal.vArr []),
      ("xaxis", JVal.vObj
        [("title", JVal.vObj []),
         ("labels", JVal.vObj [("style", JVal.vObj [])]),
         ("axisBorder", JVal.vObj []),
         ("axisTicks", JVal.vObj []),
         ("crosshairs", JVal.vObj [])]),
      ("yaxis", JVal.vObj
        [("title", JVal.vObj []),
         ("labels", JVal.vObj [("style", JVal.vObj [])]),
         ("axisBorder", JVal.vObj []),
         ("axisTicks", JVal.vObj []),
         ("crosshairs", JVal.vObj [])]),
      ("tooltip", JVal.vObj [("style", JVal.vObj []), ("x", JVal.vObj []), ("y", JVal.vObj [])]),
      ("legend", JVal.vObj [("labels", JVal.vObj []), ("markers", JVal.vObj []), ("itemMargin", JVal.vObj [])])] := rfl
  have e5 : gridInit
      [("chart", JVal.vObj [("type", JVal.vStr ty)]),
      ("series", JVal.vArr []),
      ("xaxis", JVal.vObj
        [("title", JVal.vObj []),
         ("labels", JVal.vObj [("style", JVal.vObj [])]),
         ("axisBorder", JVal.vObj []),
         ("axisTicks", JVal.vObj []),
         ("crosshairs", JVal.vObj [])]),
      ("yaxis", JVal.vObj
        [("title", JVal.vObj []),
         ("labels", JVal.vObj [("style", JVal.vObj [])]),
         ("axisBorder", JVal.vObj []),
         ("axisTicks", JVal.vObj []),
         ("crosshairs", JVal.vObj [])]),
      ("tooltip", JVal.vObj [("style", JVal.vObj []), ("x", JVal.vObj []), ("y", JVal.vObj [])]),
      ("legend", JVal.vObj [("labels", JVal.vObj []), ("markers", JVal.vObj []), ("itemMargin", JVal.vObj [])])] =
      Except.ok [("chart", JVal.vObj [("type", JVal.vStr ty)]),
      ("series", JVal.vArr []),
      ("xaxis", JVal.vObj
        [("title", JVal.vObj []),
         ("labels", JVal.vObj [("style", JVal.vObj [])]),
         ("axisBorder", JVal.vObj []),
         ("axisTicks", JVal.vObj []),
         ("crosshairs", JVal.vObj [])]),
      ("yaxis", JVal.vObj
        [("title", JVal.vObj []),
         ("labels", JVal.vObj [("style", JVal.vObj [])]),
         ("axisBorder", JVal.vObj []),
         ("axisTicks", JVal.vObj []),
         ("crosshairs", JVal.vObj [])]),
      ("tooltip", JVal.vObj [("style", JVal.vObj []), ("x", JVal.vObj []), ("y", JVal.vObj [])]),
      ("legend", JVal.vObj [("labels", JVal.vObj []), ("markers", JVal.vObj []), ("itemMargin", JVal.vObj [])]),
      ("grid", JVal.vObj
        [("xaxis", JVal.vObj [("lines", JVal.vObj [])]),
         ("yaxis", JVal.vObj [("lines", JVal.vObj [])]),
         ("padding", JVal.vObj [])])] := rfl
  have e6 : dataLabelsInit
      [("chart", JVal.vObj [("type", JVal.vStr ty)]),
      ("series", JVal.vArr []),
      ("xaxis", JVal.vObj
        [("title", JVal.vObj []),
         ("labels", JVal.vObj [("style", JVal.vObj [])]),
         ("axisBorder", JVal.vObj []),
         ("axisTicks", JVal.vObj []),
         ("crosshairs", JVal.vObj [])]),
      ("yaxis", JVal.vObj
        [("title", JVal.vObj []),
         ("labels", JVal.vObj [("style", JVal.vObj [])]),
         ("axisBorder", JVal.vObj []),
         ("axisTicks", JVal.vObj []),
         ("crosshairs", JVal.vObj [])]),
      ("tooltip", JVal.vObj [("style", JVal.vObj []), ("x", JVal.vObj []), ("y", JVal.vObj [])]),
      ("legend", JVal.vObj [("labels", JVal.vObj []), ("markers", JVal.vObj []), ("itemMargin", JVal.vObj [])]),
      ("grid", JVal.vObj
        [("xaxis", JVal.vObj [("lines", JVal.vObj [])]),
         ("yaxis", JVal.vObj [("lines", JVal.vObj [])]),
         ("padding", JVal.vObj [])])] =
      Except.ok [("chart", JVal.vObj [("type", JVal.vStr ty)]),
      ("series", JVal.vArr []),
      ("xaxis", JVal.vObj
        [("title", JVal.vObj []),
         ("labels", JVal.vObj [("style", JVal.vObj [])]),
         ("axisBorder", JVal.vObj []),
         ("axisTicks", JVal.vObj []),
         ("crosshairs", JVal.vObj [])]),
      ("yaxis", JVal.vObj
        [("title", JVal.vObj []),
         ("labels", JVal.vObj [("style", JVal.vObj [])]),
         ("axisBorder", JVal.vObj []),
         ("axisTicks", JVal.vObj []),
         ("crosshairs", JVal.vObj [])]),
      ("tooltip", JVal.vObj [("style", JVal.vObj []), ("x", JVal.vObj []), ("y", JVal.vObj [])]),
      ("legend", JVal.vObj [("labels", JVal.vObj []), ("markers", JVal.vObj []), ("itemMargin", JVal.vObj [])]),
      ("grid", JVal.vObj
        [("xaxis", JVal.vObj [("lines", JVal.vObj [])]),
         ("yaxis", JVal.vObj [("lines", JVal.vObj [])]),
         ("padding", JVal.vObj [])]),
      ("dataLabels", JVal.vObj [("style", JVal.vObj []), ("background", JVal.vObj [])])] := rfl
  have e7 : markersInit
      [("chart", JVal.vObj [("type", JVal.vStr ty)]),
      ("series", JVal.vArr []),
      ("xaxis", JVal.vObj
        [("title", JVal.vObj []),
         ("labels", JVal.vObj [("style", JVal.vObj [])]),
         ("axisBorder", JVal.vObj []),
         ("axisTicks", JVal.vObj []),
         ("crosshairs", JVal.vObj [])]),
      ("yaxis", JVal.vObj
        [("title", JVal.vObj []),
         ("labels", JVal.vObj [("style", JVal.vObj [])]),
         ("axisBorder", JVal.vObj []),
         ("axisTicks", JVal.vObj []),
         ("crosshairs", JVal.vObj [])]),
      ("tooltip", JVal.vObj [("style", JVal.vObj []), ("x", JVal.vObj []), ("y", JVal.vObj [])]),
      ("legend", JVal.vObj [("labels", JVal.vObj []), ("markers", JVal.vObj []), ("itemMargin", JVal.vObj [])]),
      ("grid", JVal.vObj
        [("xaxis", JVal.vObj [("lines", JVal.vObj [])]),
         ("yaxis", JVal.vObj [("lines", JVal.vObj [])]),
         ("padding", JVal.vObj [])]),
      ("dataLabels", JVal.vObj [("style", JVal.vObj []), ("background", JVal.vObj [])])] =
      Except.ok [("chart", JVal.vObj [("type", JVal.vStr ty)]),
      ("series", JVal.vArr []),
      ("xaxis", JVal.vObj
        [("title", JVal.vObj []),
         ("labels", JVal.vObj [("style", JVal.vObj [])]),
         ("axisBorder", JVal.vObj []),
         ("axisTicks", JVal.vObj []),
         ("crosshairs", JVal.vObj [])]),
      ("yaxis", JVal.vObj
        [("title", JVal.vObj []),
         ("labels", JVal.vObj [("style", JVal.vObj [])]),
         ("axisBorder", JVal.vObj []),
         ("axisTicks", JVal.vObj []),
         ("crosshairs", JVal.vObj [])]),
      ("tooltip", JVal.vObj [("style", JVal.vObj []), ("x", JVal.vObj []), ("y", JVal.vObj [])]),
      ("legend", JVal.vObj [("labels", JVal.vObj []), ("markers", JVal.vObj []), ("itemMargin", JVal.vObj [])]),
      ("grid", JVal.vObj
        [("xaxis", JVal.vObj [("lines", JVal.vObj [])]),
         ("yaxis", JVal.vObj [("lines", JVal.vObj [])]),
         ("padding", JVal.vObj [])]),
      ("dataLabels", JVal.vObj [("style", JVal.vObj []), ("background", JVal.vObj [])]),
      ("markers", JVal.vObj [("hover", JVal.vObj [])])] := rfl
  have e8 : themeInit
      [("chart", JVal.vObj [("type", JVal.vStr ty)]),
      ("series", JVal.vArr []),
      ("xaxis", JVal.vObj
        [("title", JVal.vObj []),
         ("labels", JVal.vObj [("style", JVal.vObj [])]),
         ("axisBorder", JVal.vObj []),
         ("axisTicks", JVal.vObj []),
         ("crosshairs", JVal.vObj [])]),
      ("yaxis", JVal.vObj
        [("title", JVal.vObj []),
         ("labels", JVal.vObj [("style", JVal.vObj [])]),
         ("axisBorder", JVal.vObj []),
         ("axisTicks", JVal.vObj []),
         ("crosshairs", JVal.vObj [])]),
      ("tooltip", JVal.vObj [("style", JVal.vObj []), ("x", JVal.vObj []), ("y", JVal.vObj [])]),
      ("legend", JVal.vObj [("labels", JVal.vObj []), ("markers", JVal.vObj []), ("itemMargin", JVal.vObj [])]),
      ("grid", JVal.vObj
        [("xaxis", JVal.vObj [("lines", JVal.vObj [])]),
         ("yaxis", JVal.vObj [("lines", JVal.vObj [])]),
         ("padding", JVal.vObj [])]),
      ("dataLabels", JVal.vObj [("style", JVal.vObj []), ("background", JVal.vObj [])]),
      ("markers", JVal.vObj [("hover", JVal.vObj [])])] =
      Except.ok [("chart", JVal.vObj [("type", JVal.vStr ty)]),
      ("series", JVal.vArr []),
      ("xaxis", JVal.vObj
        [("title", JVal.vObj []),
         ("labels", JVal.vObj [("style", JVal.vObj [])]),
         ("axisBorder", JVal.vObj []),
         ("axisTicks", JVal.vObj []),
         ("crosshairs", JVal.vObj [])]),
      ("yaxis", JVal.vObj
        [("title", JVal.vObj []),
         ("labels", JVal.vObj [("style", JVal.vObj [])]),
         ("axisBorder", JVal.vObj []),
         ("axisTicks", JVal.vObj []),
         ("crosshairs", JVal.vObj [])]),
      ("tooltip", JVal.vObj [("style", JVal.vObj []), ("x", JVal.vObj []), ("y", JVal.vObj [])]),
      ("legend", JVal.vObj [("labels", JVal.vObj []), ("markers", JVal.vObj []), ("itemMargin", JVal.vObj [])]),
      ("grid", JVal.vObj
        [("xaxis", JVal.vObj [("lines", JVal.vObj [])]),
         ("yaxis", JVal.vObj [("lines", JVal.vObj [])]),
         ("padding", JVal.vObj [])]),
      ("dataLabels", JVal.vObj [("style", JVal.vObj []), ("background", JVal.vObj [])]),
      ("markers", JVal.vObj [("hover", JVal.vObj [])]),
      ("theme", JVal.vObj [("monochrome", JVal.vObj [])])] := rfl
  show (axisInit true [("chart", JVal.vObj [("type", JVal.vStr ty)]),
      ("series", JVal.vArr [])] >>= fun o =>
      axisInit false o >>= fun o => tooltipInit o >>= fun o =>
      legendInit o >>= fun o => gridInit o >>= fun o =>
      dataLabelsInit o >>= fun o => markersInit o >>= fun o =>
      themeInit o >>= fun o => pure (ensurePlotOptions o)) =
      Except.ok (c10tree ty)
  rw [e1, ok_bind, e2, ok_bind, e3, ok_bind, e4, ok_bind, e5, ok_bind,
    e6, ok_bind, e7, ok_bind, e8, ok_bind]
  rfl


theorem scaffolded_c10tree (ty : String) :
    scaffolded (c10tree ty) = true := rfl

theorem splitDotAux_ne_nil : ∀ (cs : List Char) (acc : List Char),
    splitDotAux cs acc ≠ [] := by
  intro cs
  induction cs with
  | nil =>
      intro acc h
      exact List.noConfusion h
  | cons c tl ih =>
      intro acc
      unfold splitDotAux
      by_cases hc : c = '.'
      · simp [hc]
      · simp only [if_neg hc]
        exact ih _

theorem splitDot_ne_nil (s : String) : splitDot s ≠ [] :=
  splitDotAux_ne_nil s.data []

theorem setPathGo_root_shape {o : Obj} {v : JVal} :
    ∀ (segs : List String) {r : JVal}, segs ≠ [] →
    setPathGo (JVal.vObj o) segs v = Except.ok r →
    ∃ seg w, r = JVal.vObj (objSet o seg w) := by
  intro segs
  cases segs with
  | nil => intro r h; exact absurd rfl h
  | cons p rest =>
      intro r _ h
      cases rest with
      | nil =>
          have h1 : Except.ok (JVal.vObj (objSet o p v)) = Except.ok r := h
          exact ⟨p, v, (Except.ok.inj h1).symm⟩
      | cons q rest2 =>
          have key : ∀ (c : JVal),
              (setPathGo c (q :: rest2) v >>= fun child2 =>
                jsSet (JVal.vObj o) p child2) = Except.ok r →
              ∃ seg w, r = JVal.vObj (objSet o seg w) := by
            intro c hc
            cases hch : setPathGo c (q :: rest2) v with
            | error u => rw [hch] at hc; exact Except.noConfusion hc
            | ok ch =>
                rw [hch, ok_bind, jsSet_obj] at hc
                exact ⟨p, ch, (Except.ok.inj hc).symm⟩
          have keyN : (setPathGo (JVal.vObj []) (q :: rest2) v >>=
              fun child2 =>
                jsSet (JVal.vObj (objSet o p (JVal.vObj []))) p child2) =
              Except.ok r →
              ∃ seg w, r = JVal.vObj (objSet o seg w) := by
            intro hc
            cases hch : setPathGo (JVal.vObj []) (q :: rest2) v with
            | error u => rw [hch] at hc; exact Except.noConfusion hc
            | ok ch =>
                rw [hch, ok_bind, jsSet_obj] at hc
                refine ⟨p, ch, ?_⟩
                rw [← Except.ok.inj hc, objSet_objSet_same]
          have h1 : (match objGet o p with
            | none => do
                let cur2 ← jsSet (JVal.vObj o) p (JVal.vObj [])
                let child2 ← setPathGo (JVal.vObj []) (q :: rest2) v
                jsSet cur2 p child2
            | some JVal.vNull => do
                let cur2 ← jsSet (JVal.vObj o) p (JVal.vObj [])
                let child2 ← setPathGo (JVal.vObj []) (q :: rest2) v
                jsSet cur2 p child2
            | some c => do
                let child2 ← setPathGo c (q :: rest2) v
                jsSet (JVal.vObj o) p child2) = Except.ok r := h
          cases hg : objGet o p with
          | none =>
              rw [hg] at h1
              exact keyN h1
          | some c =>
              rw [hg] at h1
              cases c with
              | vNull => exact keyN h1
              | vObj fs => exact key _ h1
              | vBool b => exact key _ h1
              | vNum n => exact key _ h1
              | vStr s2 => exact key _ h1
              | vArr l => exact key _ h1
              | vFun i2 => exact key _ h1

theorem setOption_keeps_roots {o : Obj} {path : String} {v : JVal}
    {r : JVal} (h : setOption o path v = Except.ok r) :
    ∃ fs, r = JVal.vObj fs ∧
      ∀ k, hasKey o k = true → hasKey fs k = true := by
  unfold setOption at h
  obtain ⟨seg, w, rfl⟩ :=
    setPathGo_root_shape (splitDot path) (splitDot_ne_nil path) h
  exact ⟨_, rfl, fun k hk => hasKey_objSet _ _ hk⟩

/-- The generic `setOption` escape hatch is the one builder operation that can
strip a component's eagerly scaffolded children: writing a number over the
whole `xaxis` slot succeeds, the nine component keys all stay present, but the
scaffolding invariant no longer holds (xaxis has no children at all). -/
theorem setOption_strips_scaffolding :
    setOption (c10tree "line") "xaxis" (JVal.vNum 5) =
      Except.ok (JVal.vObj (objSet (c10tree "line") "xaxis"
        (JVal.vNum 5))) ∧
    scaffolded (objSet (c10tree "line") "xaxis" (JVal.vNum 5)) = false ∧
    scafKeys.all (fun k =>
      hasKey (objSet (c10tree "line") "xaxis" (JVal.vNum 5)) k) = true :=
  ⟨rfl, rfl, rfl⟩

/-- C10 (amended): constructing a Chart of any type yields exactly the fully
scaffolded tree `c10tree ty` — the keys xaxis, yaxis, tooltip, legend, grid,
dataLabels, markers, theme and plotOptions are all present with their eagerly
created children as empty mappings, beside the seeded chart type and empty
series — and the invariant `scaffolded` (every component key present, each
with its scaffolded children) is preserved by every sequence of typed builder
operations that succeeds, so the exported tree is never limited to the keys
the caller configured.  The generic `setOption` escape hatch keeps every
top-level key present but may replace a component subtree wholesale, which
can strip the scaffolded children (its result is still a mapping retaining
every prior top-level key). -/
theorem always_scaffolded :
    (∀ ty, chartCreate ty = Except.ok (c10tree ty) ∧
      scaffolded (c10tree ty) = true) ∧
    (∀ ops t t', scaffolded t = true → runOps ops t = Except.ok t' →
      scaffolded t' = true) ∧
    (∀ o path v r, setOption o path v = Except.ok r →
      ∃ fs, r = JVal.vObj fs ∧
        ∀ k, hasKey o k = true → hasKey fs k = true) :=
  ⟨fun ty => ⟨chartCreate_tree ty, scaffolded_c10tree ty⟩,
   runOps_pres,
   fun _ _ _ _ h => setOption_keeps_roots h⟩

theorem always_scaffolded_witness :
    scaffolded (c10tree "line") = true ∧
    runOps c10ops (c10tree "line") = Except.ok c10w ∧
    scaffolded c10w = true ∧
    setOption (c10tree "line") "title.text" (JVal.vStr "T") =
      Except.ok c10r ∧
    (∃ fs, c10r = JVal.vObj fs ∧
      ∀ k, hasKey (c10tree "line") k = true → hasKey fs k = true) :=
  ⟨(always_scaffolded.1 "line").2, rfl,
   always_scaffolded.2.1 c10ops (c10tree "line") c10w
     (always_scaffolded.1 "line").2 rfl,
   rfl,
   always_scaffolded.2.2 (c10tree "line") "title.text" (JVal.vStr "T")
     c10r rfl⟩
